import Mathlib

/-!
GSECD dashboard: the CSV ingestion pipelines, the page states and the
session.

A shallow embedding of the row processing, the loaders and the chart data of
the pages `src/pages/Energy.js`, `src/pages/Finance.js`, `src/pages/Food.js`
and `src/pages/prediction.js`, and of the submit handlers of
`src/pages/Login.js` and `src/pages/Signup.js`, with the properties of the
specification that are settled on it.

Modelling conventions.

* A JavaScript number is a `JSNum`: `NaN`, the two infinities, or a finite
  value.  Finite values are exact rationals: the rounding of the 53-bit
  format (and with it overflow and underflow) is not modelled, and the two
  zeros are one value.
* `null` is `none` of an `Option`; `undefined` (an absent field of a parsed
  row) is `none` of the raw field.
* A row of `results.data` is an association list from column name to the raw
  string of the cell.
* Library calls whose result depends on the environment (`chrono.parseDate`,
  the `Date` constructor) are parameters of the pipelines.
* A loader is a function from the outcome of its fetch (`Fetched`) and the
  state of the page to the state after its setter calls; what a component
  renders is a value (`CardView`, `FoodView`).
* The `length` of a string counts UTF-16 code units (`jsLength`).
-/

set_option autoImplicit false

namespace GSECD

/-! ## JavaScript numbers -/

/-- A JavaScript number. -/
inductive JSNum where
  | nan
  | posInf
  | negInf
  | fin (q : ℚ)
  deriving DecidableEq, Repr

namespace JSNum

/-- The test `isNaN(x)` on a number. -/
def isNaN : JSNum → Bool
  | nan => true
  | _ => false

/-- The test `isFinite(x)`: neither `NaN` nor an infinity. -/
def isFinite : JSNum → Bool
  | fin _ => true
  | _ => false

/-- The truthiness of a number (`ToBoolean`): false for `NaN` and for zero. -/
def truthy : JSNum → Bool
  | nan => false
  | fin q => decide (q ≠ 0)
  | _ => true

/-- Unary minus. -/
def neg : JSNum → JSNum
  | nan => nan
  | posInf => negInf
  | negInf => posInf
  | fin q => fin (-q)

/-- The operator `+` on two numbers. -/
def add : JSNum → JSNum → JSNum
  | nan, _ => nan
  | _, nan => nan
  | posInf, negInf => nan
  | negInf, posInf => nan
  | posInf, _ => posInf
  | _, posInf => posInf
  | negInf, _ => negInf
  | _, negInf => negInf
  | fin a, fin b => fin (a + b)

/-- The operator `*` on two numbers.  The product of two finite values is
exact: overflow to an infinity is not modelled. -/
def mul : JSNum → JSNum → JSNum
  | nan, _ => nan
  | _, nan => nan
  | fin a, fin b => fin (a * b)
  | fin a, posInf => if a = 0 then nan else if 0 < a then posInf else negInf
  | fin a, negInf => if a = 0 then nan else if 0 < a then negInf else posInf
  | posInf, fin b => if b = 0 then nan else if 0 < b then posInf else negInf
  | negInf, fin b => if b = 0 then nan else if 0 < b then negInf else posInf
  | posInf, posInf => posInf
  | negInf, negInf => posInf
  | posInf, negInf => negInf
  | negInf, posInf => negInf

/-- The operator `/` on two numbers.  The divisors of the pages are array
lengths and counts, so a zero divisor is the positive zero. -/
def div : JSNum → JSNum → JSNum
  | nan, _ => nan
  | _, nan => nan
  | fin a, fin b =>
      if b = 0 then (if a = 0 then nan else if 0 < a then posInf else negInf)
      else fin (a / b)
  | fin _, _ => fin 0
  | posInf, fin b => if 0 ≤ b then posInf else negInf
  | negInf, fin b => if 0 ≤ b then negInf else posInf
  | _, _ => nan

end JSNum

/-! ## `parseFloat` -/

/-- The characters `TrimString` removes (ECMAScript `WhiteSpace` and
`LineTerminator`). -/
def isStrWhiteSpace (c : Char) : Bool :=
  let n := c.toNat
  n = 0x09 || n = 0x0A || n = 0x0B || n = 0x0C || n = 0x0D || n = 0x20 ||
  n = 0xA0 || n = 0x1680 || (0x2000 ≤ n && n ≤ 0x200A) || n = 0x2028 ||
  n = 0x2029 || n = 0x202F || n = 0x205F || n = 0x3000 || n = 0xFEFF

/-- A decimal digit `0`..`9`. -/
def isDecDigit (c : Char) : Bool :=
  decide (48 ≤ c.toNat) && decide (c.toNat ≤ 57)

/-- The value of a run of decimal digits. -/
def digitsVal (ds : List Char) : Nat :=
  ds.foldl (fun n c => 10 * n + (c.toNat - 48)) 0

/-- The value of the longest `ExponentPart` that starts the input, `0` when
the input starts with none (`e` or `E`, an optional sign, at least one
digit). -/
def exponentVal : List Char → Int
  | c :: rest =>
    if c = 'e' ∨ c = 'E' then
      match rest with
      | '+' :: r =>
        let ds := r.takeWhile isDecDigit
        if ds.isEmpty then 0 else (digitsVal ds : Int)
      | '-' :: r =>
        let ds := r.takeWhile isDecDigit
        if ds.isEmpty then 0 else -(digitsVal ds : Int)
      | r =>
        let ds := r.takeWhile isDecDigit
        if ds.isEmpty then 0 else (digitsVal ds : Int)
    else 0
  | [] => 0

/-- The rational `m * 10 ^ e`. -/
def scale10 (m : Nat) (e : Int) : ℚ :=
  if 0 ≤ e then (m : ℚ) * (10 : ℚ) ^ e.toNat else (m : ℚ) / (10 : ℚ) ^ (-e).toNat

/-- What a `StrUnsignedDecimalLiteral` denotes: `Infinity`, or the decimal
`mant * 10 ^ exp`. -/
inductive StrLit where
  | infinity
  | decimal (mant : Nat) (exp : Int)
  deriving DecidableEq, Repr

/-- The number a literal denotes. -/
def StrLit.val : StrLit → JSNum
  | infinity => JSNum.posInf
  | decimal m e => JSNum.fin (scale10 m e)

/-- The longest prefix that is a `StrUnsignedDecimalLiteral`; `none` when no
prefix is one.  The forms are `Infinity`, `digits`, `digits.`, `digits.digits`
and `.digits`, the last four with an optional exponent part. -/
def scanUnsigned (cs : List Char) : Option StrLit :=
  if "Infinity".toList.isPrefixOf cs then some StrLit.infinity
  else
    let ip := cs.takeWhile isDecDigit
    let r1 := cs.dropWhile isDecDigit
    let fp := match r1 with
      | '.' :: r => r.takeWhile isDecDigit
      | _ => []
    let r2 := match r1 with
      | '.' :: r => r.dropWhile isDecDigit
      | _ => r1
    if ip.isEmpty && fp.isEmpty then none
    else some (StrLit.decimal (digitsVal (ip ++ fp)) (exponentVal r2 - (fp.length : Int)))

/-- The longest prefix of the trimmed string that is a `StrDecimalLiteral`:
whether it has a minus sign, and its unsigned part. -/
def scanFloat (s : String) : Option (Bool × StrLit) :=
  match s.toList.dropWhile isStrWhiteSpace with
  | '+' :: r => (scanUnsigned r).map (fun u => (false, u))
  | '-' :: r => (scanUnsigned r).map (fun u => (true, u))
  | r => (scanUnsigned r).map (fun u => (false, u))

/-- The global function `parseFloat` on a string: leading white space is
skipped, the longest prefix that is a `StrDecimalLiteral` is read, and the
result is `NaN` when there is none.  A decimal literal is read as its exact
value: a literal beyond the range of the number format, which the code reads
as an infinity or as zero, keeps its value here. -/
def parseFloatStr (s : String) : JSNum :=
  match scanFloat s with
  | none => JSNum.nan
  | some (true, u) => u.val.neg
  | some (false, u) => u.val

/-- The call `parseFloat(row.f)` on a raw field: an absent field is
`undefined`, whose string `"undefined"` has no numeric prefix. -/
def parseFloat : Option String → JSNum
  | some s => parseFloatStr s
  | none => JSNum.nan

/-! ## `parseInt` -/

/-- The value of a digit in radix 16, `none` for any other character. -/
def hexDigitVal (c : Char) : Option Nat :=
  let n := c.toNat
  if 48 ≤ n ∧ n ≤ 57 then some (n - 48)
  else if 97 ≤ n ∧ n ≤ 102 then some (n - 87)
  else if 65 ≤ n ∧ n ≤ 70 then some (n - 55)
  else none

/-- The digits of the longest prefix that is a numeral of the radix
(10 or 16), most significant first. -/
def radixDigits (hex : Bool) : List Char → List Nat
  | [] => []
  | c :: cs =>
    match hexDigitVal c with
    | some d => if hex || decide (d < 10) then d :: radixDigits hex cs else []
    | none => []

/-- The integer read from the input after the sign: a `0x` or `0X` prefix
selects radix 16, otherwise the radix is 10; `none` when there is no digit. -/
def scanIntBody (cs : List Char) : Option Nat :=
  let hex := match cs with
    | '0' :: 'x' :: _ => true
    | '0' :: 'X' :: _ => true
    | _ => false
  let ds := radixDigits hex (if hex then cs.drop 2 else cs)
  if ds.isEmpty then none
  else some (ds.foldl (fun n d => (if hex then 16 else 10) * n + d) 0)

/-- The global function `parseInt` with no radix argument, on a raw field. -/
def parseInt : Option String → JSNum
  | none => JSNum.nan
  | some s =>
    match s.toList.dropWhile isStrWhiteSpace with
    | '+' :: r => ((scanIntBody r).map (fun n => JSNum.fin (n : ℚ))).getD JSNum.nan
    | '-' :: r => ((scanIntBody r).map (fun n => JSNum.fin (-(n : ℚ)))).getD JSNum.nan
    | r => ((scanIntBody r).map (fun n => JSNum.fin (n : ℚ))).getD JSNum.nan

/-! ## Rows, truthiness and dates -/

/-- A row of `results.data` (Papa Parse with `header: true`): the cells of
one line, keyed by column name. -/
abbrev RawRow := List (String × String)

/-- The property access `row.name`: `none` is `undefined`. -/
def RawRow.field (row : RawRow) (name : String) : Option String :=
  row.lookup name

/-- The truthiness of a raw field: `undefined` and the empty string are
falsy, every other string is truthy. -/
def strTruthy : Option String → Bool
  | none => false
  | some s => decide (s ≠ "")

/-- The expression `x || d` on a raw field and a string default. -/
def strOr (x : Option String) (d : String) : String :=
  match x with
  | some s => if s ≠ "" then s else d
  | none => d

/-- The expression `x || null` on a number. -/
def orNull (x : JSNum) : Option JSNum :=
  if x.truthy then some x else none

/-- The expression `x || 0` on a number. -/
def orZero (x : JSNum) : JSNum :=
  if x.truthy then x else JSNum.fin 0

/-- The expression `raw === "NA" ? null : e`. -/
def unlessNA (raw : Option String) (e : Option JSNum) : Option JSNum :=
  if raw = some "NA" then none else e

/-- A `Date` object, as far as the pages read it: `invalid` is the Invalid
Date (time value `NaN`), otherwise the local calendar year, the month
`0`..`11` that `getMonth()` returns, and the day of the month. -/
inductive JSDate where
  | invalid
  | valid (year : Int) (month : Fin 12) (day : Nat)
  deriving DecidableEq, Repr

/-- The result of `chrono.parseDate(row.date)`: a `Date`, or `null`. -/
abbrev DateParser := Option String → Option JSDate

/-- The result of `new Date(str)` on a string. -/
abbrev DateCtor := String → JSDate

/-! ## Energy (`src/pages/Energy.js`) -/

/-- A processed record of `plot_3a1.csv`. -/
structure OilRecord where
  date : JSDate
  europe : Option JSNum
  middleeast : Option JSNum
  russia : Option JSNum
  deriving DecidableEq, Repr

/-- The `.map` callback of the first dataset: `null` for a row whose date
does not parse, otherwise the coerced record. -/
def oilRow (chrono : DateParser) (row : RawRow) : Option OilRecord :=
  match chrono (row.field "date") with
  | none => none
  | some date =>
    some { date := date
           europe := orNull (parseFloat (row.field "europe"))
           middleeast := orNull (parseFloat (row.field "middleeast"))
           russia := unlessNA (row.field "russia") (orNull (parseFloat (row.field "russia"))) }

/-- The value `processedData` of the first dataset: the mapped rows, without
the `null`s, without the records whose three fields are all `null`. -/
def oilProcessed (chrono : DateParser) (rows : List RawRow) : List OilRecord :=
  (((rows.map (oilRow chrono)).filter (fun row => row.isSome)).reduceOption).filter
    (fun row => row.europe.isSome || row.middleeast.isSome || row.russia.isSome)

/-- A processed record of `plot_3b1.csv`. -/
structure Oil2Record where
  date : JSDate
  asia : Option JSNum
  europe : Option JSNum
  us : Option JSNum
  deriving DecidableEq, Repr

/-- The `.map` callback of the second dataset. -/
def oil2Row (chrono : DateParser) (row : RawRow) : Option Oil2Record :=
  match chrono (row.field "date") with
  | none => none
  | some date =>
    some { date := date
           asia := orNull (parseFloat (row.field "asia"))
           europe := orNull (parseFloat (row.field "europe"))
           us := orNull (parseFloat (row.field "us")) }

/-- The value `processed` of the second dataset: one filter,
`r && (r.asia !== null || r.europe !== null || r.us !== null)`. -/
def oil2Processed (chrono : DateParser) (rows : List RawRow) : List Oil2Record :=
  ((rows.map (oil2Row chrono)).filter (fun r =>
      match r with
      | none => false
      | some r => r.asia.isSome || r.europe.isSome || r.us.isSome)).reduceOption

/-! ## Finance (`src/pages/Finance.js`) -/

/-- A processed record of `plot_4a1.csv` (exchange rate index). -/
structure ExchangeRecord where
  date : Option String
  africa : Option JSNum
  asiaoceania : Option JSNum
  america : Option JSNum
  deriving DecidableEq, Repr

/-- The `.map` callback of `loadExchangeRateData`. -/
def exchangeRow (row : RawRow) : ExchangeRecord :=
  { date := row.field "date"
    africa := orNull (parseFloat (row.field "africa"))
    asiaoceania := orNull (parseFloat (row.field "asiaoceania"))
    america := orNull (parseFloat (row.field "america")) }

/-- The value `processedData` of `loadExchangeRateData`. -/
def exchangeProcessed (rows : List RawRow) : List ExchangeRecord :=
  (rows.map exchangeRow).filter (fun row =>
    strTruthy row.date && (row.africa.isSome || row.asiaoceania.isSome || row.america.isSome))

/-- A processed record of `plot_4b2.csv` (international reserves). -/
structure ReservesRecord where
  date : Option String
  developed : Option JSNum
  developing : Option JSNum
  africa : Option JSNum
  asiaoceania : Option JSNum
  america : Option JSNum
  deriving DecidableEq, Repr

/-- The coercion of one reserves field:
`raw === "NA" ? null : parseFloat(raw)`. -/
def reservesField (raw : Option String) : Option JSNum :=
  unlessNA raw (some (parseFloat raw))

/-- The `.map` callback of `loadReservesData`. -/
def reservesRow (row : RawRow) : ReservesRecord :=
  { date := row.field "date"
    developed := reservesField (row.field "developed_4b2")
    developing := reservesField (row.field "developing_4b2")
    africa := reservesField (row.field "africa_4b2")
    asiaoceania := reservesField (row.field "asiaoceania_4b2")
    america := reservesField (row.field "america_4b2") }

/-- The value `processedData` of `loadReservesData`. -/
def reservesProcessed (rows : List RawRow) : List ReservesRecord :=
  (rows.map reservesRow).filter (fun row => strTruthy row.date)

/-! ## Prediction (`src/pages/prediction.js`) -/

/-- A record of `cleanedData`. -/
structure PredictionRecord where
  date : Option JSDate
  geography : Option String
  countries : Option String
  development_status : String
  developing_region : String
  crisis_probability : JSNum
  crisis_predicted : JSNum
  crisis_type : String
  deriving DecidableEq, Repr

/-- The `.map` callback of the Prediction loader. -/
def predictionRow (chrono : DateParser) (row : RawRow) : PredictionRecord :=
  { date := chrono (row.field "date")
    geography := row.field "geography"
    countries := row.field "countries"
    development_status := strOr (row.field "development_status") "Unknown"
    developing_region := strOr (row.field "developing_region") "Unknown"
    crisis_probability := orZero (parseFloat (row.field "crisis_probability"))
    crisis_predicted := orZero (parseInt (row.field "crisis_predicted"))
    crisis_type := strOr (row.field "crisis_type") "None" }

/-- The value `cleanedData`: the mapped rows that pass
`row.date && !isNaN(row.crisis_probability)`. -/
def cleanedData (chrono : DateParser) (rows : List RawRow) : List PredictionRecord :=
  (rows.map (predictionRow chrono)).filter (fun row =>
    row.date.isSome && !row.crisis_probability.isNaN)

/-! ## Food (`src/pages/Food.js`) -/

/-- The template string of `processAgriData`,
`${getFullYear()}-${getMonth() + 1}`: the getters of an Invalid Date return
`NaN`, which prints as `NaN`. -/
def monthKey : JSDate → String
  | JSDate.invalid => "NaN-NaN"
  | JSDate.valid year month _ => toString year ++ "-" ++ toString (month.val + 1)

/-- One entry of `monthlyData`: the five arrays of a month. -/
structure Bucket where
  dates : List JSDate
  index : List JSNum
  corn : List JSNum
  rice : List JSNum
  wheat : List JSNum
  deriving DecidableEq, Repr

/-- The object `monthlyData`: its own properties in creation order.  A month
key always holds a `-`, so it is never an array index and the order in which
`for ... in` visits the keys is their creation order; nor is it the name of
a property inherited from `Object.prototype`, so `monthlyData[key]` is
`undefined` until the key is created. -/
abbrev MonthlyData := List (String × Bucket)

/-- The literal `{ dates: [], index: [], corn: [], rice: [], wheat: [] }`. -/
def Bucket.empty : Bucket :=
  { dates := [], index := [], corn := [], rice := [], wheat := [] }

/-- The five `push` calls on a bucket. -/
def Bucket.push (b : Bucket) (d : JSDate) (row : RawRow) : Bucket :=
  { dates := b.dates ++ [d]
    index := b.index ++ [parseFloat (row.field "index")]
    corn := b.corn ++ [parseFloat (row.field "corn")]
    rice := b.rice ++ [parseFloat (row.field "rice")]
    wheat := b.wheat ++ [parseFloat (row.field "wheat")] }

/-- The guard of `processAgriData`, negated: the row has a truthy `date` and
a truthy `index`. -/
def agriAccepts (row : RawRow) : Bool :=
  strTruthy (row.field "date") && strTruthy (row.field "index")

/-- The body of the `forEach` of `processAgriData` on one row.  Past the
guard `row.date` is a string that is not empty, the argument of `new Date`. -/
def agriStep (newDate : DateCtor) (md : MonthlyData) (row : RawRow) : MonthlyData :=
  if agriAccepts row then
    let parsedDate := newDate ((row.field "date").getD "")
    let key := monthKey parsedDate
    let md1 := if (md.lookup key).isNone then md ++ [(key, Bucket.empty)] else md
    md1.map (fun kb => if kb.1 = key then (kb.1, kb.2.push parsedDate row) else kb)
  else md

/-- The object `monthlyData` after the `forEach`. -/
def agriMonthly (newDate : DateCtor) (rows : List RawRow) : MonthlyData :=
  rows.foldl (agriStep newDate) []

/-- The helper `avg` of `processAgriData`:
`arr.reduce((a, b) => a + b, 0) / arr.length`. -/
def avg (arr : List JSNum) : JSNum :=
  JSNum.div (arr.foldl JSNum.add (JSNum.fin 0)) (JSNum.fin (arr.length : ℚ))

/-- The object `processAgriData` returns.  An entry of `dates` is
`data.dates[0]`, which is `undefined` (`none`) on an empty array. -/
structure AgriData where
  dates : List (Option JSDate)
  index : List JSNum
  corn : List JSNum
  rice : List JSNum
  wheat : List JSNum
  deriving DecidableEq, Repr

/-- The function `processAgriData`. -/
def processAgriData (newDate : DateCtor) (rawData : List RawRow) : AgriData :=
  let monthlyData := agriMonthly newDate rawData
  { dates := monthlyData.map (fun kb => kb.2.dates.head?)
    index := monthlyData.map (fun kb => avg kb.2.index)
    corn := monthlyData.map (fun kb => avg kb.2.corn)
    rice := monthlyData.map (fun kb => avg kb.2.rice)
    wheat := monthlyData.map (fun kb => avg kb.2.wheat) }

/-- The object `processInflationData` returns. -/
structure InflationData where
  dates : List JSDate
  developingCountries : List (Option JSNum)
  africa : List (Option JSNum)
  asiaoceania : List (Option JSNum)
  america : List (Option JSNum)
  deriving DecidableEq, Repr

/-- The coercion of one inflation field:
`raw === 'NA' ? null : parseFloat(raw) * 100`. -/
def inflationField (raw : Option String) : Option JSNum :=
  unlessNA raw (some (JSNum.mul (parseFloat raw) (JSNum.fin 100)))

/-- The body of the `forEach` of `processInflationData` on one row. -/
def inflationStep (newDate : DateCtor) (acc : InflationData) (row : RawRow) : InflationData :=
  if strTruthy (row.field "date") then
    { dates := acc.dates ++ [newDate ((row.field "date").getD "")]
      developingCountries := acc.developingCountries ++ [inflationField (row.field "developing")]
      africa := acc.africa ++ [inflationField (row.field "africa")]
      asiaoceania := acc.asiaoceania ++ [inflationField (row.field "asiaoceania")]
      america := acc.america ++ [inflationField (row.field "america")] }
  else acc

/-- The function `processInflationData`. -/
def processInflationData (newDate : DateCtor) (rawData : List RawRow) : InflationData :=
  rawData.foldl (inflationStep newDate)
    { dates := [], developingCountries := [], africa := [], asiaoceania := [], america := [] }

/-- The object `processFoodPriceIndexData` returns. -/
structure FoodPriceIndexData where
  dates : List JSDate
  values : List JSNum
  deriving DecidableEq, Repr

/-- The body of the `forEach` of `processFoodPriceIndexData` on one row. -/
def foodPriceIndexStep (newDate : DateCtor) (acc : FoodPriceIndexData) (row : RawRow) :
    FoodPriceIndexData :=
  if strTruthy (row.field "date") && strTruthy (row.field "value") then
    { dates := acc.dates ++ [newDate ((row.field "date").getD "")]
      values := acc.values ++ [parseFloat (row.field "value")] }
  else acc

/-- The function `processFoodPriceIndexData`. -/
def processFoodPriceIndexData (newDate : DateCtor) (rawData : List RawRow) :
    FoodPriceIndexData :=
  rawData.foldl (foodPriceIndexStep newDate) { dates := [], values := [] }

/-! ## A date environment for concrete runs -/

/-- The calendar day a ten-character `YYYY-MM-DD` string names, `invalid` for
every other string.  It is what `new Date(str)` reads in an environment
whose local time is UTC, on the strings used below. -/
def isoDay (s : String) : JSDate :=
  match s.toList with
  | [y1, y2, y3, y4, '-', m1, m2, '-', d1, d2] =>
    if [y1, y2, y3, y4, m1, m2, d1, d2].all isDecDigit then
      let m := digitsVal [m1, m2]
      let d := digitsVal [d1, d2]
      if h : 1 ≤ m ∧ m ≤ 12 then
        if 1 ≤ d ∧ d ≤ 31 then
          JSDate.valid (digitsVal [y1, y2, y3, y4]) ⟨m - 1, by omega⟩ d
        else JSDate.invalid
      else JSDate.invalid
    else JSDate.invalid
  | _ => JSDate.invalid

/-- A `chrono.parseDate` that reads the `YYYY-MM-DD` strings and answers
`null` on any other input. -/
def isoChrono : DateParser
  | none => none
  | some s =>
    match isoDay s with
    | JSDate.invalid => none
    | d => some d

/-! ## Predicates of the specification -/

/-- A coerced field is `null` or a finite number. -/
def finiteOrNull : Option JSNum → Bool
  | none => true
  | some x => x.isFinite

/-- The finite value of a number, zero for `NaN` and the infinities. -/
def JSNum.toRat : JSNum → ℚ
  | JSNum.fin q => q
  | _ => 0

/-- The four fields `processAgriData` tracks. -/
inductive AgriField where
  | index
  | corn
  | rice
  | wheat
  deriving DecidableEq, Repr

/-- The column a tracked field is read from. -/
def AgriField.column : AgriField → String
  | index => "index"
  | corn => "corn"
  | rice => "rice"
  | wheat => "wheat"

/-- The array of a tracked field in a month bucket. -/
def AgriField.ofBucket : AgriField → Bucket → List JSNum
  | index, b => b.index
  | corn, b => b.corn
  | rice, b => b.rice
  | wheat, b => b.wheat

/-- The series of a tracked field in the output of `processAgriData`. -/
def AgriField.ofData : AgriField → AgriData → List JSNum
  | index, d => d.index
  | corn, d => d.corn
  | rice, d => d.rice
  | wheat, d => d.wheat

/-- The month key `processAgriData` computes for a row. -/
def agriKey (newDate : DateCtor) (row : RawRow) : String :=
  monthKey (newDate ((row.field "date").getD ""))

/-- Specification: the rows of the month bucket `k`, that is the accepted
rows of the input whose month key is `k`, in input order. -/
def specBucketRows (newDate : DateCtor) (rows : List RawRow) (k : String) : List RawRow :=
  rows.filter (fun row => agriAccepts row && decide (agriKey newDate row = k))

/-- Specification: the bucket that holds, for each of the given rows in
order, its date and the `parseFloat` of its four cells. -/
def specBucket (newDate : DateCtor) (rs : List RawRow) : Bucket :=
  { dates := rs.map (fun row => newDate ((row.field "date").getD ""))
    index := rs.map (fun row => parseFloat (row.field "index"))
    corn := rs.map (fun row => parseFloat (row.field "corn"))
    rice := rs.map (fun row => parseFloat (row.field "rice"))
    wheat := rs.map (fun row => parseFloat (row.field "wheat")) }

/-- Specification: the distinct elements of a list, each at the place of its
first occurrence. -/
def firstSeen (ks : List String) : List String :=
  ks.foldl (fun acc k => if k ∈ acc then acc else acc ++ [k]) []

/-- Specification: the month keys of the accepted rows, each once, in the
order in which they first occur in the input. -/
def specKeys (newDate : DateCtor) (rows : List RawRow) : List String :=
  firstSeen ((rows.filter agriAccepts).map (agriKey newDate))

/-- The calendar month a `Date` reads as: the pair of `getFullYear()` and
`getMonth()`, `none` for an Invalid Date (both getters are `NaN`). -/
def JSDate.yearMonth : JSDate → Option (Int × Fin 12)
  | JSDate.invalid => none
  | JSDate.valid year month _ => some (year, month)

/-! ## Plain objects used as maps, `sort`, `toFixed` -/

/-- The names of the properties a plain object inherits from
`Object.prototype`.  On an object literal `acc[name]` is for each of them an
inherited function or object, which is truthy, and never an own property
unless one is created. -/
def protoNames : List String :=
  ["constructor", "hasOwnProperty", "isPrototypeOf", "propertyIsEnumerable", "toLocaleString",
   "toString", "valueOf", "__defineGetter__", "__defineSetter__", "__lookupGetter__",
   "__lookupSetter__", "__proto__"]

/-- The array index a property key denotes, if any: a canonical decimal
numeral (no leading zero, no sign) below `2 ^ 32 - 1`. -/
def arrayIndex (key : String) : Option Nat :=
  let cs := key.toList
  if cs.isEmpty || !cs.all isDecDigit then none
  else if cs.head? = some '0' ∧ cs.length ≠ 1 then none
  else if digitsVal cs < 4294967295 then some (digitsVal cs) else none

/-- An object used as a map: its own properties in the order of creation. -/
abbrev JSObject (β : Type) := List (String × β)

/-- The function `Object.entries(obj)`: the keys that are array indices in
ascending numeric order, then the other keys in the order of creation. -/
def objectEntries {β : Type} (obj : JSObject β) : List (String × β) :=
  List.insertionSort (fun a b => (arrayIndex a.1).getD 0 ≤ (arrayIndex b.1).getD 0)
      (obj.filter (fun kv => (arrayIndex kv.1).isSome))
    ++ obj.filter (fun kv => (arrayIndex kv.1).isNone)

/-- The operator `-` on two numbers. -/
def JSNum.sub (a b : JSNum) : JSNum :=
  JSNum.add a (JSNum.neg b)

/-- A comparator result that is greater than zero.  `NaN` is not: `sort`
reads a `NaN` result as zero. -/
def JSNum.isPos : JSNum → Bool
  | JSNum.posInf => true
  | JSNum.fin q => decide (0 < q)
  | _ => false

/-- The method `arr.sort(cmp)`.  The sort is stable, and `a` is put after `b`
only when `cmp(a, b) > 0`; for a comparator that is a consistent ordering the
result is fixed by these two facts, and it is the result of the insertion
sort used here. -/
def jsSort {α : Type} (cmp : α → α → JSNum) (l : List α) : List α :=
  List.insertionSort (fun a b => (cmp a b).isPos = false) l

/-- The integer nearest to a rational that is not negative, the larger one
of two that are equally near. -/
def roundHalfUp (q : ℚ) : Nat :=
  ⌊q + 1 / 2⌋.toNat

/-- The string `x.toFixed(3)`, by what it denotes: for a finite `x` below
`10 ^ 21` in absolute value the sign and the number of thousandths; for any
other `x` the text of `String(x)`, which reads back as `x`. -/
inductive Fixed3 where
  | verbatim (x : JSNum)
  | decimal (neg : Bool) (thousandths : Nat)
  deriving DecidableEq, Repr

/-- The method `x.toFixed(3)`. -/
def toFixed3 : JSNum → Fixed3
  | JSNum.fin q =>
    if |q| < 10 ^ 21 then Fixed3.decimal (decide (q < 0)) (roundHalfUp (|q| * 1000))
    else Fixed3.verbatim (JSNum.fin q)
  | x => Fixed3.verbatim x

/-- The number a `toFixed(3)` string is converted to by an arithmetic
operator. -/
def Fixed3.toNumber : Fixed3 → JSNum
  | Fixed3.verbatim x => x
  | Fixed3.decimal neg n => JSNum.fin (if neg then -((n : ℚ) / 1000) else (n : ℚ) / 1000)

/-- The three decimals of a `toFixed(3)` string. -/
def pad3 (n : Nat) : String :=
  toString (n / 100 % 10) ++ toString (n / 10 % 10) ++ toString (n % 10)

/-- The text of a `toFixed(3)` string; `none` for a finite number of
`10 ^ 21` or more, whose digits are those of the double. -/
def Fixed3.text : Fixed3 → Option String
  | Fixed3.verbatim JSNum.nan => some "NaN"
  | Fixed3.verbatim JSNum.posInf => some "Infinity"
  | Fixed3.verbatim JSNum.negInf => some "-Infinity"
  | Fixed3.verbatim (JSNum.fin _) => none
  | Fixed3.decimal neg n =>
    some ((if neg then "-" else "") ++ toString (n / 1000) ++ "." ++ pad3 (n % 1000))

/-! ## Prediction: the derived tables (`src/pages/prediction.js`) -/

/-- The property key `row.geography` is used as: an absent field is the key
`undefined`. -/
def geoKey (row : PredictionRecord) : String :=
  row.geography.getD "undefined"

/-- An entry of `topCountries`. -/
structure GeoGroup where
  countries : Option String
  probs : List JSNum
  deriving DecidableEq, Repr

/-- The callback of the `reduce` that builds `topCountries`.  `none` is the
`TypeError` the callback throws when the geography names a property inherited
from `Object.prototype`: `acc[row.geography]` is then truthy and has no
`probs`. -/
def topCountriesStep (acc : Option (JSObject GeoGroup)) (row : PredictionRecord) :
    Option (JSObject GeoGroup) :=
  match acc with
  | none => none
  | some acc =>
    if geoKey row ∈ protoNames then none
    else
      let acc1 :=
        if (acc.lookup (geoKey row)).isNone then
          acc ++ [(geoKey row, { countries := row.countries, probs := [] })]
        else acc
      some (acc1.map (fun kv =>
        if kv.1 = geoKey row then
          (kv.1, { countries := kv.2.countries, probs := kv.2.probs ++ [row.crisis_probability] })
        else kv))

/-- The object `topCountries`. -/
def topCountries (data : List PredictionRecord) : Option (JSObject GeoGroup) :=
  data.foldl topCountriesStep (some [])

/-- An element of `topCountriesData`. -/
structure GeoSummary where
  geography : String
  countries : Option String
  avg_probability : JSNum
  deriving DecidableEq, Repr

/-- The `.map` callback of `topCountriesData`; the mean is the expression of
`avg`, `probs.reduce((sum, p) => sum + p, 0) / probs.length`. -/
def geoSummary (kv : String × GeoGroup) : GeoSummary :=
  { geography := kv.1, countries := kv.2.countries, avg_probability := avg kv.2.probs }

/-- The comparator `(a, b) => b.avg_probability - a.avg_probability` of
`topCountriesData`. -/
def geoCompare (a b : GeoSummary) : JSNum :=
  JSNum.sub b.avg_probability a.avg_probability

/-- The summaries of `topCountriesData` after `.sort`, before `.slice`. -/
def topCountriesRanked (data : List PredictionRecord) : Option (List GeoSummary) :=
  (topCountries data).map (fun obj => jsSort geoCompare ((objectEntries obj).map geoSummary))

/-- The value `topCountriesData`. -/
def topCountriesData (data : List PredictionRecord) : Option (List GeoSummary) :=
  (topCountriesRanked data).map (fun ranked => ranked.take 10)

/-- An entry of `regionStats`. -/
structure RegionStat where
  count : Nat
  total_prob : JSNum
  deriving DecidableEq, Repr

/-- The callback of the `reduce` that builds `regionStats`.  When the region
names a property inherited from `Object.prototype`, `acc[region]` is that
inherited object: no entry is created and the two updates land on it, so the
entries of `acc` are unchanged. -/
def regionStep (acc : JSObject RegionStat) (row : PredictionRecord) : JSObject RegionStat :=
  if row.developing_region ∈ protoNames then acc
  else
    let acc1 :=
      if (acc.lookup row.developing_region).isNone then
        acc ++ [(row.developing_region, { count := 0, total_prob := JSNum.fin 0 })]
      else acc
    acc1.map (fun kv =>
      if kv.1 = row.developing_region then
        (kv.1, { count := kv.2.count + 1,
                 total_prob := JSNum.add kv.2.total_prob row.crisis_probability })
      else kv)

/-- The object `regionStats`. -/
def regionStats (data : List PredictionRecord) : JSObject RegionStat :=
  data.foldl regionStep []

/-- A row of `tableData`. -/
structure TableRow where
  region : String
  count : Nat
  avg_probability : Fixed3
  deriving DecidableEq, Repr

/-- The `.map` callback of `tableData`. -/
def tableRow (kv : String × RegionStat) : TableRow :=
  { region := kv.1, count := kv.2.count,
    avg_probability := toFixed3 (JSNum.div kv.2.total_prob (JSNum.fin (kv.2.count : ℚ))) }

/-- The comparator `(a, b) => b.avg_probability - a.avg_probability` of
`tableData`, on the numbers the two strings convert to. -/
def tableCompare (a b : TableRow) : JSNum :=
  JSNum.sub b.avg_probability.toNumber a.avg_probability.toNumber

/-- The rows of `tableData` before `.sort`: the mapped entries without the
region `Unknown`. -/
def tableRows (data : List PredictionRecord) : List TableRow :=
  ((objectEntries (regionStats data)).map tableRow).filter (fun row => row.region ≠ "Unknown")

/-- The value `tableData`. -/
def tableData (data : List PredictionRecord) : List TableRow :=
  jsSort tableCompare (tableRows data)

/-- A record of cleaned data with the given geography, region and
probability, for concrete runs. -/
def sampleRecord (geography region : String) (p : JSNum) : PredictionRecord :=
  { date := some (JSDate.valid 2025 0 15), geography := some geography, countries := none,
    development_status := "Unknown", developing_region := region, crisis_probability := p,
    crisis_predicted := JSNum.fin 0, crisis_type := "None" }

/-- The comparison `a <= b` on two numbers: false as soon as one is `NaN`. -/
def JSNum.le : JSNum → JSNum → Bool
  | JSNum.nan, _ => false
  | _, JSNum.nan => false
  | JSNum.negInf, _ => true
  | _, JSNum.posInf => true
  | JSNum.fin a, JSNum.fin b => decide (a ≤ b)
  | _, _ => false

/-! ## Grouping: the idiom and its specification -/

/-- The grouping idiom of the `reduce` callbacks on a key that is not
inherited: `if (!acc[k]) acc[k] = init; acc[k] = upd(acc[k])`. -/
def groupStep {ρ β : Type} (key : ρ → String) (init : ρ → β) (upd : β → ρ → β)
    (acc : JSObject β) (row : ρ) : JSObject β :=
  (if (acc.lookup (key row)).isNone then acc ++ [(key row, init row)] else acc).map
    (fun kv => if kv.1 = key row then (kv.1, upd kv.2 row) else kv)

/-- Specification: the records of a group, that is the records with the key
`k`, in input order. -/
def recordsOf {ρ : Type} (key : ρ → String) (rows : List ρ) (k : String) : List ρ :=
  rows.filter (fun r => decide (key r = k))

/-- Specification: the entry of `regionStats` for a list of records, their
number and the sum of their probabilities from zero. -/
def specRegionStat (rs : List PredictionRecord) : RegionStat :=
  { count := rs.length
    total_prob := (rs.map (fun r => r.crisis_probability)).foldl JSNum.add (JSNum.fin 0) }

/-- Specification: the entry of `topCountries` for a list of records, the
`countries` of the first and the probabilities of all. -/
def specGeoGroup (rs : List PredictionRecord) : GeoGroup :=
  { countries := rs.head?.bind (fun r => r.countries)
    probs := rs.map (fun r => r.crisis_probability) }

/-- Specification: the region keys that get an entry in `regionStats`, the
regions that do not name an inherited property, each once, in the order in
which they first occur. -/
def specRegions (data : List PredictionRecord) : List String :=
  firstSeen ((data.filter (fun r => decide (r.developing_region ∉ protoNames))).map
    (fun r => r.developing_region))

/-- Specification: the mean of the probabilities of a list of records, as a
rational (each probability by its finite value). -/
def specMean (rs : List PredictionRecord) : ℚ :=
  (rs.map (fun r => r.crisis_probability.toRat)).sum / (rs.length : ℚ)

/-- Specification: the summary of the geography `k`, with the `countries` of
its first record and the mean of the probabilities of its records. -/
def specGeoSummary (data : List PredictionRecord) (k : String) : GeoSummary :=
  { geography := k
    countries := (recordsOf geoKey data k).head?.bind (fun r => r.countries)
    avg_probability := JSNum.fin (specMean (recordsOf geoKey data k)) }

/-! ## The loaders -/

/-- What the awaited calls of a loader yield: `fetch` (or `response.text()`)
rejects with an error of the given message, or there is a response with the
flag `response.ok` whose body Papa Parse turns into the given rows (for a
string input `complete` is called before `Papa.parse` returns). -/
inductive Fetched where
  | rejected (message : String)
  | response (ok : Bool) (rows : List RawRow)
  deriving Repr

/-- The state of the Energy page. -/
structure EnergyState where
  oilData : Option (List OilRecord)
  oilData2 : Option (List Oil2Record)
  loading : Bool
  error : Option String
  loading2 : Bool
  error2 : Option String
  deriving DecidableEq, Repr

/-- The values given to `useState` on the Energy page. -/
def EnergyState.initial : EnergyState :=
  { oilData := none, oilData2 := none, loading := true, error := none, loading2 := true,
    error2 := none }

/-- The `try` block of the first `fetchData` (`plot_3a1.csv`): the state
after its setters, or the message of the error thrown. -/
def energyTry (chrono : DateParser) (f : Fetched) (s : EnergyState) : Except String EnergyState :=
  match f with
  | Fetched.rejected message => Except.error message
  | Fetched.response ok rows =>
    if !ok then Except.error "Failed to load data"
    else
      let processedData := oilProcessed chrono rows
      if processedData.length = 0 then Except.error "No valid data found after processing"
      else Except.ok { s with oilData := some processedData, loading := false }

/-- The first `fetchData` of the Energy page, with its `catch`. -/
def energyFetchData (chrono : DateParser) (f : Fetched) (s : EnergyState) : EnergyState :=
  match energyTry chrono f s with
  | Except.ok s1 => s1
  | Except.error message => { s with error := some message, loading := false }

/-- The `try` block of the second `fetchData` (`plot_3b1.csv`). -/
def energyTry2 (chrono : DateParser) (f : Fetched) (s : EnergyState) :
    Except String EnergyState :=
  match f with
  | Fetched.rejected message => Except.error message
  | Fetched.response ok rows =>
    if !ok then Except.error "Failed to load plot_3b1.csv"
    else Except.ok { s with oilData2 := some (oil2Processed chrono rows), loading2 := false }

/-- The second `fetchData` of the Energy page, with its `catch`. -/
def energyFetchData2 (chrono : DateParser) (f : Fetched) (s : EnergyState) : EnergyState :=
  match energyTry2 chrono f s with
  | Except.ok s1 => s1
  | Except.error message => { s with error2 := some message, loading2 := false }

/-- The state of the Prediction page. -/
structure PredictionState where
  data : Option (List PredictionRecord)
  loading : Bool
  error : Option String
  deriving DecidableEq, Repr

/-- The values given to `useState` on the Prediction page. -/
def PredictionState.initial : PredictionState :=
  { data := none, loading := true, error := none }

/-- The `try` block of `fetchData` of the Prediction page. -/
def predictionTry (chrono : DateParser) (f : Fetched) (s : PredictionState) :
    Except String PredictionState :=
  match f with
  | Fetched.rejected message => Except.error message
  | Fetched.response ok rows =>
    if !ok then Except.error "Failed to load data"
    else Except.ok { s with data := some (cleanedData chrono rows), loading := false }

/-- The function `fetchData` of the Prediction page, with its `catch`. -/
def predictionFetchData (chrono : DateParser) (f : Fetched) (s : PredictionState) :
    PredictionState :=
  match predictionTry chrono f s with
  | Except.ok s1 => s1
  | Except.error message => { s with error := some message, loading := false }

/-- The state of the Finance page that the two CSV loaders write. -/
structure FinanceState where
  exchangeRateIndexData : Option (List ExchangeRecord)
  reservesData : Option (List ReservesRecord)
  loadingExchangeRate : Bool
  loadingReserves : Bool
  deriving DecidableEq, Repr

/-- The values given to `useState` on the Finance page. -/
def FinanceState.initial : FinanceState :=
  { exchangeRateIndexData := none, reservesData := none, loadingExchangeRate := true,
    loadingReserves := true }

/-- The `try` block of `loadExchangeRateData`. -/
def exchangeTry (f : Fetched) (s : FinanceState) : Except String FinanceState :=
  match f with
  | Fetched.rejected message => Except.error message
  | Fetched.response ok rows =>
    if !ok then Except.error "Failed to load exchange rate data"
    else Except.ok { s with exchangeRateIndexData := some (exchangeProcessed rows),
                            loadingExchangeRate := false }

/-- The function `loadExchangeRateData`: its `catch` logs the error and
clears the loading flag. -/
def loadExchangeRateData (f : Fetched) (s : FinanceState) : FinanceState :=
  match exchangeTry f s with
  | Except.ok s1 => s1
  | Except.error _ => { s with loadingExchangeRate := false }

/-- The `try` block of `loadReservesData`. -/
def reservesTry (f : Fetched) (s : FinanceState) : Except String FinanceState :=
  match f with
  | Fetched.rejected message => Except.error message
  | Fetched.response ok rows =>
    if !ok then Except.error "Failed to load reserves data"
    else Except.ok { s with reservesData := some (reservesProcessed rows),
                            loadingReserves := false }

/-- The function `loadReservesData`: its `catch` logs the error and clears
the loading flag. -/
def loadReservesData (f : Fetched) (s : FinanceState) : FinanceState :=
  match reservesTry f s with
  | Except.ok s1 => s1
  | Except.error _ => { s with loadingReserves := false }

/-- The object given to `setFoodData`. -/
structure FoodSeries where
  years : List Nat
  values : List Nat
  production : List Nat
  deriving DecidableEq, Repr

/-- The object `{ years, values, production }` of `loadData`. -/
def foodSeries : FoodSeries :=
  { years := [2014, 2015, 2016, 2017, 2018, 2019, 2020, 2021, 2022, 2023],
    values := [100, 98, 105, 110, 115, 120, 118, 122, 130, 125],
    production := [85, 88, 92, 95, 97, 99, 96, 94, 90, 93] }

/-- The state of the Food page. -/
structure FoodState where
  foodData : Option FoodSeries
  agriData : Option AgriData
  inflationData : Option InflationData
  foodPriceIndexData : Option FoodPriceIndexData
  loading : Bool
  error : Option String
  deriving DecidableEq, Repr

/-- The values given to `useState` on the Food page. -/
def FoodState.initial : FoodState :=
  { foodData := none, agriData := none, inflationData := none, foodPriceIndexData := none,
    loading := true, error := none }

/-- The `catch` of `loadData` of the Food page. -/
def foodCatch (s : FoodState) : FoodState :=
  { s with error := some "Failed to load data. Please try again later.", loading := false }

/-- The function `loadData` of the Food page on the results of its three
`loadCSVData` calls, which are awaited one after the other.  `loadCSVData`
does not read `response.ok`: the body of any response is parsed. -/
def foodLoadData (newDate : DateCtor) (f1 f2 f3 : Fetched) (s : FoodState) : FoodState :=
  let s0 : FoodState := { s with foodData := some foodSeries }
  match f1 with
  | Fetched.rejected _ => foodCatch s0
  | Fetched.response _ rawAgriData =>
    let s1 : FoodState := { s0 with agriData := some (processAgriData newDate rawAgriData) }
    match f2 with
    | Fetched.rejected _ => foodCatch s1
    | Fetched.response _ rawInflationData =>
      let s2 : FoodState :=
        { s1 with inflationData := some (processInflationData newDate rawInflationData) }
      match f3 with
      | Fetched.rejected _ => foodCatch s2
      | Fetched.response _ rawFoodPriceIndexData =>
        { s2 with
            foodPriceIndexData :=
              some (processFoodPriceIndexData newDate rawFoodPriceIndexData),
            loading := false }

/-! ## What the pages render -/

/-- What the body of a chart card shows: its loading text, its failure
text, or the chart on its data. -/
inductive CardView (α : Type) where
  | loadingText
  | failedText
  | chart (data : α)
  deriving DecidableEq, Repr

/-- A point `{ x: row.date, y: ... }` of an Energy series. -/
structure OilPoint where
  x : JSDate
  y : Option JSNum
  deriving DecidableEq, Repr

/-- The `data` of the three datasets of `oilChartData`; `none` is
`undefined`. -/
structure OilChartData where
  europe : Option (List OilPoint)
  middleeast : Option (List OilPoint)
  russia : Option (List OilPoint)
  deriving DecidableEq, Repr

/-- The value `oilChartData` of the Energy page: each `data` is
`oilData ? oilData?.map(row => ({ x: row.date, y: ... })) : []`. -/
def oilChartData (s : EnergyState) : OilChartData :=
  { europe :=
      if s.oilData.isSome then
        s.oilData.map (fun rows => rows.map (fun row => { x := row.date, y := row.europe }))
      else some []
    middleeast :=
      if s.oilData.isSome then
        s.oilData.map (fun rows => rows.map (fun row => { x := row.date, y := row.middleeast }))
      else some []
    russia :=
      if s.oilData.isSome then
        s.oilData.map (fun rows => rows.map (fun row => { x := row.date, y := row.russia }))
      else some [] }

/-- The `data` of the three datasets of `oilChart2Data`; `none` is
`undefined`, the value of `oilData2?.map(..)` while `oilData2` is `null`. -/
structure OilChart2Data where
  asia : Option (List OilPoint)
  europe : Option (List OilPoint)
  us : Option (List OilPoint)
  deriving DecidableEq, Repr

/-- The value `oilChart2Data` of the Energy page: each `data` is
`oilData ? oilData2?.map(row => ({ x: row.date, y: ... })) : []`, with the
first dataset `oilData` as the condition. -/
def oilChart2Data (s : EnergyState) : OilChart2Data :=
  { asia :=
      if s.oilData.isSome then
        s.oilData2.map (fun rows => rows.map (fun row => { x := row.date, y := row.asia }))
      else some []
    europe :=
      if s.oilData.isSome then
        s.oilData2.map (fun rows => rows.map (fun row => { x := row.date, y := row.europe }))
      else some []
    us :=
      if s.oilData.isSome then
        s.oilData2.map (fun rows => rows.map (fun row => { x := row.date, y := row.us }))
      else some [] }

/-- The card of the first Energy chart:
`loading ? .. : error ? .. : <Line data={oilChartData} />`. -/
def energyCard (s : EnergyState) : CardView OilChartData :=
  if s.loading then CardView.loadingText
  else if strTruthy s.error then CardView.failedText
  else CardView.chart (oilChartData s)

/-- The card of the second Energy chart:
`loading2 ? .. : error2 ? .. : <Line data={oilChart2Data} />`. -/
def energyCard2 (s : EnergyState) : CardView OilChart2Data :=
  if s.loading2 then CardView.loadingText
  else if strTruthy s.error2 then CardView.failedText
  else CardView.chart (oilChart2Data s)

/-- The labels and the `data` of the three datasets of
`exchangeRateIndexDataChart`. -/
structure ExchangeChart where
  labels : List (Option String)
  africa : List (Option JSNum)
  asiaoceania : List (Option JSNum)
  america : List (Option JSNum)
  deriving DecidableEq, Repr

/-- The value `exchangeRateIndexDataChart` of the Finance page: every list
is `exchangeRateIndexData ? exchangeRateIndexData.map(..) : []`. -/
def exchangeRateIndexDataChart (s : FinanceState) : ExchangeChart :=
  match s.exchangeRateIndexData with
  | some rows =>
    { labels := rows.map (fun row => row.date)
      africa := rows.map (fun row => row.africa)
      asiaoceania := rows.map (fun row => row.asiaoceania)
      america := rows.map (fun row => row.america) }
  | none => { labels := [], africa := [], asiaoceania := [], america := [] }

/-- The card of the exchange rate index:
`loadingExchangeRate ? .. : <Line data={exchangeRateIndexDataChart} />`. -/
def exchangeCard (s : FinanceState) : CardView ExchangeChart :=
  if s.loadingExchangeRate then CardView.loadingText
  else CardView.chart (exchangeRateIndexDataChart s)

/-- The three arguments `reservesChartData` is called with. -/
inductive ReservesRegion where
  | africa
  | asiaoceania
  | america
  deriving DecidableEq, Repr

/-- The labels and the `data` of the three datasets of
`reservesChartData(region)`. -/
structure ReservesChart where
  labels : List (Option String)
  developed : List (Option JSNum)
  developing : List (Option JSNum)
  region : List (Option JSNum)
  deriving DecidableEq, Repr

/-- The function `reservesChartData`: every list is
`reservesData ? reservesData.map(..) : []`, the third one reads
`row[region]`. -/
def reservesChartData (s : FinanceState) (region : ReservesRegion) : ReservesChart :=
  match s.reservesData with
  | some rows =>
    { labels := rows.map (fun row => row.date)
      developed := rows.map (fun row => row.developed)
      developing := rows.map (fun row => row.developing)
      region := rows.map (fun row =>
        match region with
        | ReservesRegion.africa => row.africa
        | ReservesRegion.asiaoceania => row.asiaoceania
        | ReservesRegion.america => row.america) }
  | none => { labels := [], developed := [], developing := [], region := [] }

/-- The card of the reserves: `loadingReserves ? .. :` the three charts
`reservesChartData('africa')`, `('asiaoceania')`, `('america')`. -/
def reservesCard (s : FinanceState) : CardView (List ReservesChart) :=
  if s.loadingReserves then CardView.loadingText
  else CardView.chart
    [reservesChartData s ReservesRegion.africa, reservesChartData s ReservesRegion.asiaoceania,
     reservesChartData s ReservesRegion.america]

/-- The data of the charts of the Food page that are fed from the three CSV
files.  Every list is `x ? x.field : []`; the region series of an inflation
chart is `inflationData?.region`, `none` being `undefined`. -/
structure FoodCharts where
  agriLabels : List (Option JSDate)
  agriIndex : List JSNum
  agriCorn : List JSNum
  agriRice : List JSNum
  agriWheat : List JSNum
  inflationLabels : List JSDate
  inflationDeveloping : List (Option JSNum)
  inflationAfrica : Option (List (Option JSNum))
  inflationAsiaoceania : Option (List (Option JSNum))
  inflationAmerica : Option (List (Option JSNum))
  foodPriceIndexLabels : List JSDate
  foodPriceIndexValues : List JSNum
  deriving DecidableEq, Repr

/-- The chart data `agriChartData`, `createInflationChartData(..)` and
`foodPriceIndexChartData` of the Food page. -/
def foodCharts (s : FoodState) : FoodCharts :=
  { agriLabels := match s.agriData with | some d => d.dates | none => []
    agriIndex := match s.agriData with | some d => d.index | none => []
    agriCorn := match s.agriData with | some d => d.corn | none => []
    agriRice := match s.agriData with | some d => d.rice | none => []
    agriWheat := match s.agriData with | some d => d.wheat | none => []
    inflationLabels := match s.inflationData with | some d => d.dates | none => []
    inflationDeveloping :=
      match s.inflationData with | some d => d.developingCountries | none => []
    inflationAfrica := s.inflationData.map (fun d => d.africa)
    inflationAsiaoceania := s.inflationData.map (fun d => d.asiaoceania)
    inflationAmerica := s.inflationData.map (fun d => d.america)
    foodPriceIndexLabels := match s.foodPriceIndexData with | some d => d.dates | none => []
    foodPriceIndexValues := match s.foodPriceIndexData with | some d => d.values | none => [] }

/-- What the Food page renders: with a truthy `error` the error page that
shows the message and no chart, otherwise the dashboard whose cards show the
loading text while `loading` and their charts after. -/
inductive FoodView where
  | errorPage (message : String)
  | dashboard (cards : CardView FoodCharts)
  deriving DecidableEq, Repr

/-- The `return` of the component `Food`. -/
def foodView (s : FoodState) : FoodView :=
  if strTruthy s.error then FoodView.errorPage (s.error.getD "")
  else if s.loading then FoodView.dashboard CardView.loadingText
  else FoodView.dashboard (CardView.chart (foodCharts s))

/-! ## Session (`src/contexts/AuthContext.js`, `src/pages/Login.js`, `src/pages/Signup.js`) -/

/-- The object given to `setUser`. -/
structure User where
  name : String
  email : String
  deriving DecidableEq, Repr

/-- The state a submit handler writes: the `user` of the `AuthContext` and
the `isLoading` and `error` of the form. -/
structure AuthState where
  user : Option User
  isLoading : Bool
  error : String
  deriving DecidableEq, Repr

/-- The property `length` of a string: its number of UTF-16 code units, two
for a character above the basic plane. -/
def jsLength (s : String) : Nat :=
  (s.toList.map (fun c => if c.toNat < 65536 then 1 else 2)).sum

/-- The `try` block of `submit` of the Login page: the user given to
`setUser`, or the message of the error thrown. -/
def loginTry (email password : String) : Except String User :=
  if email = "" ∨ password = "" then Except.error "Please fill in all fields"
  else Except.ok { name := "User", email := email }

/-- The function `submit` of the Login page, from `setError('')` to the
`finally`. -/
def loginSubmit (email password : String) (s : AuthState) : AuthState :=
  match loginTry email password with
  | Except.ok u => { user := some u, isLoading := false, error := "" }
  | Except.error message =>
    { user := s.user, isLoading := false,
      error := if message ≠ "" then message else "Login failed. Please try again." }

/-- All the ways to cut a list at an occurrence of `sep`: the pairs
`(pre, post)` with `cs = pre ++ sep :: post`. -/
def splitsAt (sep : Char) : List Char → List (List Char × List Char)
  | [] => []
  | c :: cs =>
    (if c = sep then [([], cs)] else []) ++ (splitsAt sep cs).map (fun p => (c :: p.1, p.2))

/-- A match of `[^\s@]+` against the whole of `cs`. -/
def classRun (cs : List Char) : Bool :=
  !cs.isEmpty && cs.all (fun c => !isStrWhiteSpace c && c != '@')

/-- The test `/^[^\s@]+@[^\s@]+\.[^\s@]+$/.test(email)`. -/
def emailTest (email : String) : Bool :=
  (splitsAt '@' email.toList).any (fun p =>
    classRun p.1 && (splitsAt '.' p.2).any (fun q => classRun q.1 && classRun q.2))

/-- The `try` block of `submit` of the Signup page. -/
def signupTry (name email password : String) : Except String User :=
  if name = "" ∨ email = "" ∨ password = "" then Except.error "Please fill in all fields"
  else if !emailTest email then Except.error "Please enter a valid email address"
  else if jsLength password < 8 then Except.error "Password must be at least 8 characters"
  else Except.ok { name := name, email := email }

/-- The function `submit` of the Signup page, from `setError('')` to the
`finally`. -/
def signupSubmit (name email password : String) (s : AuthState) : AuthState :=
  match signupTry name email password with
  | Except.ok u => { user := some u, isLoading := false, error := "" }
  | Except.error message =>
    { user := s.user, isLoading := false,
      error := if message ≠ "" then message else "Signup failed. Please try again." }

/-! ## Development status distribution (`src/pages/prediction.js`) -/

/-- A value of `devStatusData`: a count, or for a key that names an
inherited function the text of that function followed by `ones` digits
`1`. -/
inductive PieValue where
  | count (n : Nat)
  | inheritedText (ones : Nat)
  deriving DecidableEq, Repr

/-- The expression `v + 1`: the sum for a number, the text with one more
`1` for a text. -/
def PieValue.plusOne : PieValue → PieValue
  | PieValue.count n => PieValue.count (n + 1)
  | PieValue.inheritedText ones => PieValue.inheritedText (ones + 1)

/-- The body of the `reduce` of `devStatusData`:
`acc[k] = (acc[k] || 0) + 1`.  A key the object does not own reads as `0`,
or as the inherited function when it names one, and the assignment creates
the property; the assignment of a text to `__proto__` is ignored. -/
def devStatusStep (acc : JSObject PieValue) (row : PredictionRecord) : JSObject PieValue :=
  if row.development_status = "__proto__" then acc
  else
    (if (acc.lookup row.development_status).isNone then
      acc ++ [(row.development_status,
        if row.development_status ∈ protoNames then PieValue.inheritedText 0
        else PieValue.count 0)]
    else acc).map
      (fun kv => if kv.1 = row.development_status then (kv.1, kv.2.plusOne) else kv)

/-- The object `devStatusData`. -/
def devStatusData (data : List PredictionRecord) : JSObject PieValue :=
  data.foldl devStatusStep []

/-- The value `pieData`: the entries `{ name, value }` of `devStatusData`. -/
def pieData (data : List PredictionRecord) : List (String × PieValue) :=
  (objectEntries (devStatusData data)).map (fun kv => (kv.1, kv.2))

/-! # Theorems -/

/-! ## Evaluation lemmas -/

theorem parseFloat_lit (s : String) (sg : Bool) (u : StrLit) (h : scanFloat s = some (sg, u)) :
    parseFloat (some s) = if sg then u.val.neg else u.val := by
  cases sg <;> simp [parseFloat, parseFloatStr, h]

theorem parseFloat_str_zero : parseFloat (some "0") = JSNum.fin 0 := by
  rw [parseFloat_lit "0" false (.decimal 0 0) (by decide)]
  simp [StrLit.val, scale10]

theorem parseFloat_str_61_5 : parseFloat (some "61.5") = JSNum.fin (123 / 2) := by
  rw [parseFloat_lit "61.5" false (.decimal 615 (-1)) (by decide)]
  simp [StrLit.val, scale10]; norm_num

theorem parseFloat_str_NA : parseFloat (some "NA") = JSNum.nan := by decide

theorem isoChrono_jan15 : isoChrono (some "2020-01-15") = some (JSDate.valid 2020 0 15) := by
  decide

/-- A number that is zero is falsy, so `x || null` is `null` on it. -/
theorem orNull_zero : orNull (JSNum.fin 0) = none := by
  simp [orNull, JSNum.truthy]

theorem orNull_nan : orNull JSNum.nan = none := by
  simp [orNull, JSNum.truthy]

/-- On a finite number other than zero, `x || null` is the number. -/
theorem orNull_fin_ne_zero (q : ℚ) (h : q ≠ 0) : orNull (JSNum.fin q) = some (JSNum.fin q) := by
  simp [orNull, JSNum.truthy, h]

/-! ## Energy: the two pipelines row by row -/

theorem oilProcessed_append (chrono : DateParser) (xs ys : List RawRow) :
    oilProcessed chrono (xs ++ ys) = oilProcessed chrono xs ++ oilProcessed chrono ys := by
  simp [oilProcessed, List.reduceOption_append]

theorem oil2Processed_append (chrono : DateParser) (xs ys : List RawRow) :
    oil2Processed chrono (xs ++ ys) = oil2Processed chrono xs ++ oil2Processed chrono ys := by
  simp [oil2Processed, List.reduceOption_append]

theorem oilProcessed_single (chrono : DateParser) (row : RawRow) :
    oilProcessed chrono [row] =
      match oilRow chrono row with
      | none => []
      | some r => if r.europe.isSome || r.middleeast.isSome || r.russia.isSome then [r] else [] := by
  unfold oilProcessed
  cases h : oilRow chrono row with
  | none => simp [h, List.reduceOption]
  | some r =>
    by_cases hk : (r.europe.isSome || r.middleeast.isSome || r.russia.isSome) = true
    · simp [h, List.reduceOption, hk]
    · simp [h, List.reduceOption, hk]

theorem oil2Processed_single (chrono : DateParser) (row : RawRow) :
    oil2Processed chrono [row] =
      match oil2Row chrono row with
      | none => []
      | some r => if r.asia.isSome || r.europe.isSome || r.us.isSome then [r] else [] := by
  unfold oil2Processed
  cases h : oil2Row chrono row with
  | none => simp [h, List.reduceOption]
  | some r =>
    by_cases hk : (r.asia.isSome || r.europe.isSome || r.us.isSome) = true
    · simp [h, List.reduceOption, hk]
    · simp [h, List.reduceOption, hk]

theorem mem_oilProcessed (chrono : DateParser) (rows : List RawRow) (r : OilRecord) :
    r ∈ oilProcessed chrono rows ↔
      (∃ row ∈ rows, oilRow chrono row = some r) ∧
        (r.europe.isSome || r.middleeast.isSome || r.russia.isSome) = true := by
  simp [oilProcessed, List.mem_filter, List.reduceOption_mem_iff]

theorem mem_oil2Processed (chrono : DateParser) (rows : List RawRow) (r : Oil2Record) :
    r ∈ oil2Processed chrono rows ↔
      (∃ row ∈ rows, oil2Row chrono row = some r) ∧
        (r.asia.isSome || r.europe.isSome || r.us.isSome) = true := by
  simp [oil2Processed, List.mem_filter, List.reduceOption_mem_iff]

theorem oilRow_date (chrono : DateParser) (row : RawRow) (r : OilRecord)
    (h : oilRow chrono row = some r) : chrono (row.field "date") = some r.date := by
  unfold oilRow at h
  cases hd : chrono (row.field "date") with
  | none => simp [hd] at h
  | some d => simp [hd] at h; subst h; rfl

theorem oil2Row_date (chrono : DateParser) (row : RawRow) (r : Oil2Record)
    (h : oil2Row chrono row = some r) : chrono (row.field "date") = some r.date := by
  unfold oil2Row at h
  cases hd : chrono (row.field "date") with
  | none => simp [hd] at h
  | some d => simp [hd] at h; subst h; rfl

theorem cleanedData_append (chrono : DateParser) (xs ys : List RawRow) :
    cleanedData chrono (xs ++ ys) = cleanedData chrono xs ++ cleanedData chrono ys := by
  simp [cleanedData]


/-! ## Field coercion -/

/-- C1 (the code at the failing input).  The field `"0"` parses as the number
zero, and both Energy pipelines store `null` for it instead of zero, in every
field coerced with `parseFloat(..) || null`. -/
theorem energy_zero_field_is_null :
    parseFloat (some "0") = JSNum.fin 0 ∧
    oilProcessed isoChrono
        [[("date", "2020-01-15"), ("europe", "0"), ("middleeast", "61.5"), ("russia", "0")]]
      = [{ date := JSDate.valid 2020 0 15, europe := none,
           middleeast := some (JSNum.fin (123 / 2)), russia := none }] ∧
    oil2Processed isoChrono
        [[("date", "2020-01-15"), ("asia", "0"), ("europe", "61.5"), ("us", "0")]]
      = [{ date := JSDate.valid 2020 0 15, asia := none,
           europe := some (JSNum.fin (123 / 2)), us := none }] := by
  refine ⟨parseFloat_str_zero, ?_, ?_⟩
  · simp [oilProcessed, oilRow, RawRow.field, List.lookup, isoChrono_jan15, parseFloat_str_zero,
      parseFloat_str_61_5, orNull, unlessNA, JSNum.truthy, List.reduceOption]
  · simp [oil2Processed, oil2Row, RawRow.field, List.lookup, isoChrono_jan15,
      parseFloat_str_zero, parseFloat_str_61_5, orNull, JSNum.truthy, List.reduceOption]

/-- C3.  A field whose raw value is exactly `"NA"` coerces to `null` in every
pipeline with an NA rule or a parse-or-null rule: the three fields of each
Energy dataset, the three exchange-index fields, the five reserves fields and
the four inflation fields. -/
theorem na_coerces_to_null (chrono : DateParser) (newDate : DateCtor) (row : RawRow) :
    (∀ r, oilRow chrono row = some r →
      (row.field "europe" = some "NA" → r.europe = none) ∧
      (row.field "middleeast" = some "NA" → r.middleeast = none) ∧
      (row.field "russia" = some "NA" → r.russia = none)) ∧
    (∀ r, oil2Row chrono row = some r →
      (row.field "asia" = some "NA" → r.asia = none) ∧
      (row.field "europe" = some "NA" → r.europe = none) ∧
      (row.field "us" = some "NA" → r.us = none)) ∧
    ((row.field "africa" = some "NA" → (exchangeRow row).africa = none) ∧
      (row.field "asiaoceania" = some "NA" → (exchangeRow row).asiaoceania = none) ∧
      (row.field "america" = some "NA" → (exchangeRow row).america = none)) ∧
    ((row.field "developed_4b2" = some "NA" → (reservesRow row).developed = none) ∧
      (row.field "developing_4b2" = some "NA" → (reservesRow row).developing = none) ∧
      (row.field "africa_4b2" = some "NA" → (reservesRow row).africa = none) ∧
      (row.field "asiaoceania_4b2" = some "NA" → (reservesRow row).asiaoceania = none) ∧
      (row.field "america_4b2" = some "NA" → (reservesRow row).america = none)) ∧
    (∀ acc, strTruthy (row.field "date") = true →
      (row.field "developing" = some "NA" →
        (inflationStep newDate acc row).developingCountries
          = acc.developingCountries ++ [none]) ∧
      (row.field "africa" = some "NA" →
        (inflationStep newDate acc row).africa = acc.africa ++ [none]) ∧
      (row.field "asiaoceania" = some "NA" →
        (inflationStep newDate acc row).asiaoceania = acc.asiaoceania ++ [none]) ∧
      (row.field "america" = some "NA" →
        (inflationStep newDate acc row).america = acc.america ++ [none])) := by
  refine ⟨?_, ?_, ?_, ?_, ?_⟩
  · intro r h
    unfold oilRow at h
    cases hd : chrono (row.field "date") with
    | none => simp [hd] at h
    | some d =>
      simp only [hd, Option.some.injEq] at h
      subst h
      refine ⟨?_, ?_, ?_⟩ <;> intro hf <;>
        simp [hf, parseFloat_str_NA, orNull_nan, unlessNA]
  · intro r h
    unfold oil2Row at h
    cases hd : chrono (row.field "date") with
    | none => simp [hd] at h
    | some d =>
      simp only [hd, Option.some.injEq] at h
      subst h
      refine ⟨?_, ?_, ?_⟩ <;> intro hf <;> simp [hf, parseFloat_str_NA, orNull_nan]
  · refine ⟨?_, ?_, ?_⟩ <;> intro hf <;> simp [exchangeRow, hf, parseFloat_str_NA, orNull_nan]
  · refine ⟨?_, ?_, ?_, ?_, ?_⟩ <;> intro hf <;> simp [reservesRow, reservesField, unlessNA, hf]
  · intro acc hdate
    refine ⟨?_, ?_, ?_, ?_⟩ <;> intro hf <;>
      simp [inflationStep, hdate, inflationField, unlessNA, hf]

/-- C3, on an Energy row and a reserves row whose numeric cells are `"NA"`. -/
theorem na_coerces_to_null_witness :
    RawRow.field [("date", "2020-01-15"), ("europe", "NA"), ("middleeast", "NA"),
        ("russia", "NA"), ("developed_4b2", "NA")] "russia" = some "NA" ∧
    oilRow isoChrono [("date", "2020-01-15"), ("europe", "NA"), ("middleeast", "NA"),
        ("russia", "NA"), ("developed_4b2", "NA")]
      = some { date := JSDate.valid 2020 0 15, europe := none, middleeast := none,
               russia := none } ∧
    (reservesRow [("date", "2020-01-15"), ("europe", "NA"), ("middleeast", "NA"),
        ("russia", "NA"), ("developed_4b2", "NA")]).developed = none := by
  have hf : RawRow.field [("date", "2020-01-15"), ("europe", "NA"), ("middleeast", "NA"),
      ("russia", "NA"), ("developed_4b2", "NA")] "developed_4b2" = some "NA" := by
    simp [RawRow.field, List.lookup]
  refine ⟨by simp [RawRow.field, List.lookup], ?_,
    (na_coerces_to_null isoChrono isoDay _).2.2.2.1.1 hf⟩
  simp [oilRow, RawRow.field, List.lookup, isoChrono_jan15, parseFloat_str_NA, orNull_nan,
    unlessNA]

/-- C2, refuted as stated.  A cell without a numeric prefix, and an absent
cell, coerce to `NaN` (not to `null`) in the reserves loader and in the three
Food processors, and a cell `Infinity` coerces to an infinity. -/
theorem coercion_yields_nan :
    reservesProcessed [[("date", "2020-01-15"), ("developed_4b2", "abc"),
        ("developing_4b2", "Infinity"), ("africa_4b2", ""), ("asiaoceania_4b2", "NA")]]
      = [{ date := some "2020-01-15", developed := some JSNum.nan,
           developing := some JSNum.posInf, africa := some JSNum.nan, asiaoceania := none,
           america := some JSNum.nan }] ∧
    (processInflationData isoDay [[("date", "2020-01-15"), ("africa", "abc")]]).africa
      = [some JSNum.nan] ∧
    (processFoodPriceIndexData isoDay [[("date", "2020-01-15"), ("value", "abc")]]).values
      = [JSNum.nan] ∧
    (processAgriData isoDay [[("date", "2020-01-15"), ("index", "abc")]]).index
      = [JSNum.nan] ∧
    ¬ (∀ raw : Option String,
        finiteOrNull (reservesField raw) = true ∧ finiteOrNull (inflationField raw) = true ∧
        (parseFloat raw).isFinite = true) := by
  have habc : parseFloat (some "abc") = JSNum.nan := by decide
  have hinf : parseFloat (some "Infinity") = JSNum.posInf := by decide
  have hemp : parseFloat (some "") = JSNum.nan := by decide
  have habs : parseFloat none = JSNum.nan := rfl
  refine ⟨?_, ?_, ?_, ?_, ?_⟩
  · simp [reservesProcessed, reservesRow, reservesField, unlessNA, RawRow.field, List.lookup,
      strTruthy, habc, hinf, hemp, habs]
  · simp [processInflationData, inflationStep, inflationField, unlessNA, RawRow.field,
      List.lookup, strTruthy, habc, JSNum.mul]
  · simp [processFoodPriceIndexData, foodPriceIndexStep, RawRow.field, List.lookup, strTruthy,
      habc]
  · simp [processAgriData, agriMonthly, agriStep, agriAccepts, RawRow.field, List.lookup,
      strTruthy, Bucket.push, Bucket.empty, habc, avg, JSNum.add, JSNum.div]
  · intro h
    have h1 := (h none).2.2
    simp [parseFloat, JSNum.isFinite] at h1

/-- A product by `100` is `NaN` exactly when the factor is. -/
theorem isNaN_mul_hundred (x : JSNum) :
    (JSNum.mul x (JSNum.fin 100)).isNaN = x.isNaN := by
  cases x <;> simp [JSNum.mul, JSNum.isNaN]

/-- The call `parseFloat` gives `NaN` exactly on an absent cell and on the
strings whose trimmed form starts with no numeric literal. -/
theorem parseFloat_isNaN_iff (raw : Option String) :
    (parseFloat raw).isNaN = true ↔ raw = none ∨ ∃ s, raw = some s ∧ scanFloat s = none := by
  cases raw with
  | none => simp [parseFloat, JSNum.isNaN]
  | some s =>
    cases h : scanFloat s with
    | none => simp [parseFloat, parseFloatStr, h, JSNum.isNaN]
    | some p =>
      obtain ⟨sg, u⟩ := p
      cases sg <;> cases u <;>
        simp [parseFloat, parseFloatStr, h, StrLit.val, JSNum.isNaN, JSNum.neg]

/-- A finite result of `parseFloat` comes from a cell whose trimmed form
starts with a decimal literal. -/
theorem decimal_of_parseFloat_isFinite (raw : Option String)
    (h : (parseFloat raw).isFinite = true) :
    ∃ s sg m e, raw = some s ∧ scanFloat s = some (sg, StrLit.decimal m e) := by
  cases raw with
  | none => simp [parseFloat, JSNum.isFinite] at h
  | some s =>
    cases hs : scanFloat s with
    | none => simp [parseFloat, parseFloatStr, hs, JSNum.isFinite] at h
    | some p =>
      obtain ⟨sg, u⟩ := p
      cases u with
      | infinity =>
        cases sg <;>
          simp [parseFloat, parseFloatStr, hs, StrLit.val, JSNum.isFinite, JSNum.neg] at h
      | decimal m e => exact ⟨s, sg, m, e, rfl, hs⟩

theorem isFinite_of_mul_hundred (x : JSNum)
    (h : (JSNum.mul x (JSNum.fin 100)).isFinite = true) : x.isFinite = true := by
  cases x <;> simp [JSNum.mul, JSNum.isFinite] at h ⊢

/-- C2, amended.  The coercion of the reserves loader and of
`processInflationData` is `null` exactly on the cell `"NA"`, and it is `NaN`
exactly on the other cells on which `parseFloat` is `NaN`, which are the
absent cell and the cells whose trimmed form starts with no numeric literal;
the bare `parseFloat` of `processAgriData` and `processFoodPriceIndexData` is
`NaN` on exactly those cells.  On no cell is the result guaranteed to be
finite: it is a finite number or `null` only if the cell is `"NA"` or its
trimmed form starts with a decimal literal. -/
theorem coercion_null_or_nan_iff (raw : Option String) :
    (reservesField raw = none ↔ raw = some "NA") ∧
    (inflationField raw = none ↔ raw = some "NA") ∧
    (reservesField raw = some JSNum.nan ↔
      raw ≠ some "NA" ∧ (parseFloat raw).isNaN = true) ∧
    (inflationField raw = some JSNum.nan ↔
      raw ≠ some "NA" ∧ (parseFloat raw).isNaN = true) ∧
    ((parseFloat raw).isNaN = true ↔
      raw = none ∨ ∃ s, raw = some s ∧ scanFloat s = none) ∧
    (finiteOrNull (reservesField raw) = false ∨ raw = some "NA" ∨
      ∃ s sg m e, raw = some s ∧ scanFloat s = some (sg, StrLit.decimal m e)) ∧
    (finiteOrNull (inflationField raw) = false ∨ raw = some "NA" ∨
      ∃ s sg m e, raw = some s ∧ scanFloat s = some (sg, StrLit.decimal m e)) ∧
    ((parseFloat raw).isFinite = false ∨
      ∃ s sg m e, raw = some s ∧ scanFloat s = some (sg, StrLit.decimal m e)) := by
  have hnan : ∀ x : JSNum, x = JSNum.nan ↔ x.isNaN = true := by
    intro x; cases x <;> simp [JSNum.isNaN]
  refine ⟨?_, ?_, ?_, ?_, parseFloat_isNaN_iff raw, ?_, ?_, ?_⟩
  · by_cases h : raw = some "NA" <;> simp [reservesField, unlessNA, h]
  · by_cases h : raw = some "NA" <;> simp [inflationField, unlessNA, h]
  · by_cases h : raw = some "NA"
    · simp [reservesField, unlessNA, h]
    · simp [reservesField, unlessNA, h, hnan]
  · by_cases h : raw = some "NA"
    · simp [inflationField, unlessNA, h]
    · simp [inflationField, unlessNA, h, hnan, isNaN_mul_hundred]
  · by_cases h : raw = some "NA"
    · exact Or.inr (Or.inl h)
    · by_cases hf : (parseFloat raw).isFinite = true
      · exact Or.inr (Or.inr (decimal_of_parseFloat_isFinite raw hf))
      · left
        simpa [reservesField, unlessNA, h, finiteOrNull] using hf
  · by_cases h : raw = some "NA"
    · exact Or.inr (Or.inl h)
    · by_cases hf : (JSNum.mul (parseFloat raw) (JSNum.fin 100)).isFinite = true
      · exact Or.inr (Or.inr
          (decimal_of_parseFloat_isFinite raw (isFinite_of_mul_hundred _ hf)))
      · left
        simpa [inflationField, unlessNA, h, finiteOrNull] using hf
  · by_cases hf : (parseFloat raw).isFinite = true
    · exact Or.inr (decimal_of_parseFloat_isFinite raw hf)
    · left
      simpa using hf

/-! ## Which rows are retained -/

theorem cleanedData_single (chrono : DateParser) (row : RawRow) :
    cleanedData chrono [row] =
      if (chrono (row.field "date")).isSome
          && !(orZero (parseFloat (row.field "crisis_probability"))).isNaN
      then [predictionRow chrono row] else [] := by
  simp [cleanedData, predictionRow, List.filter_cons]

/-- The expression `x || 0` is never `NaN`. -/
theorem orZero_not_nan (x : JSNum) : (orZero x).isNaN = false := by
  cases x with
  | fin q => by_cases h : q = 0 <;> simp [orZero, JSNum.truthy, JSNum.isNaN, h]
  | _ => simp [orZero, JSNum.truthy, JSNum.isNaN]

/-- C4.  Every record of the processed output of the two Energy datasets and
of the Prediction dataset carries the date the parser gave for one of the
input rows, never `null`; and a row whose date the parser maps to `null`
leaves no trace in the output, wherever it stands in the input. -/
theorem null_date_rows_absent (chrono : DateParser) (rows : List RawRow) :
    (∀ r ∈ oilProcessed chrono rows,
      ∃ row ∈ rows, chrono (row.field "date") = some r.date) ∧
    (∀ r ∈ oil2Processed chrono rows,
      ∃ row ∈ rows, chrono (row.field "date") = some r.date) ∧
    (∀ r ∈ cleanedData chrono rows,
      ∃ row ∈ rows, ∃ d, chrono (row.field "date") = some d ∧ r.date = some d) ∧
    (∀ (pre post : List RawRow) (row : RawRow), chrono (row.field "date") = none →
      oilProcessed chrono (pre ++ row :: post) = oilProcessed chrono (pre ++ post) ∧
      oil2Processed chrono (pre ++ row :: post) = oil2Processed chrono (pre ++ post) ∧
      cleanedData chrono (pre ++ row :: post) = cleanedData chrono (pre ++ post)) := by
  refine ⟨?_, ?_, ?_, ?_⟩
  · intro r hr
    obtain ⟨⟨row, hrow, hmap⟩, -⟩ := (mem_oilProcessed chrono rows r).1 hr
    exact ⟨row, hrow, oilRow_date chrono row r hmap⟩
  · intro r hr
    obtain ⟨⟨row, hrow, hmap⟩, -⟩ := (mem_oil2Processed chrono rows r).1 hr
    exact ⟨row, hrow, oil2Row_date chrono row r hmap⟩
  · intro r hr
    simp only [cleanedData, List.mem_filter, List.mem_map] at hr
    obtain ⟨⟨row, hrow, rfl⟩, hkeep⟩ := hr
    simp only [Bool.and_eq_true] at hkeep
    obtain ⟨d, hd⟩ := Option.isSome_iff_exists.1 hkeep.1
    exact ⟨row, hrow, d, hd, hd⟩
  · intro pre post row hnull
    have h1 : oilProcessed chrono [row] = [] := by
      rw [oilProcessed_single]; simp [oilRow, hnull]
    have h2 : oil2Processed chrono [row] = [] := by
      rw [oil2Processed_single]; simp [oil2Row, hnull]
    have h3 : cleanedData chrono [row] = [] := by
      rw [cleanedData_single]; simp [hnull]
    refine ⟨?_, ?_, ?_⟩
    · rw [← List.singleton_append, oilProcessed_append, oilProcessed_append, h1,
        oilProcessed_append]; rfl
    · rw [← List.singleton_append, oil2Processed_append, oil2Processed_append, h2,
        oil2Processed_append]; rfl
    · rw [← List.singleton_append, cleanedData_append, cleanedData_append, h3,
        cleanedData_append]; rfl

/-- C4, on a two-row input whose first row has no readable date. -/
theorem null_date_rows_absent_witness :
    isoChrono (RawRow.field [("date", "soon"), ("europe", "61.5")] "date") = none ∧
    oilProcessed isoChrono
        [[("date", "soon"), ("europe", "61.5")], [("date", "2020-01-15"), ("europe", "61.5")]]
      = oilProcessed isoChrono [[("date", "2020-01-15"), ("europe", "61.5")]] :=
  ⟨by decide,
    ((null_date_rows_absent isoChrono []).2.2.2 [] [[("date", "2020-01-15"), ("europe", "61.5")]]
      [("date", "soon"), ("europe", "61.5")] (by decide)).1⟩

/-- C6.  Every record retained by either Energy pipeline has a field that is
not `null`; a row with a parsed date whose three fields all coerce to `null`
is dropped; a row with a parsed date and a field that is not `null` is kept,
in its place. -/
theorem energy_keeps_rows_with_signal (chrono : DateParser) (rows : List RawRow) :
    (∀ r ∈ oilProcessed chrono rows,
      r.europe ≠ none ∨ r.middleeast ≠ none ∨ r.russia ≠ none) ∧
    (∀ r ∈ oil2Processed chrono rows, r.asia ≠ none ∨ r.europe ≠ none ∨ r.us ≠ none) ∧
    (∀ (pre post : List RawRow) (row : RawRow) (r : OilRecord), oilRow chrono row = some r →
      (r.europe = none ∧ r.middleeast = none ∧ r.russia = none →
        oilProcessed chrono (pre ++ row :: post) = oilProcessed chrono (pre ++ post)) ∧
      (r.europe ≠ none ∨ r.middleeast ≠ none ∨ r.russia ≠ none →
        oilProcessed chrono (pre ++ row :: post)
          = oilProcessed chrono pre ++ r :: oilProcessed chrono post)) ∧
    (∀ (pre post : List RawRow) (row : RawRow) (r : Oil2Record), oil2Row chrono row = some r →
      (r.asia = none ∧ r.europe = none ∧ r.us = none →
        oil2Processed chrono (pre ++ row :: post) = oil2Processed chrono (pre ++ post)) ∧
      (r.asia ≠ none ∨ r.europe ≠ none ∨ r.us ≠ none →
        oil2Processed chrono (pre ++ row :: post)
          = oil2Processed chrono pre ++ r :: oil2Processed chrono post)) := by
  refine ⟨?_, ?_, ?_, ?_⟩
  · intro r hr
    have h := ((mem_oilProcessed chrono rows r).1 hr).2
    simp only [Bool.or_eq_true, Option.isSome_iff_ne_none] at h
    tauto
  · intro r hr
    have h := ((mem_oil2Processed chrono rows r).1 hr).2
    simp only [Bool.or_eq_true, Option.isSome_iff_ne_none] at h
    tauto
  · intro pre post row r hrow
    constructor
    · rintro ⟨h1, h2, h3⟩
      have hs : oilProcessed chrono [row] = [] := by
        rw [oilProcessed_single]; simp [hrow, h1, h2, h3]
      rw [← List.singleton_append, oilProcessed_append, oilProcessed_append, hs,
        oilProcessed_append]; rfl
    · intro h
      have hs : oilProcessed chrono [row] = [r] := by
        rw [oilProcessed_single]
        have hk : (r.europe.isSome || r.middleeast.isSome || r.russia.isSome) = true := by
          simp only [Bool.or_eq_true, Option.isSome_iff_ne_none]; tauto
        simp [hrow, hk]
      rw [← List.singleton_append, oilProcessed_append, oilProcessed_append, hs]; rfl
  · intro pre post row r hrow
    constructor
    · rintro ⟨h1, h2, h3⟩
      have hs : oil2Processed chrono [row] = [] := by
        rw [oil2Processed_single]; simp [hrow, h1, h2, h3]
      rw [← List.singleton_append, oil2Processed_append, oil2Processed_append, hs,
        oil2Processed_append]; rfl
    · intro h
      have hs : oil2Processed chrono [row] = [r] := by
        rw [oil2Processed_single]
        have hk : (r.asia.isSome || r.europe.isSome || r.us.isSome) = true := by
          simp only [Bool.or_eq_true, Option.isSome_iff_ne_none]; tauto
        simp [hrow, hk]
      rw [← List.singleton_append, oil2Processed_append, oil2Processed_append, hs]; rfl

/-- C6, on a row with one numeric cell and on a row with none. -/
theorem energy_keeps_rows_with_signal_witness :
    oilProcessed isoChrono
        [[("date", "2020-01-15"), ("europe", "61.5")], [("date", "2020-01-15"), ("europe", "x")]]
      = [{ date := JSDate.valid 2020 0 15, europe := some (JSNum.fin (123 / 2)),
           middleeast := none, russia := none }] := by
  have habs : parseFloat none = JSNum.nan := rfl
  have hx : parseFloat (some "x") = JSNum.nan := by decide
  have hkeep : oilRow isoChrono [("date", "2020-01-15"), ("europe", "61.5")]
      = some { date := JSDate.valid 2020 0 15, europe := some (JSNum.fin (123 / 2)),
               middleeast := none, russia := none } := by
    simp [oilRow, RawRow.field, List.lookup, isoChrono_jan15, parseFloat_str_61_5, habs, orNull,
      unlessNA, JSNum.truthy]
  have hdrop : oilRow isoChrono [("date", "2020-01-15"), ("europe", "x")]
      = some { date := JSDate.valid 2020 0 15, europe := none, middleeast := none,
               russia := none } := by
    simp [oilRow, RawRow.field, List.lookup, isoChrono_jan15, hx, habs, orNull_nan, unlessNA]
  have h1 := ((energy_keeps_rows_with_signal isoChrono []).2.2.1 []
    [[("date", "2020-01-15"), ("europe", "x")]] _ _ hkeep).2 (Or.inl (by simp))
  have h2 := ((energy_keeps_rows_with_signal isoChrono []).2.2.1
    [] [] _ _ hdrop).1 ⟨rfl, rfl, rfl⟩
  rw [List.nil_append] at h1 h2
  rw [h1, h2]
  rfl

/-- C7 (the code at the failing input).  Three Prediction rows with a parsed
date whose `crisis_probability` is absent, empty and not numeric: none is
discarded, each is in the cleaned data with probability zero.  For every
input the test `!isNaN(row.crisis_probability)` of the filter holds, so the
filter keeps exactly the rows with a parsed date. -/
theorem prediction_keeps_rows_without_probability :
    cleanedData isoChrono
        [[("date", "2020-01-15"), ("geography", "A"), ("developing_region", "Africa")],
         [("date", "2020-01-15"), ("geography", "B"), ("developing_region", "Africa"),
          ("crisis_probability", "")],
         [("date", "2020-01-15"), ("geography", "C"), ("developing_region", "Africa"),
          ("crisis_probability", "n/a")]]
      = [{ date := some (JSDate.valid 2020 0 15), geography := some "A", countries := none,
           development_status := "Unknown", developing_region := "Africa",
           crisis_probability := JSNum.fin 0, crisis_predicted := JSNum.fin 0,
           crisis_type := "None" },
         { date := some (JSDate.valid 2020 0 15), geography := some "B", countries := none,
           development_status := "Unknown", developing_region := "Africa",
           crisis_probability := JSNum.fin 0, crisis_predicted := JSNum.fin 0,
           crisis_type := "None" },
         { date := some (JSDate.valid 2020 0 15), geography := some "C", countries := none,
           development_status := "Unknown", developing_region := "Africa",
           crisis_probability := JSNum.fin 0, crisis_predicted := JSNum.fin 0,
           crisis_type := "None" }] ∧
    (∀ (chrono : DateParser) (rows : List RawRow),
      cleanedData chrono rows
        = (rows.map (predictionRow chrono)).filter (fun row => row.date.isSome)) := by
  have habs : parseFloat none = JSNum.nan := rfl
  have hemp : parseFloat (some "") = JSNum.nan := by decide
  have hna : parseFloat (some "n/a") = JSNum.nan := by decide
  have hint : parseInt none = JSNum.nan := rfl
  constructor
  · simp [cleanedData, predictionRow, RawRow.field, List.lookup, isoChrono_jan15, habs, hemp,
      hna, hint, orZero, strOr, JSNum.truthy, JSNum.isNaN]
  · intro chrono rows
    unfold cleanedData
    apply List.filter_congr
    intro r hr
    obtain ⟨row, -, rfl⟩ := List.mem_map.1 hr
    simp [predictionRow, orZero_not_nan]

/-- A raw field is falsy exactly when it is absent or the empty string. -/
theorem strTruthy_eq_false_iff (x : Option String) :
    strTruthy x = false ↔ x = none ∨ x = some "" := by
  cases x with
  | none => simp [strTruthy]
  | some s => simp [strTruthy]

theorem reservesProcessed_append (xs ys : List RawRow) :
    reservesProcessed (xs ++ ys) = reservesProcessed xs ++ reservesProcessed ys := by
  simp [reservesProcessed]

/-- C8.  The reserves pipeline is the coercion of the rows whose `date` is
present and not empty, in input order; such a row is kept in its place even
when its five numeric cells are all `"NA"`; a row whose `date` is absent or
empty is dropped. -/
theorem reserves_keeps_dated_rows (rows : List RawRow) :
    reservesProcessed rows
      = (rows.filter (fun row => strTruthy (row.field "date"))).map reservesRow ∧
    (∀ (pre post : List RawRow) (row : RawRow) (d : String),
      row.field "date" = some d → d ≠ "" →
      row.field "developed_4b2" = some "NA" → row.field "developing_4b2" = some "NA" →
      row.field "africa_4b2" = some "NA" → row.field "asiaoceania_4b2" = some "NA" →
      row.field "america_4b2" = some "NA" →
      reservesProcessed (pre ++ row :: post)
        = reservesProcessed pre ++
            { date := some d, developed := none, developing := none, africa := none,
              asiaoceania := none, america := none } :: reservesProcessed post) ∧
    (∀ (pre post : List RawRow) (row : RawRow),
      (row.field "date" = none ∨ row.field "date" = some "") →
      reservesProcessed (pre ++ row :: post) = reservesProcessed (pre ++ post)) := by
  refine ⟨?_, ?_, ?_⟩
  · unfold reservesProcessed
    rw [List.filter_map]
    rfl
  · intro pre post row d hd hne h1 h2 h3 h4 h5
    have hs : reservesProcessed [row]
        = [{ date := some d, developed := none, developing := none, africa := none,
             asiaoceania := none, america := none }] := by
      simp [reservesProcessed, reservesRow, reservesField, unlessNA, hd, h1, h2, h3, h4, h5,
        strTruthy, hne]
    rw [← List.singleton_append, reservesProcessed_append, reservesProcessed_append, hs]; rfl
  · intro pre post row hd
    have hf : strTruthy (row.field "date") = false := (strTruthy_eq_false_iff _).2 hd
    have hs : reservesProcessed [row] = [] := by
      simp [reservesProcessed, reservesRow, hf]
    rw [← List.singleton_append, reservesProcessed_append, reservesProcessed_append, hs,
      reservesProcessed_append]; rfl

/-- C8, on a dated row of `"NA"` cells between two rows without a date. -/
theorem reserves_keeps_dated_rows_witness :
    reservesProcessed
        [[("date", "")],
         [("date", "2020-01-15"), ("developed_4b2", "NA"), ("developing_4b2", "NA"),
          ("africa_4b2", "NA"), ("asiaoceania_4b2", "NA"), ("america_4b2", "NA")],
         [("developed_4b2", "NA")]]
      = [{ date := some "2020-01-15", developed := none, developing := none, africa := none,
           asiaoceania := none, america := none }] := by
  have hkeep := (reserves_keeps_dated_rows []).2.1 [[("date", "")]] [[("developed_4b2", "NA")]]
    [("date", "2020-01-15"), ("developed_4b2", "NA"), ("developing_4b2", "NA"),
      ("africa_4b2", "NA"), ("asiaoceania_4b2", "NA"), ("america_4b2", "NA")] "2020-01-15"
    (by simp [RawRow.field, List.lookup]) (by decide) (by simp [RawRow.field, List.lookup])
    (by simp [RawRow.field, List.lookup]) (by simp [RawRow.field, List.lookup])
    (by simp [RawRow.field, List.lookup]) (by simp [RawRow.field, List.lookup])
  have hpre := (reserves_keeps_dated_rows []).2.2 [] [] [("date", "")]
    (Or.inr (by simp [RawRow.field, List.lookup]))
  have hpost := (reserves_keeps_dated_rows []).2.2 [] [] [("developed_4b2", "NA")]
    (Or.inl (by simp [RawRow.field, List.lookup]))
  rw [List.nil_append] at hpre hpost
  rw [List.singleton_append] at hkeep
  rw [hkeep, hpre, hpost]
  rfl

/-! ## Food: rows and dates -/

theorem parseFloat_str_one : parseFloat (some "1") = JSNum.fin 1 := by
  rw [parseFloat_lit "1" false (.decimal 1 0) (by decide)]
  simp [StrLit.val, scale10]

theorem parseFloat_str_two : parseFloat (some "2") = JSNum.fin 2 := by
  rw [parseFloat_lit "2" false (.decimal 2 0) (by decide)]
  simp [StrLit.val, scale10]

theorem parseFloat_str_four : parseFloat (some "4") = JSNum.fin 4 := by
  rw [parseFloat_lit "4" false (.decimal 4 0) (by decide)]
  simp [StrLit.val, scale10]

theorem parseFloat_str_six : parseFloat (some "6") = JSNum.fin 6 := by
  rw [parseFloat_lit "6" false (.decimal 6 0) (by decide)]
  simp [StrLit.val, scale10]

theorem parseFloat_str_half : parseFloat (some "0.5") = JSNum.fin (1 / 2) := by
  rw [parseFloat_lit "0.5" false (.decimal 5 (-1)) (by decide)]
  simp [StrLit.val, scale10]; norm_num

/-- C5, refuted as stated.  The string `not a date` is no calendar date, yet
a row carrying it is not dropped by any Food processor: it adds an Invalid
Date to the output dates, a value to every series, and (in
`processAgriData`) the month bucket `NaN-NaN`. -/
theorem food_keeps_unparseable_date_rows :
    isoDay "not a date" = JSDate.invalid ∧
    processAgriData isoDay
        [[("date", "not a date"), ("index", "1"), ("corn", "2"), ("rice", "4"), ("wheat", "6")]]
      = { dates := [some JSDate.invalid], index := [JSNum.fin 1], corn := [JSNum.fin 2],
          rice := [JSNum.fin 4], wheat := [JSNum.fin 6] } ∧
    (agriMonthly isoDay
        [[("date", "not a date"), ("index", "1"), ("corn", "2"), ("rice", "4"),
          ("wheat", "6")]]).map Prod.fst = ["NaN-NaN"] ∧
    processInflationData isoDay
        [[("date", "not a date"), ("developing", "0.5"), ("africa", "NA"), ("asiaoceania", "1"),
          ("america", "2")]]
      = { dates := [JSDate.invalid], developingCountries := [some (JSNum.fin 50)],
          africa := [none], asiaoceania := [some (JSNum.fin 100)],
          america := [some (JSNum.fin 200)] } ∧
    processFoodPriceIndexData isoDay [[("date", "not a date"), ("value", "1")]]
      = { dates := [JSDate.invalid], values := [JSNum.fin 1] } := by
  have hd : isoDay "not a date" = JSDate.invalid := by decide
  have hk : monthKey JSDate.invalid = "NaN-NaN" := rfl
  refine ⟨hd, ?_, ?_, ?_, ?_⟩
  · simp [processAgriData, agriMonthly, agriStep, agriAccepts, RawRow.field, List.lookup,
      strTruthy, Bucket.push, Bucket.empty, hd, hk, parseFloat_str_one, parseFloat_str_two,
      parseFloat_str_four, parseFloat_str_six, avg, JSNum.add, JSNum.div]
  · simp [agriMonthly, agriStep, agriAccepts, RawRow.field, List.lookup, strTruthy, hd, hk]
  · simp [processInflationData, inflationStep, inflationField, unlessNA, RawRow.field,
      List.lookup, strTruthy, hd, parseFloat_str_half, parseFloat_str_one, parseFloat_str_two,
      JSNum.mul]
    norm_num
  · simp [processFoodPriceIndexData, foodPriceIndexStep, RawRow.field, List.lookup, strTruthy,
      hd, parseFloat_str_one]

/-- C5, amended.  A row whose `date` is absent or empty is dropped by each
Food processor, wherever it stands in the input: the month buckets and the
three outputs are those of the input without the row. -/
theorem food_drops_rows_without_date (newDate : DateCtor) (pre post : List RawRow)
    (row : RawRow) (h : row.field "date" = none ∨ row.field "date" = some "") :
    agriMonthly newDate (pre ++ row :: post) = agriMonthly newDate (pre ++ post) ∧
    processAgriData newDate (pre ++ row :: post) = processAgriData newDate (pre ++ post) ∧
    processInflationData newDate (pre ++ row :: post)
      = processInflationData newDate (pre ++ post) ∧
    processFoodPriceIndexData newDate (pre ++ row :: post)
      = processFoodPriceIndexData newDate (pre ++ post) := by
  have hf : strTruthy (row.field "date") = false := (strTruthy_eq_false_iff _).2 h
  have hm : agriMonthly newDate (pre ++ row :: post) = agriMonthly newDate (pre ++ post) := by
    simp [agriMonthly, List.foldl_append, agriStep, agriAccepts, hf]
  refine ⟨hm, ?_, ?_, ?_⟩
  · simp only [processAgriData, hm]
  · simp [processInflationData, List.foldl_append, inflationStep, hf]
  · simp [processFoodPriceIndexData, List.foldl_append, foodPriceIndexStep, hf]

/-- C5 as amended, on a row with an empty date before a dated row. -/
theorem food_drops_rows_without_date_witness :
    processFoodPriceIndexData isoDay
        [[("date", ""), ("value", "1")], [("date", "2020-01-15"), ("value", "1")]]
      = processFoodPriceIndexData isoDay [[("date", "2020-01-15"), ("value", "1")]] :=
  (food_drops_rows_without_date isoDay [] [[("date", "2020-01-15"), ("value", "1")]]
    [("date", ""), ("value", "1")] (Or.inr (by simp [RawRow.field, List.lookup]))).2.2.2

/-! ## Food: the month buckets of `processAgriData` -/

theorem firstSeen_snoc (ks : List String) (k : String) :
    firstSeen (ks ++ [k]) = if k ∈ firstSeen ks then firstSeen ks else firstSeen ks ++ [k] := by
  simp [firstSeen, List.foldl_append]

theorem mem_firstSeen (ks : List String) (k : String) : k ∈ firstSeen ks ↔ k ∈ ks := by
  induction ks using List.reverseRecOn with
  | nil => simp [firstSeen]
  | append_singleton l a ih =>
    rw [firstSeen_snoc]
    by_cases ha : a ∈ firstSeen l
    · simp only [ha, if_true, List.mem_append, List.mem_singleton, ih]
      constructor
      · exact Or.inl
      · rintro (h | rfl)
        · exact h
        · exact ih.1 ha
    · simp [ha, ih]

theorem nodup_firstSeen (ks : List String) : (firstSeen ks).Nodup := by
  induction ks using List.reverseRecOn with
  | nil => simp [firstSeen]
  | append_singleton l a ih =>
    rw [firstSeen_snoc]
    by_cases ha : a ∈ firstSeen l
    · simpa [ha] using ih
    · simp only [ha, if_false]
      exact List.Nodup.append ih (List.nodup_singleton a) (by simpa using ha)

theorem specKeys_snoc (newDate : DateCtor) (rs : List RawRow) (r : RawRow) :
    specKeys newDate (rs ++ [r]) =
      if agriAccepts r then
        (if agriKey newDate r ∈ specKeys newDate rs then specKeys newDate rs
          else specKeys newDate rs ++ [agriKey newDate r])
      else specKeys newDate rs := by
  unfold specKeys
  by_cases h : agriAccepts r = true
  · simp [List.filter_append, h, firstSeen_snoc]
  · simp [List.filter_append, h]

theorem mem_specKeys (newDate : DateCtor) (rows : List RawRow) (k : String) :
    k ∈ specKeys newDate rows ↔
      ∃ row ∈ rows, agriAccepts row = true ∧ agriKey newDate row = k := by
  simp [specKeys, mem_firstSeen, List.mem_filter, and_assoc]

theorem specBucketRows_snoc (newDate : DateCtor) (rs : List RawRow) (r : RawRow) (k : String) :
    specBucketRows newDate (rs ++ [r]) k =
      specBucketRows newDate rs k ++
        (if agriAccepts r = true ∧ agriKey newDate r = k then [r] else []) := by
  unfold specBucketRows
  by_cases h : agriAccepts r = true ∧ agriKey newDate r = k
  · simp [List.filter_append, h]
  · simp only [List.filter_append, h, if_false]
    congr 1
    simp only [List.filter_cons, List.filter_nil]
    have : (agriAccepts r && decide (agriKey newDate r = k)) = false := by
      simpa [Bool.and_eq_false_iff] using h
    simp [this]

theorem specBucketRows_eq_nil (newDate : DateCtor) (rows : List RawRow) (k : String)
    (h : k ∉ specKeys newDate rows) : specBucketRows newDate rows k = [] := by
  rw [mem_specKeys] at h
  unfold specBucketRows
  rw [List.filter_eq_nil_iff]
  intro row hrow hk
  simp only [Bool.and_eq_true, decide_eq_true_eq] at hk
  exact h ⟨row, hrow, hk.1, hk.2⟩

theorem specBucketRows_ne_nil (newDate : DateCtor) (rows : List RawRow) (k : String)
    (h : k ∈ specKeys newDate rows) : specBucketRows newDate rows k ≠ [] := by
  obtain ⟨row, hrow, hacc, hkey⟩ := (mem_specKeys newDate rows k).1 h
  intro hnil
  have hmem : row ∈ specBucketRows newDate rows k := by
    simp [specBucketRows, List.mem_filter, hrow, hacc, hkey]
  rw [hnil] at hmem
  exact List.not_mem_nil _ hmem

theorem specBucket_snoc (newDate : DateCtor) (rs : List RawRow) (r : RawRow) :
    specBucket newDate (rs ++ [r])
      = (specBucket newDate rs).push (newDate ((r.field "date").getD "")) r := by
  simp [specBucket, Bucket.push]

theorem lookup_keyed_isNone {β : Type} (ks : List String) (g : String → β) (k : String) :
    ((ks.map (fun x => (x, g x))).lookup k).isNone = true ↔ k ∉ ks := by
  induction ks with
  | nil => simp
  | cons a l ih =>
    by_cases h : k = a
    · subst h; simp [List.lookup_cons]
    · have h2 : (k == a) = false := by simpa using h
      simp [List.lookup_cons, h2, h, ih]

theorem agriMonthly_snoc (newDate : DateCtor) (rs : List RawRow) (r : RawRow) :
    agriMonthly newDate (rs ++ [r]) = agriStep newDate (agriMonthly newDate rs) r := by
  simp [agriMonthly, List.foldl_append]

/-- The object `monthlyData` holds, for each month key of the accepted rows in
order of first occurrence, the bucket of the accepted rows with that key. -/
theorem agriMonthly_eq (newDate : DateCtor) (rows : List RawRow) :
    agriMonthly newDate rows
      = (specKeys newDate rows).map
          (fun k => (k, specBucket newDate (specBucketRows newDate rows k))) := by
  induction rows using List.reverseRecOn with
  | nil => simp [agriMonthly, specKeys, firstSeen]
  | append_singleton rs r ih =>
    rw [agriMonthly_snoc, ih, specKeys_snoc]
    unfold agriStep
    by_cases hacc : agriAccepts r = true
    · simp only [hacc, if_true]
      have hkey : monthKey (newDate ((r.field "date").getD "")) = agriKey newDate r := rfl
      simp only [hkey]
      by_cases hmem : agriKey newDate r ∈ specKeys newDate rs
      · have hl : (List.lookup (agriKey newDate r)
            ((specKeys newDate rs).map
              (fun k => (k, specBucket newDate (specBucketRows newDate rs k))))).isNone = false := by
          rw [Bool.eq_false_iff, Ne, lookup_keyed_isNone]; simpa using hmem
        simp only [hl, hmem, if_true, if_false, List.map_map, Bool.false_eq_true]
        apply List.map_congr_left
        intro k _
        simp only [Function.comp]
        rw [specBucketRows_snoc]
        by_cases hk : k = agriKey newDate r
        · subst hk
          simp [hacc, specBucket_snoc]
        · have hk2 : ¬ (agriAccepts r = true ∧ agriKey newDate r = k) := fun h => hk h.2.symm
          simp [hk, hk2]
      · have hl : (List.lookup (agriKey newDate r)
            ((specKeys newDate rs).map
              (fun k => (k, specBucket newDate (specBucketRows newDate rs k))))).isNone = true := by
          rw [lookup_keyed_isNone]; exact hmem
        simp only [hl, hmem, if_true, if_false, List.map_append, List.map_map, List.map_cons,
          List.map_nil]
        congr 1
        · apply List.map_congr_left
          intro k hkmem
          have hk : k ≠ agriKey newDate r := fun h => hmem (h ▸ hkmem)
          have hk2 : ¬ (agriAccepts r = true ∧ agriKey newDate r = k) := fun h => hk h.2.symm
          simp only [Function.comp]
          rw [specBucketRows_snoc]
          simp [hk, hk2]
        · rw [specBucketRows_snoc, specBucketRows_eq_nil newDate rs _ hmem]
          simp [hacc, specBucket, Bucket.push, Bucket.empty]
    · simp only [hacc, if_false]
      apply List.map_congr_left
      intro k _
      rw [specBucketRows_snoc]
      simp [hacc]

theorem agriMonthly_keys (newDate : DateCtor) (rows : List RawRow) :
    (agriMonthly newDate rows).map Prod.fst = specKeys newDate rows := by
  rw [agriMonthly_eq, List.map_map]
  exact List.map_id _

theorem specBucket_field (newDate : DateCtor) (rs : List RawRow) (f : AgriField) :
    f.ofBucket (specBucket newDate rs) = rs.map (fun row => parseFloat (row.field f.column)) := by
  cases f <;> rfl

/-- Each series of the output of `processAgriData` holds, bucket by bucket,
`avg` of the values of all the rows of the bucket. -/
theorem processAgriData_series (newDate : DateCtor) (rows : List RawRow) (f : AgriField) :
    f.ofData (processAgriData newDate rows)
      = (specKeys newDate rows).map (fun k =>
          avg ((specBucketRows newDate rows k).map
            (fun row => parseFloat (row.field f.column)))) := by
  have h : f.ofData (processAgriData newDate rows)
      = (agriMonthly newDate rows).map (fun kb => avg (f.ofBucket kb.2)) := by
    cases f <;> rfl
  rw [h, agriMonthly_eq, List.map_map]
  apply List.map_congr_left
  intro k _
  simp [Function.comp, specBucket_field]

theorem foldl_add_fin (xs : List JSNum) (a : ℚ) (h : ∀ x ∈ xs, x.isFinite = true) :
    xs.foldl JSNum.add (JSNum.fin a) = JSNum.fin (a + (xs.map JSNum.toRat).sum) := by
  induction xs generalizing a with
  | nil => simp
  | cons x l ih =>
    have hx := h x (List.mem_cons_self x l)
    cases x with
    | fin q =>
      simp only [List.foldl_cons, JSNum.add, List.map_cons, List.sum_cons, JSNum.toRat]
      rw [ih (a + q) (fun y hy => h y (List.mem_cons_of_mem _ hy)), add_assoc]
    | nan => simp [JSNum.isFinite] at hx
    | posInf => simp [JSNum.isFinite] at hx
    | negInf => simp [JSNum.isFinite] at hx

theorem add_nan_right (x : JSNum) : JSNum.add x JSNum.nan = JSNum.nan := by
  cases x <;> rfl

theorem foldl_add_nan (xs : List JSNum) : xs.foldl JSNum.add JSNum.nan = JSNum.nan := by
  induction xs with
  | nil => rfl
  | cons x l ih => simpa [JSNum.add] using ih

theorem foldl_add_of_mem_nan (xs : List JSNum) (a : JSNum) (h : JSNum.nan ∈ xs) :
    xs.foldl JSNum.add a = JSNum.nan := by
  induction xs generalizing a with
  | nil => simp at h
  | cons x l ih =>
    rw [List.foldl_cons]
    rcases List.mem_cons.1 h with hx | hl
    · rw [← hx, add_nan_right, foldl_add_nan]
    · exact ih _ hl

/-- On a non-empty array of finite numbers `avg` is the sum of the values
divided by their number. -/
theorem avg_of_finite (xs : List JSNum) (hne : xs ≠ []) (h : ∀ x ∈ xs, x.isFinite = true) :
    avg xs = JSNum.fin ((xs.map JSNum.toRat).sum / (xs.length : ℚ)) := by
  unfold avg
  rw [foldl_add_fin xs 0 h, zero_add]
  have hlen : (xs.length : ℚ) ≠ 0 := by
    have : xs.length ≠ 0 := fun h0 => hne (List.length_eq_zero.1 h0)
    exact_mod_cast this
  simp [JSNum.div, hlen]

/-- An array that holds a `NaN` has `avg` `NaN`. -/
theorem avg_of_mem_nan (xs : List JSNum) (h : JSNum.nan ∈ xs) : avg xs = JSNum.nan := by
  unfold avg
  rw [foldl_add_of_mem_nan xs _ h]
  rfl

/-! ## Food: the monthly means -/

/-- C9, refuted as stated.  Three accepted rows of January 2020 with the
`corn` cells `2`, empty and `6`: the bucket's `corn` output is `NaN`, not the
mean 4 of the two numeric values (the `index` cells 2, 4, 6 give 4). -/
theorem agri_mean_keeps_non_numeric_rows :
    processAgriData isoDay
        [[("date", "2020-01-15"), ("index", "2"), ("corn", "2")],
         [("date", "2020-01-15"), ("index", "4"), ("corn", "")],
         [("date", "2020-01-15"), ("index", "6"), ("corn", "6")]]
      = { dates := [some (JSDate.valid 2020 0 15)], index := [JSNum.fin 4],
          corn := [JSNum.nan], rice := [JSNum.nan], wheat := [JSNum.nan] } ∧
    JSNum.nan ≠ JSNum.fin 4 := by
  have hd : isoDay "2020-01-15" = JSDate.valid 2020 0 15 := by decide
  have hk : monthKey (JSDate.valid 2020 0 15) = "2020-1" := by decide
  have hemp : parseFloat (some "") = JSNum.nan := by decide
  have habs : parseFloat none = JSNum.nan := rfl
  refine ⟨?_, by decide⟩
  simp [processAgriData, agriMonthly, agriStep, agriAccepts, RawRow.field, List.lookup,
    strTruthy, Bucket.push, Bucket.empty, hd, hk, parseFloat_str_two, parseFloat_str_four,
    parseFloat_str_six, hemp, habs, avg, JSNum.add, JSNum.div]
  norm_num

/-- C9, amended.  For every month bucket and every tracked field the output
is `avg` over all the accepted rows of the bucket, none excluded: the sum of
the `parseFloat` of the cells divided by the number of rows.  Hence a bucket
with a row whose cell is absent or not numeric (`parseFloat` is `NaN`) has
the output `NaN` for that field. -/
theorem agri_mean_over_all_bucket_rows (newDate : DateCtor) (rows : List RawRow)
    (f : AgriField) (i : Nat) (k : String)
    (hk : ((agriMonthly newDate rows).map Prod.fst)[i]? = some k) :
    (f.ofData (processAgriData newDate rows))[i]?
      = some (avg ((specBucketRows newDate rows k).map
          (fun row => parseFloat (row.field f.column)))) ∧
    ((∃ row ∈ specBucketRows newDate rows k, parseFloat (row.field f.column) = JSNum.nan) →
      (f.ofData (processAgriData newDate rows))[i]? = some JSNum.nan) := by
  rw [agriMonthly_keys] at hk
  have h1 : (f.ofData (processAgriData newDate rows))[i]?
      = some (avg ((specBucketRows newDate rows k).map
          (fun row => parseFloat (row.field f.column)))) := by
    rw [processAgriData_series, List.getElem?_map, hk]; rfl
  refine ⟨h1, ?_⟩
  rintro ⟨row, hrow, hnan⟩
  rw [h1, avg_of_mem_nan]
  exact List.mem_map.2 ⟨row, hrow, hnan⟩

/-- C10.  When every accepted row of a month bucket has a finite value for a
field, the bucket's output for the field is the sum of those values divided
by the number of rows of the bucket. -/
theorem agri_mean_of_numeric_bucket (newDate : DateCtor) (rows : List RawRow)
    (f : AgriField) (i : Nat) (k : String)
    (hk : ((agriMonthly newDate rows).map Prod.fst)[i]? = some k)
    (hnum : ∀ row ∈ specBucketRows newDate rows k,
      (parseFloat (row.field f.column)).isFinite = true) :
    (f.ofData (processAgriData newDate rows))[i]?
      = some (JSNum.fin
          (((specBucketRows newDate rows k).map
              (fun row => (parseFloat (row.field f.column)).toRat)).sum
            / ((specBucketRows newDate rows k).length : ℚ))) := by
  rw [agriMonthly_keys] at hk
  have hmem : k ∈ specKeys newDate rows := List.mem_iff_getElem?.2 ⟨i, hk⟩
  have hne := specBucketRows_ne_nil newDate rows k hmem
  rw [processAgriData_series, List.getElem?_map, hk]
  simp only [Option.map_some']
  rw [avg_of_finite]
  · simp only [List.map_map, List.length_map]; rfl
  · simpa using hne
  · intro x hx
    obtain ⟨row, hrow, rfl⟩ := List.mem_map.1 hx
    exact hnum row hrow

theorem isoDay_jan15 : isoDay "2020-01-15" = JSDate.valid 2020 0 15 := by decide

theorem monthKey_jan15 : monthKey (JSDate.valid 2020 0 15) = "2020-1" := by decide

/-- C9 as amended, on the bucket of January 2020 with the `corn` cells `2`,
empty and `6`: the output is `NaN`. -/
theorem agri_mean_over_all_bucket_rows_witness :
    (AgriField.corn.ofData (processAgriData isoDay
        [[("date", "2020-01-15"), ("index", "2"), ("corn", "2")],
         [("date", "2020-01-15"), ("index", "4"), ("corn", "")],
         [("date", "2020-01-15"), ("index", "6"), ("corn", "6")]]))[0]? = some JSNum.nan := by
  have hemp : parseFloat (some "") = JSNum.nan := by decide
  refine (agri_mean_over_all_bucket_rows isoDay _ AgriField.corn 0 "2020-1" ?_).2
    ⟨[("date", "2020-01-15"), ("index", "4"), ("corn", "")], ?_, ?_⟩
  · simp [agriMonthly, agriStep, agriAccepts, RawRow.field, List.lookup, strTruthy,
      isoDay_jan15, monthKey_jan15]
  · simp [specBucketRows, agriAccepts, agriKey, RawRow.field, List.lookup, strTruthy,
      isoDay_jan15, monthKey_jan15]
  · simp [AgriField.column, RawRow.field, List.lookup, hemp]

/-- C10, on the bucket of January 2020 with the `index` cells 2, 4 and 6: the
output is 4. -/
theorem agri_mean_of_numeric_bucket_witness :
    (AgriField.index.ofData (processAgriData isoDay
        [[("date", "2020-01-15"), ("index", "2"), ("corn", "2")],
         [("date", "2020-01-15"), ("index", "4"), ("corn", "")],
         [("date", "2020-01-15"), ("index", "6"), ("corn", "6")]]))[0]?
      = some (JSNum.fin 4) := by
  have hrows : specBucketRows isoDay
      [[("date", "2020-01-15"), ("index", "2"), ("corn", "2")],
       [("date", "2020-01-15"), ("index", "4"), ("corn", "")],
       [("date", "2020-01-15"), ("index", "6"), ("corn", "6")]] "2020-1"
      = [[("date", "2020-01-15"), ("index", "2"), ("corn", "2")],
         [("date", "2020-01-15"), ("index", "4"), ("corn", "")],
         [("date", "2020-01-15"), ("index", "6"), ("corn", "6")]] := by
    simp [specBucketRows, agriAccepts, agriKey, RawRow.field, List.lookup, strTruthy,
      isoDay_jan15, monthKey_jan15]
  have h := agri_mean_of_numeric_bucket isoDay
    [[("date", "2020-01-15"), ("index", "2"), ("corn", "2")],
     [("date", "2020-01-15"), ("index", "4"), ("corn", "")],
     [("date", "2020-01-15"), ("index", "6"), ("corn", "6")]] AgriField.index 0 "2020-1"
    (by simp [agriMonthly, agriStep, agriAccepts, RawRow.field, List.lookup, strTruthy,
      isoDay_jan15, monthKey_jan15])
    (by
      rw [hrows]
      intro row hrow
      simp only [List.mem_cons, List.mem_singleton, List.not_mem_nil, or_false] at hrow
      rcases hrow with rfl | rfl | rfl <;>
        simp [AgriField.column, RawRow.field, List.lookup, parseFloat_str_two,
          parseFloat_str_four, parseFloat_str_six, JSNum.isFinite])
  rw [h, hrows]
  simp [AgriField.column, RawRow.field, List.lookup, parseFloat_str_two, parseFloat_str_four,
    parseFloat_str_six, JSNum.toRat]
  norm_num

/-! ## Food: month keys -/

theorem digitChar_val (k : Nat) (h : k < 10) :
    isDecDigit (Nat.digitChar k) = true ∧ (Nat.digitChar k).toNat - 48 = k := by
  interval_cases k <;> decide

theorem digitsVal_snoc (l : List Char) (c : Char) :
    digitsVal (l ++ [c]) = 10 * digitsVal l + (c.toNat - 48) := by
  simp [digitsVal, List.foldl_append]

/-- The digits `Nat.toDigitsCore` puts in front of the accumulator: decimal
digits, at least one, that read back as the number. -/
theorem toDigitsCore_spec (fuel : Nat) :
    ∀ (n : Nat) (ds : List Char), n < fuel →
      ∃ l, Nat.toDigitsCore 10 fuel n ds = l ++ ds ∧ l ≠ [] ∧
        (∀ c ∈ l, isDecDigit c = true) ∧ digitsVal l = n := by
  induction fuel with
  | zero => intro n ds h; omega
  | succ fuel ih =>
    intro n ds h
    obtain ⟨hd, hv⟩ := digitChar_val (n % 10) (Nat.mod_lt _ (by decide))
    unfold Nat.toDigitsCore
    by_cases h0 : n / 10 = 0
    · refine ⟨[Nat.digitChar (n % 10)], by simp [h0], by simp, by simpa using hd, ?_⟩
      have hn : n % 10 = n := by omega
      simp only [digitsVal, List.foldl_cons, List.foldl_nil, hv]
      omega
    · have hlt : n / 10 < fuel := by omega
      obtain ⟨l, hl, hne, hdig, hval⟩ := ih (n / 10) (Nat.digitChar (n % 10) :: ds) hlt
      refine ⟨l ++ [Nat.digitChar (n % 10)], by simp [h0, hl], by simp, ?_, ?_⟩
      · intro c hc
        rcases List.mem_append.1 hc with hc | hc
        · exact hdig c hc
        · simp at hc; subst hc; exact hd
      · rw [digitsVal_snoc, hval, hv]; omega

theorem toString_nat_spec (n : Nat) :
    (toString n).toList ≠ [] ∧ (∀ c ∈ (toString n).toList, isDecDigit c = true) ∧
      digitsVal (toString n).toList = n := by
  obtain ⟨l, hl, hne, hdig, hval⟩ := toDigitsCore_spec (n + 1) n [] (Nat.lt_succ_self n)
  have h : (toString n).toList = l := by
    show (Nat.repr n).toList = l
    simp [Nat.repr, Nat.toDigits, hl, List.asString]
  rw [h]
  exact ⟨hne, hdig, hval⟩

theorem toString_nat_injective (a b : Nat) (h : toString a = toString b) : a = b := by
  have ha := (toString_nat_spec a).2.2
  have hb := (toString_nat_spec b).2.2
  rw [h] at ha
  omega

theorem toString_int_toList (i : Int) :
    (toString i).toList =
      match i with
      | Int.ofNat m => (toString m).toList
      | Int.negSucc m => '-' :: (toString (m + 1)).toList := by
  cases i with
  | ofNat m => rfl
  | negSucc m => rfl

theorem toString_int_injective (a b : Int) (h : toString a = toString b) : a = b := by
  have hl : (toString a).toList = (toString b).toList := by rw [h]
  rw [toString_int_toList, toString_int_toList] at hl
  cases a with
  | ofNat m =>
    cases b with
    | ofNat k =>
      simp only at hl
      have : m = k := toString_nat_injective m k (String.ext hl)
      rw [this]
    | negSucc k =>
      simp only at hl
      obtain ⟨hne, hdig, -⟩ := toString_nat_spec m
      rw [hl] at hdig
      have := hdig '-' (List.mem_cons_self _ _)
      exact absurd this (by decide)
  | negSucc m =>
    cases b with
    | ofNat k =>
      simp only at hl
      obtain ⟨hne, hdig, -⟩ := toString_nat_spec k
      rw [← hl] at hdig
      have := hdig '-' (List.mem_cons_self _ _)
      exact absurd this (by decide)
    | negSucc k =>
      simp only [List.cons.injEq, true_and] at hl
      have : m + 1 = k + 1 := toString_nat_injective _ _ (String.ext hl)
      have hmk : m = k := by omega
      rw [hmk]

/-- Two lists split at a separator that their right parts do not hold are
split alike. -/
theorem append_sep_inj {α : Type} (a : α) (l1 l2 d1 d2 : List α) (h1 : a ∉ d1) (h2 : a ∉ d2)
    (h : l1 ++ a :: d1 = l2 ++ a :: d2) : l1 = l2 ∧ d1 = d2 := by
  rcases List.append_eq_append_iff.1 h with ⟨t, ht, hd⟩ | ⟨t, ht, hd⟩
  · cases t with
    | nil => simp at ht hd; exact ⟨ht.symm, hd⟩
    | cons x t =>
      simp only [List.cons_append, List.cons.injEq] at hd
      exact absurd (by rw [hd.2]; simp) h1
  · cases t with
    | nil => simp at ht hd; exact ⟨ht, hd.symm⟩
    | cons x t =>
      simp only [List.cons_append, List.cons.injEq] at hd
      exact absurd (by rw [hd.2]; simp) h2


theorem monthKey_valid_toList (y : Int) (m : Fin 12) (d : Nat) :
    (monthKey (JSDate.valid y m d)).toList
      = (toString y).toList ++ '-' :: (toString (m.val + 1)).toList := by
  simp [monthKey, String.toList]

theorem not_mem_of_digits (l : List Char) (h : ∀ c ∈ l, isDecDigit c = true) : '-' ∉ l :=
  fun hm => absurd (h '-' hm) (by decide)

/-- Two dates have the same month key exactly when they read as the same
year and month. -/
theorem monthKey_eq_iff (d1 d2 : JSDate) :
    monthKey d1 = monthKey d2 ↔ d1.yearMonth = d2.yearMonth := by
  have hnan : ∀ (y : Int) (m : Fin 12) (d : Nat),
      monthKey JSDate.invalid ≠ monthKey (JSDate.valid y m d) := by
    intro y m d h
    have hl := congrArg String.toList h
    rw [monthKey_valid_toList] at hl
    have hs := toString_nat_spec (m.val + 1)
    have hsplit := append_sep_inj '-' ['N', 'a', 'N'] _ ['N', 'a', 'N'] _ (by decide)
      (not_mem_of_digits _ hs.2.1) hl
    have hN := hs.2.1 'N' (by rw [← hsplit.2]; simp)
    exact absurd hN (by decide)
  cases d1 with
  | invalid =>
    cases d2 with
    | invalid => simp
    | valid y m d => simpa [JSDate.yearMonth] using hnan y m d
  | valid y1 m1 e1 =>
    cases d2 with
    | invalid =>
      simpa [JSDate.yearMonth] using fun h => hnan y1 m1 e1 h.symm
    | valid y2 m2 e2 =>
      constructor
      · intro h
        have hl := congrArg String.toList h
        rw [monthKey_valid_toList, monthKey_valid_toList] at hl
        obtain ⟨hy, hm⟩ := append_sep_inj '-' _ _ _ _
          (not_mem_of_digits _ (toString_nat_spec _).2.1)
          (not_mem_of_digits _ (toString_nat_spec _).2.1) hl
        have hy2 : y1 = y2 := toString_int_injective _ _ (String.ext hy)
        have hm2 : m1.val + 1 = m2.val + 1 := toString_nat_injective _ _ (String.ext hm)
        have hm3 : m1 = m2 := Fin.ext (by omega)
        simp [JSDate.yearMonth, hy2, hm3]
      · intro h
        simp only [JSDate.yearMonth, Option.some.injEq, Prod.mk.injEq] at h
        simp [monthKey, h.1, h.2]


theorem isoDay_feb15 : isoDay "2020-02-15" = JSDate.valid 2020 1 15 := by decide

theorem monthKey_feb15 : monthKey (JSDate.valid 2020 1 15) = "2020-2" := by decide

/-- The output of `processAgriData`, bucket by bucket: for each month key in
order of first occurrence, the date of the first row of the bucket and `avg`
of each of its four columns. -/
theorem processAgriData_eq (newDate : DateCtor) (rows : List RawRow) :
    processAgriData newDate rows =
      { dates := (specKeys newDate rows).map (fun k =>
          ((specBucketRows newDate rows k).map
            (fun row => newDate ((row.field "date").getD ""))).head?),
        index := (specKeys newDate rows).map (fun k =>
          avg ((specBucketRows newDate rows k).map (fun row => parseFloat (row.field "index")))),
        corn := (specKeys newDate rows).map (fun k =>
          avg ((specBucketRows newDate rows k).map (fun row => parseFloat (row.field "corn")))),
        rice := (specKeys newDate rows).map (fun k =>
          avg ((specBucketRows newDate rows k).map (fun row => parseFloat (row.field "rice")))),
        wheat := (specKeys newDate rows).map (fun k =>
          avg ((specBucketRows newDate rows k).map
            (fun row => parseFloat (row.field "wheat")))) } := by
  unfold processAgriData
  simp only [agriMonthly_eq, List.map_map]
  rfl

/-! ## Food: one entry per month, no empty bucket, aligned series -/

/-- C11.  Two dates have the same bucket key exactly when they read as the
same year and month (an Invalid Date reads as none).  The keys of
`monthlyData` are the month keys of the accepted rows, each once, in the order
in which they first occur in the input; the output has one entry per key, in
that order, whose date is the date of the first accepted row of the month.
Rows of February, January, February give the entries February, January. -/
theorem agri_one_entry_per_month (newDate : DateCtor) (rows : List RawRow) :
    (∀ d1 d2 : JSDate, monthKey d1 = monthKey d2 ↔ d1.yearMonth = d2.yearMonth) ∧
    (agriMonthly newDate rows).map Prod.fst
      = firstSeen ((rows.filter agriAccepts).map (agriKey newDate)) ∧
    ((agriMonthly newDate rows).map Prod.fst).Nodup ∧
    (∀ k, k ∈ (agriMonthly newDate rows).map Prod.fst ↔
      ∃ row ∈ rows, agriAccepts row = true ∧ agriKey newDate row = k) ∧
    (processAgriData newDate rows).dates
      = ((agriMonthly newDate rows).map Prod.fst).map (fun k =>
          ((rows.filter (fun row => agriAccepts row && decide (agriKey newDate row = k))).map
            (fun row => newDate ((row.field "date").getD ""))).head?) ∧
    (processAgriData isoDay
        [[("date", "2020-02-15"), ("index", "1")], [("date", "2020-01-15"), ("index", "2")],
         [("date", "2020-02-15"), ("index", "1")]]).dates
      = [some (JSDate.valid 2020 1 15), some (JSDate.valid 2020 0 15)] := by
  refine ⟨monthKey_eq_iff, ?_, ?_, ?_, ?_, ?_⟩
  · rw [agriMonthly_keys]; rfl
  · rw [agriMonthly_keys]; exact nodup_firstSeen _
  · intro k
    rw [agriMonthly_keys]; exact mem_specKeys newDate rows k
  · rw [agriMonthly_keys, processAgriData_eq]; rfl
  · simp [processAgriData, agriMonthly, agriStep, agriAccepts, RawRow.field, List.lookup,
      strTruthy, Bucket.push, Bucket.empty, isoDay_jan15, monthKey_jan15, isoDay_feb15,
      monthKey_feb15]

/-- C12.  Every bucket of `monthlyData` holds at least one record, the same
number in each of its five lists, so the divisor `arr.length` of `avg` is not
zero and `dates[0]` is a date: no entry of the output dates is `undefined`. -/
theorem agri_no_empty_bucket (newDate : DateCtor) (rows : List RawRow) :
    (∀ kb ∈ agriMonthly newDate rows,
      0 < kb.2.dates.length ∧ kb.2.index.length = kb.2.dates.length ∧
      kb.2.corn.length = kb.2.dates.length ∧ kb.2.rice.length = kb.2.dates.length ∧
      kb.2.wheat.length = kb.2.dates.length ∧ (∃ d, kb.2.dates.head? = some d)) ∧
    (∀ d ∈ (processAgriData newDate rows).dates, d ≠ none) := by
  have hb : ∀ kb ∈ agriMonthly newDate rows,
      0 < kb.2.dates.length ∧ kb.2.index.length = kb.2.dates.length ∧
      kb.2.corn.length = kb.2.dates.length ∧ kb.2.rice.length = kb.2.dates.length ∧
      kb.2.wheat.length = kb.2.dates.length ∧ (∃ d, kb.2.dates.head? = some d) := by
    intro kb hkb
    rw [agriMonthly_eq] at hkb
    obtain ⟨k, hk, rfl⟩ := List.mem_map.1 hkb
    have hne := specBucketRows_ne_nil newDate rows k hk
    have hpos : 0 < (specBucketRows newDate rows k).length := List.length_pos.2 hne
    refine ⟨by simpa [specBucket] using hpos, by simp [specBucket], by simp [specBucket],
      by simp [specBucket], by simp [specBucket], ?_⟩
    cases hrows : specBucketRows newDate rows k with
    | nil => exact absurd hrows hne
    | cons r rs => exact ⟨newDate ((r.field "date").getD ""), by simp [specBucket]⟩
  refine ⟨hb, ?_⟩
  intro d hd
  simp only [processAgriData, List.mem_map] at hd
  obtain ⟨kb, hkb, rfl⟩ := hd
  obtain ⟨e, he⟩ := (hb kb hkb).2.2.2.2.2
  simp [he]

/-- C12, on the January bucket of a three-row input. -/
theorem agri_no_empty_bucket_witness :
    ("2020-1", Bucket.mk [JSDate.valid 2020 0 15] [JSNum.fin 2] [JSNum.nan] [JSNum.nan]
        [JSNum.nan])
      ∈ agriMonthly isoDay
        [[("date", "2020-02-15"), ("index", "1")], [("date", "2020-01-15"), ("index", "2")],
         [("date", "2020-02-15"), ("index", "1")]] ∧
    0 < [JSDate.valid 2020 0 15].length := by
  have hmem : ("2020-1", Bucket.mk [JSDate.valid 2020 0 15] [JSNum.fin 2] [JSNum.nan] [JSNum.nan]
        [JSNum.nan])
      ∈ agriMonthly isoDay
        [[("date", "2020-02-15"), ("index", "1")], [("date", "2020-01-15"), ("index", "2")],
         [("date", "2020-02-15"), ("index", "1")]] := by
    have habs : parseFloat none = JSNum.nan := rfl
    simp [agriMonthly, agriStep, agriAccepts, RawRow.field, List.lookup, strTruthy, Bucket.push,
      Bucket.empty, isoDay_jan15, monthKey_jan15, isoDay_feb15, monthKey_feb15,
      parseFloat_str_one, parseFloat_str_two, habs]
  exact ⟨hmem, ((agri_no_empty_bucket isoDay _).1 _ hmem).1⟩

theorem processInflationData_eq (newDate : DateCtor) (rows : List RawRow) :
    processInflationData newDate rows =
      { dates := (rows.filter (fun row => strTruthy (row.field "date"))).map
          (fun row => newDate ((row.field "date").getD "")),
        developingCountries := (rows.filter (fun row => strTruthy (row.field "date"))).map
          (fun row => inflationField (row.field "developing")),
        africa := (rows.filter (fun row => strTruthy (row.field "date"))).map
          (fun row => inflationField (row.field "africa")),
        asiaoceania := (rows.filter (fun row => strTruthy (row.field "date"))).map
          (fun row => inflationField (row.field "asiaoceania")),
        america := (rows.filter (fun row => strTruthy (row.field "date"))).map
          (fun row => inflationField (row.field "america")) } := by
  induction rows using List.reverseRecOn with
  | nil => rfl
  | append_singleton rs r ih =>
    unfold processInflationData at ih ⊢
    rw [List.foldl_append, ih]
    by_cases h : strTruthy (r.field "date") = true
    · simp [inflationStep, h, List.filter_append]
    · simp [inflationStep, h, List.filter_append]

theorem processFoodPriceIndexData_eq (newDate : DateCtor) (rows : List RawRow) :
    processFoodPriceIndexData newDate rows =
      { dates := (rows.filter (fun row =>
            strTruthy (row.field "date") && strTruthy (row.field "value"))).map
          (fun row => newDate ((row.field "date").getD "")),
        values := (rows.filter (fun row =>
            strTruthy (row.field "date") && strTruthy (row.field "value"))).map
          (fun row => parseFloat (row.field "value")) } := by
  induction rows using List.reverseRecOn with
  | nil => rfl
  | append_singleton rs r ih =>
    unfold processFoodPriceIndexData at ih ⊢
    rw [List.foldl_append, ih]
    by_cases h : (strTruthy (r.field "date") && strTruthy (r.field "value")) = true
    · simp [foodPriceIndexStep, h, List.filter_append]
    · simp [foodPriceIndexStep, h, List.filter_append]

/-- C13.  The arrays each Food processor returns have one length and are
aligned by position.  In `processAgriData` position `i` of every array comes
from the `i`-th month bucket; in `processInflationData` and in
`processFoodPriceIndexData` position `i` of every array comes from the `i`-th
row that passes the guard. -/
theorem food_series_aligned (newDate : DateCtor) (rows : List RawRow) :
    ((processAgriData newDate rows).index.length = (processAgriData newDate rows).dates.length ∧
      (processAgriData newDate rows).corn.length = (processAgriData newDate rows).dates.length ∧
      (processAgriData newDate rows).rice.length = (processAgriData newDate rows).dates.length ∧
      (processAgriData newDate rows).wheat.length
        = (processAgriData newDate rows).dates.length) ∧
    (∀ i : Nat, (processAgriData newDate rows).dates[i]?
          = ((agriMonthly newDate rows)[i]?).map (fun kb => kb.2.dates.head?) ∧
        (processAgriData newDate rows).index[i]?
          = ((agriMonthly newDate rows)[i]?).map (fun kb => avg kb.2.index) ∧
        (processAgriData newDate rows).corn[i]?
          = ((agriMonthly newDate rows)[i]?).map (fun kb => avg kb.2.corn) ∧
        (processAgriData newDate rows).rice[i]?
          = ((agriMonthly newDate rows)[i]?).map (fun kb => avg kb.2.rice) ∧
        (processAgriData newDate rows).wheat[i]?
          = ((agriMonthly newDate rows)[i]?).map (fun kb => avg kb.2.wheat)) ∧
    ((processInflationData newDate rows).developingCountries.length
        = (processInflationData newDate rows).dates.length ∧
      (processInflationData newDate rows).africa.length
        = (processInflationData newDate rows).dates.length ∧
      (processInflationData newDate rows).asiaoceania.length
        = (processInflationData newDate rows).dates.length ∧
      (processInflationData newDate rows).america.length
        = (processInflationData newDate rows).dates.length) ∧
    (∀ i : Nat, (processInflationData newDate rows).dates[i]?
          = ((rows.filter (fun row => strTruthy (row.field "date")))[i]?).map
              (fun row => newDate ((row.field "date").getD "")) ∧
        (processInflationData newDate rows).developingCountries[i]?
          = ((rows.filter (fun row => strTruthy (row.field "date")))[i]?).map
              (fun row => inflationField (row.field "developing")) ∧
        (processInflationData newDate rows).africa[i]?
          = ((rows.filter (fun row => strTruthy (row.field "date")))[i]?).map
              (fun row => inflationField (row.field "africa")) ∧
        (processInflationData newDate rows).asiaoceania[i]?
          = ((rows.filter (fun row => strTruthy (row.field "date")))[i]?).map
              (fun row => inflationField (row.field "asiaoceania")) ∧
        (processInflationData newDate rows).america[i]?
          = ((rows.filter (fun row => strTruthy (row.field "date")))[i]?).map
              (fun row => inflationField (row.field "america"))) ∧
    (processFoodPriceIndexData newDate rows).values.length
      = (processFoodPriceIndexData newDate rows).dates.length ∧
    (∀ i : Nat, (processFoodPriceIndexData newDate rows).dates[i]?
          = ((rows.filter (fun row =>
                strTruthy (row.field "date") && strTruthy (row.field "value")))[i]?).map
              (fun row => newDate ((row.field "date").getD "")) ∧
        (processFoodPriceIndexData newDate rows).values[i]?
          = ((rows.filter (fun row =>
                strTruthy (row.field "date") && strTruthy (row.field "value")))[i]?).map
              (fun row => parseFloat (row.field "value"))) := by
  refine ⟨?_, ?_, ?_, ?_, ?_, ?_⟩
  · simp [processAgriData]
  · intro i
    simp [processAgriData, List.getElem?_map]
  · rw [processInflationData_eq]; simp
  · intro i
    rw [processInflationData_eq]; simp [List.getElem?_map]
  · rw [processFoodPriceIndexData_eq]; simp
  · intro i
    rw [processFoodPriceIndexData_eq]; simp [List.getElem?_map]

/-! ## Grouping with an object -/

theorem recordsOf_snoc {ρ : Type} (key : ρ → String) (rs : List ρ) (r : ρ) (k : String) :
    recordsOf key (rs ++ [r]) k = recordsOf key rs k ++ (if key r = k then [r] else []) := by
  unfold recordsOf
  by_cases h : key r = k <;> simp [List.filter_append, h]

theorem recordsOf_ne_nil {ρ : Type} (key : ρ → String) (rows : List ρ) (k : String)
    (h : k ∈ firstSeen (rows.map key)) : recordsOf key rows k ≠ [] := by
  rw [mem_firstSeen] at h
  obtain ⟨r, hr, hk⟩ := List.mem_map.1 h
  intro hnil
  have hmem : r ∈ recordsOf key rows k := by simp [recordsOf, List.mem_filter, hr, hk]
  rw [hnil] at hmem
  exact List.not_mem_nil _ hmem

theorem recordsOf_eq_nil {ρ : Type} (key : ρ → String) (rows : List ρ) (k : String)
    (h : k ∉ firstSeen (rows.map key)) : recordsOf key rows k = [] := by
  rw [mem_firstSeen] at h
  unfold recordsOf
  rw [List.filter_eq_nil_iff]
  intro r hr hk
  simp only [decide_eq_true_eq] at hk
  exact h (List.mem_map.2 ⟨r, hr, hk⟩)

/-- The grouping idiom builds one entry per key, in order of first
occurrence, from the records with that key. -/
theorem foldl_groupStep {ρ β : Type} (key : ρ → String) (init : ρ → β) (upd : β → ρ → β)
    (mk : List ρ → β) (h1 : ∀ r, upd (init r) r = mk [r])
    (h2 : ∀ rs r, rs ≠ [] → upd (mk rs) r = mk (rs ++ [r])) (rows : List ρ) :
    rows.foldl (groupStep key init upd) []
      = (firstSeen (rows.map key)).map (fun k => (k, mk (recordsOf key rows k))) := by
  induction rows using List.reverseRecOn with
  | nil => simp [firstSeen]
  | append_singleton rs r ih =>
    rw [List.foldl_append, List.foldl_cons, List.foldl_nil, ih, List.map_append, List.map_cons,
      List.map_nil, firstSeen_snoc]
    unfold groupStep
    by_cases hmem : key r ∈ firstSeen (rs.map key)
    · have hl : (List.lookup (key r)
          ((firstSeen (rs.map key)).map (fun k => (k, mk (recordsOf key rs k))))).isNone
            = false := by
        rw [Bool.eq_false_iff, Ne, lookup_keyed_isNone]; simpa using hmem
      simp only [hl, hmem, if_true, if_false, List.map_map, Bool.false_eq_true]
      apply List.map_congr_left
      intro k hk
      simp only [Function.comp]
      rw [recordsOf_snoc]
      by_cases hkr : k = key r
      · subst hkr
        simp [h2 _ r (recordsOf_ne_nil key rs _ hk)]
      · have hkr2 : ¬ (key r = k) := fun h => hkr h.symm
        simp [hkr, hkr2]
    · have hl : (List.lookup (key r)
          ((firstSeen (rs.map key)).map (fun k => (k, mk (recordsOf key rs k))))).isNone
            = true := by
        rw [lookup_keyed_isNone]; exact hmem
      simp only [hl, hmem, if_true, if_false, List.map_append, List.map_map, List.map_cons,
        List.map_nil]
      congr 1
      · apply List.map_congr_left
        intro k hk
        have hkr : k ≠ key r := fun h => hmem (h ▸ hk)
        have hkr2 : ¬ (key r = k) := fun h => hkr h.symm
        simp only [Function.comp]
        rw [recordsOf_snoc]
        simp [hkr, hkr2]
      · rw [recordsOf_snoc, recordsOf_eq_nil key rs _ hmem]
        simp [h1]

theorem foldl_skip {α β : Type} (p : α → Bool) (f : β → α → β) (l : List α) (init : β) :
    l.foldl (fun x y => if p y = true then f x y else x) init = (l.filter p).foldl f init := by
  induction l generalizing init with
  | nil => rfl
  | cons a t ih =>
    by_cases h : p a = true
    · simp [List.filter_cons, h, ih]
    · simp [List.filter_cons, h, ih]

theorem regionStep_eq (acc : JSObject RegionStat) (row : PredictionRecord) :
    regionStep acc row =
      if decide (row.developing_region ∉ protoNames) = true then
        groupStep (fun r : PredictionRecord => r.developing_region)
          (fun _ => ({ count := 0, total_prob := JSNum.fin 0 } : RegionStat))
          (fun s r => { count := s.count + 1,
                        total_prob := JSNum.add s.total_prob r.crisis_probability }) acc row
      else acc := by
  unfold regionStep groupStep
  by_cases h : row.developing_region ∈ protoNames <;> simp [h]

theorem recordsOf_filter_of_keep {ρ : Type} (key : ρ → String) (p : String → Bool)
    (rows : List ρ) (k : String) (hk : p k = true) :
    recordsOf key (rows.filter (fun r => p (key r))) k = recordsOf key rows k := by
  unfold recordsOf
  rw [List.filter_filter]
  apply List.filter_congr
  intro r _
  by_cases h : key r = k
  · simp [h, hk]
  · simp [h]

/-- The object `regionStats` holds, for each region that does not name an
inherited property, in order of first occurrence, the number of the records
of the region and the sum of their probabilities. -/
theorem regionStats_eq (data : List PredictionRecord) :
    regionStats data
      = (specRegions data).map (fun k =>
          (k, specRegionStat (recordsOf (fun r => r.developing_region) data k))) := by
  unfold regionStats
  have hstep : regionStep = fun acc row =>
      if decide (row.developing_region ∉ protoNames) = true then
        groupStep (fun r : PredictionRecord => r.developing_region)
          (fun _ => ({ count := 0, total_prob := JSNum.fin 0 } : RegionStat))
          (fun s r => { count := s.count + 1,
                        total_prob := JSNum.add s.total_prob r.crisis_probability }) acc row
      else acc := by
    funext acc row; exact regionStep_eq acc row
  rw [hstep, foldl_skip (fun r : PredictionRecord =>
    decide (r.developing_region ∉ protoNames))]
  rw [foldl_groupStep _ _ _ specRegionStat]
  · unfold specRegions
    apply List.map_congr_left
    intro k hk
    have hk2 : k ∉ protoNames := by
      rw [mem_firstSeen] at hk
      obtain ⟨r, hr, rfl⟩ := List.mem_map.1 hk
      simpa using (List.mem_filter.1 hr).2
    have := recordsOf_filter_of_keep (fun r : PredictionRecord => r.developing_region)
      (fun k => decide (k ∉ protoNames)) data k (by simpa using hk2)
    rw [this]
  · intro r; simp [specRegionStat]
  · intro rs r _; simp [specRegionStat, List.foldl_append]

theorem topCountries_foldl (data : List PredictionRecord)
    (h : ∀ r ∈ data, geoKey r ∉ protoNames) (acc : JSObject GeoGroup) :
    data.foldl topCountriesStep (some acc)
      = some (data.foldl (groupStep geoKey
          (fun r => ({ countries := r.countries, probs := [] } : GeoGroup))
          (fun g r => { countries := g.countries, probs := g.probs ++ [r.crisis_probability] }))
          acc) := by
  induction data generalizing acc with
  | nil => rfl
  | cons r rs ih =>
    have hr : geoKey r ∉ protoNames := h r (List.mem_cons_self _ _)
    rw [List.foldl_cons, List.foldl_cons]
    have hs : topCountriesStep (some acc) r
        = some (groupStep geoKey
          (fun r => ({ countries := r.countries, probs := [] } : GeoGroup))
          (fun g r => { countries := g.countries, probs := g.probs ++ [r.crisis_probability] })
          acc r) := by
      simp [topCountriesStep, groupStep, hr]
    rw [hs]
    exact ih (fun x hx => h x (List.mem_cons_of_mem _ hx)) _

theorem foldl_topCountriesStep_none (data : List PredictionRecord) :
    data.foldl topCountriesStep none = none := by
  induction data with
  | nil => rfl
  | cons r rs ih => simpa [topCountriesStep] using ih

/-- The `reduce` that builds `topCountries` throws exactly when a geography
names an inherited property. -/
theorem topCountries_eq_none_iff (data : List PredictionRecord) :
    topCountries data = none ↔ ∃ r ∈ data, geoKey r ∈ protoNames := by
  constructor
  · intro h
    by_contra hne
    have hall : ∀ r ∈ data, geoKey r ∉ protoNames := fun r hr hk => hne ⟨r, hr, hk⟩
    rw [topCountries, topCountries_foldl data hall] at h
    exact absurd h (by simp)
  · rintro ⟨r, hr, hk⟩
    obtain ⟨pre, post, rfl⟩ := List.append_of_mem hr
    unfold topCountries
    rw [List.foldl_append, List.foldl_cons]
    have : topCountriesStep (List.foldl topCountriesStep (some []) pre) r = none := by
      cases List.foldl topCountriesStep (some []) pre with
      | none => rfl
      | some acc => simp [topCountriesStep, hk]
    rw [this, foldl_topCountriesStep_none]

/-- When no geography names an inherited property, `topCountries` holds, for
each geography in order of first occurrence, the `countries` of its first
record and the probabilities of its records. -/
theorem topCountries_eq (data : List PredictionRecord)
    (h : ∀ r ∈ data, geoKey r ∉ protoNames) :
    topCountries data
      = some ((firstSeen (data.map geoKey)).map (fun k =>
          (k, specGeoGroup (recordsOf geoKey data k)))) := by
  unfold topCountries
  rw [topCountries_foldl data h, foldl_groupStep _ _ _ specGeoGroup]
  · intro r; simp [specGeoGroup]
  · intro rs r hne
    cases rs with
    | nil => exact absurd rfl hne
    | cons a t => simp [specGeoGroup]


/-! ## `Object.entries` and `sort` -/

theorem objectEntries_perm {β : Type} (obj : JSObject β) : (objectEntries obj).Perm obj := by
  unfold objectEntries
  have h1 := List.perm_insertionSort
    (fun a b : String × β => (arrayIndex a.1).getD 0 ≤ (arrayIndex b.1).getD 0)
    (obj.filter (fun kv => (arrayIndex kv.1).isSome))
  have h2 : obj.filter (fun kv => (arrayIndex kv.1).isNone)
      = obj.filter (fun kv => !(arrayIndex kv.1).isSome) := by
    apply List.filter_congr
    intro kv _
    cases arrayIndex kv.1 <;> rfl
  rw [h2]
  exact (List.Perm.append_right _ h1).trans (List.filter_append_perm _ obj)

/-- An object none of whose keys is an array index is listed by
`Object.entries` in the order of creation. -/
theorem objectEntries_of_no_index {β : Type} (obj : JSObject β)
    (h : ∀ kv ∈ obj, arrayIndex kv.1 = none) : objectEntries obj = obj := by
  unfold objectEntries
  have h1 : obj.filter (fun kv => (arrayIndex kv.1).isSome) = [] := by
    rw [List.filter_eq_nil_iff]
    intro kv hkv
    simp [h kv hkv]
  have h2 : obj.filter (fun kv => (arrayIndex kv.1).isNone) = obj := by
    rw [List.filter_eq_self]
    intro kv hkv
    simp [h kv hkv]
  rw [h1, h2]
  rfl

theorem jsSort_perm {α : Type} (cmp : α → α → JSNum) (l : List α) : (jsSort cmp l).Perm l :=
  List.perm_insertionSort _ l

theorem mem_jsSort {α : Type} (cmp : α → α → JSNum) (l : List α) (x : α) :
    x ∈ jsSort cmp l ↔ x ∈ l :=
  (jsSort_perm cmp l).mem_iff

/-- The sort is stable: elements that tie under the comparator keep their
relative order. -/
theorem jsSort_filter_of_ties {α : Type} (cmp : α → α → JSNum) (p : α → Bool)
    (hp : ∀ a b, p a = true → p b = true → (cmp a b).isPos = false) (l : List α) :
    (jsSort cmp l).filter p = l.filter p := by
  have hsub : List.Sublist (l.filter p) (jsSort cmp l) := by
    apply List.sublist_insertionSort
    · apply List.pairwise_of_forall_mem_list
      intro a ha b hb
      exact hp a b (List.mem_filter.1 ha).2 (List.mem_filter.1 hb).2
    · exact List.filter_sublist l
  have hsub2 : List.Sublist (l.filter p) ((jsSort cmp l).filter p) := by
    have := hsub.filter p
    simpa [List.filter_filter] using this
  have hlen : (l.filter p).length = ((jsSort cmp l).filter p).length :=
    ((jsSort_perm cmp l).filter p).length_eq.symm
  exact (hsub2.eq_of_length hlen).symm

theorem sub_self_not_pos (x : JSNum) : (JSNum.sub x x).isPos = false := by
  cases x <;> simp [JSNum.sub, JSNum.neg, JSNum.add, JSNum.isPos]

theorem isPos_sub_eq_false_iff (x y : JSNum) (hx : x ≠ JSNum.nan) (hy : y ≠ JSNum.nan) :
    (JSNum.sub y x).isPos = false ↔ JSNum.le y x = true := by
  cases x <;> cases y <;> simp_all [JSNum.sub, JSNum.neg, JSNum.add, JSNum.isPos, JSNum.le]

theorem le_total_of_not_nan (x y : JSNum) (hx : x ≠ JSNum.nan) (hy : y ≠ JSNum.nan) :
    JSNum.le x y = true ∨ JSNum.le y x = true := by
  cases x <;> cases y <;> simp_all [JSNum.le]
  exact le_total _ _

theorem le_trans_num (x y z : JSNum) (h1 : JSNum.le x y = true) (h2 : JSNum.le y z = true) :
    JSNum.le x z = true := by
  cases x <;> cases y <;> cases z <;> simp_all [JSNum.le]
  exact le_trans h1 h2

theorem orderedInsert_sorted_desc {α : Type} (key : α → JSNum) (a : α) (l : List α)
    (ha : key a ≠ JSNum.nan) (hl : ∀ x ∈ l, key x ≠ JSNum.nan)
    (hs : l.Pairwise (fun x y => JSNum.le (key y) (key x) = true)) :
    (List.orderedInsert (fun x y => (JSNum.sub (key y) (key x)).isPos = false) a l).Pairwise
      (fun x y => JSNum.le (key y) (key x) = true) := by
  induction l with
  | nil => simp
  | cons b t ih =>
    have hb : key b ≠ JSNum.nan := hl b (List.mem_cons_self _ _)
    have ht : ∀ x ∈ t, key x ≠ JSNum.nan := fun x hx => hl x (List.mem_cons_of_mem _ hx)
    obtain ⟨hbt, hst⟩ := List.pairwise_cons.1 hs
    simp only [List.orderedInsert]
    by_cases hr : (JSNum.sub (key b) (key a)).isPos = false
    · rw [if_pos hr]
      have hab : JSNum.le (key b) (key a) = true := (isPos_sub_eq_false_iff _ _ ha hb).1 hr
      refine List.pairwise_cons.2 ⟨?_, hs⟩
      intro c hc
      rcases List.mem_cons.1 hc with rfl | hc
      · exact hab
      · exact le_trans_num _ _ _ (hbt c hc) hab
    · rw [if_neg hr]
      have hba : JSNum.le (key a) (key b) = true := by
        rcases le_total_of_not_nan (key a) (key b) ha hb with h | h
        · exact h
        · exact absurd ((isPos_sub_eq_false_iff _ _ ha hb).2 h) hr
      refine List.pairwise_cons.2 ⟨?_, ih ht hst⟩
      intro c hc
      rcases (List.mem_orderedInsert _).1 hc with rfl | hc
      · exact hba
      · exact hbt c hc

/-- With the comparator `(a, b) => key(b) - key(a)` and no `NaN` among the
keys, the sorted array is in non-increasing order of the key. -/
theorem jsSort_sorted_desc {α : Type} (key : α → JSNum) (l : List α)
    (h : ∀ x ∈ l, key x ≠ JSNum.nan) :
    (jsSort (fun a b => JSNum.sub (key b) (key a)) l).Pairwise
      (fun x y => JSNum.le (key y) (key x) = true) := by
  induction l with
  | nil => simp [jsSort]
  | cons a t ih =>
    have ht : ∀ x ∈ t, key x ≠ JSNum.nan := fun x hx => h x (List.mem_cons_of_mem _ hx)
    have := orderedInsert_sorted_desc key a (jsSort (fun a b => JSNum.sub (key b) (key a)) t)
      (h a (List.mem_cons_self _ _))
      (fun x hx => ht x ((mem_jsSort _ _ _).1 hx)) (ih ht)
    simpa [jsSort] using this


/-! ## Prediction: the regional summary table -/

theorem tableRow_spec (k : String) (rs : List PredictionRecord) :
    tableRow (k, specRegionStat rs)
      = { region := k, count := rs.length,
          avg_probability := toFixed3 (avg (rs.map (fun r => r.crisis_probability))) } := by
  simp [tableRow, specRegionStat, avg]

theorem avg_probs_of_finite (rs : List PredictionRecord) (hne : rs ≠ [])
    (h : ∀ r ∈ rs, r.crisis_probability.isFinite = true) :
    avg (rs.map (fun r => r.crisis_probability)) = JSNum.fin (specMean rs) := by
  rw [avg_of_finite]
  · simp only [specMean, List.map_map, List.length_map]; rfl
  · simpa using hne
  · intro x hx
    obtain ⟨r, hr, rfl⟩ := List.mem_map.1 hx
    exact h r hr

theorem mem_specRegions (data : List PredictionRecord) (k : String) :
    k ∈ specRegions data ↔ k ∉ protoNames ∧ ∃ r ∈ data, r.developing_region = k := by
  unfold specRegions
  rw [mem_firstSeen, List.mem_map]
  constructor
  · rintro ⟨r, hr, rfl⟩
    obtain ⟨hr1, hr2⟩ := List.mem_filter.1 hr
    exact ⟨by simpa using hr2, r, hr1, rfl⟩
  · rintro ⟨hk, r, hr, rfl⟩
    exact ⟨r, List.mem_filter.2 ⟨hr, by simpa using hk⟩, rfl⟩

theorem nodup_specRegions (data : List PredictionRecord) : (specRegions data).Nodup :=
  nodup_firstSeen _

/-- Every row of `tableData` is the row of a region of `regionStats`. -/
theorem mem_tableData (data : List PredictionRecord) (row : TableRow) :
    row ∈ tableData data ↔
      ∃ k ∈ specRegions data, k ≠ "Unknown" ∧
        row = { region := k,
                count := (recordsOf (fun r => r.developing_region) data k).length,
                avg_probability := toFixed3 (avg ((recordsOf (fun r => r.developing_region)
                  data k).map (fun r => r.crisis_probability))) } := by
  unfold tableData tableRows
  rw [mem_jsSort, List.mem_filter, List.mem_map]
  constructor
  · rintro ⟨⟨kv, hkv, rfl⟩, hne⟩
    rw [(objectEntries_perm _).mem_iff, regionStats_eq, List.mem_map] at hkv
    obtain ⟨k, hk, rfl⟩ := hkv
    refine ⟨k, hk, ?_, tableRow_spec k _⟩
    simpa [tableRow] using hne
  · rintro ⟨k, hk, hne, rfl⟩
    refine ⟨⟨(k, specRegionStat (recordsOf (fun r => r.developing_region) data k)), ?_,
      tableRow_spec k _⟩, by simpa using hne⟩
    rw [(objectEntries_perm _).mem_iff, regionStats_eq]
    exact List.mem_map.2 ⟨k, hk, rfl⟩

theorem roundHalfUp_eq (q : ℚ) (n : Nat) (h1 : (n : ℚ) ≤ q + 1 / 2) (h2 : q + 1 / 2 < n + 1) :
    roundHalfUp q = n := by
  unfold roundHalfUp
  have : ⌊q + 1 / 2⌋ = (n : ℤ) := by
    rw [Int.floor_eq_iff]
    exact ⟨by exact_mod_cast h1, by exact_mod_cast h2⟩
  rw [this]
  rfl

theorem toFixed3_thirty : toFixed3 (JSNum.fin 30) = Fixed3.decimal false 30000 := by
  have h : roundHalfUp (|(30 : ℚ)| * 1000) = 30000 :=
    roundHalfUp_eq _ _ (by norm_num) (by norm_num)
  have hlt : |(30 : ℚ)| < 10 ^ 21 := by norm_num
  simp only [toFixed3, hlt, if_true, h]
  norm_num

theorem toFixed3_fifteen : toFixed3 (JSNum.fin 15) = Fixed3.decimal false 15000 := by
  have h : roundHalfUp (|(15 : ℚ)| * 1000) = 15000 :=
    roundHalfUp_eq _ _ (by norm_num) (by norm_num)
  have hlt : |(15 : ℚ)| < 10 ^ 21 := by norm_num
  simp only [toFixed3, hlt, if_true, h]
  norm_num

theorem sample_A_not_proto : "A" ∉ protoNames := by decide

theorem sample_B_not_proto : "B" ∉ protoNames := by decide

theorem arrayIndex_A : arrayIndex "A" = none := by decide

theorem arrayIndex_B : arrayIndex "B" = none := by decide

theorem regionStats_sample_AB :
    regionStats [sampleRecord "x" "A" (JSNum.fin 10), sampleRecord "y" "B" (JSNum.fin 30),
        sampleRecord "z" "A" (JSNum.fin 20)]
      = [("A", { count := 2, total_prob := JSNum.fin 30 }),
         ("B", { count := 1, total_prob := JSNum.fin 30 })] := by
  simp [regionStats, regionStep, sampleRecord, sample_A_not_proto, sample_B_not_proto,
    List.lookup, JSNum.add]
  norm_num

theorem tableData_sample_AB :
    tableData [sampleRecord "x" "A" (JSNum.fin 10), sampleRecord "y" "B" (JSNum.fin 30),
        sampleRecord "z" "A" (JSNum.fin 20)]
      = [{ region := "B", count := 1, avg_probability := Fixed3.decimal false 30000 },
         { region := "A", count := 2, avg_probability := Fixed3.decimal false 15000 }] := by
  have hdiv1 : JSNum.div (JSNum.fin 30) (JSNum.fin 2) = JSNum.fin 15 := by
    simp [JSNum.div]; norm_num
  have hdiv2 : JSNum.div (JSNum.fin 30) (JSNum.fin 1) = JSNum.fin 30 := by
    simp [JSNum.div]
  have hrows : tableRows [sampleRecord "x" "A" (JSNum.fin 10),
        sampleRecord "y" "B" (JSNum.fin 30), sampleRecord "z" "A" (JSNum.fin 20)]
      = [{ region := "A", count := 2, avg_probability := Fixed3.decimal false 15000 },
         { region := "B", count := 1, avg_probability := Fixed3.decimal false 30000 }] := by
    rw [tableRows, regionStats_sample_AB, objectEntries_of_no_index]
    · simp [tableRow, hdiv1, hdiv2, toFixed3_thirty, toFixed3_fifteen]
    · intro kv hkv
      simp only [List.mem_cons, List.mem_singleton, List.not_mem_nil, or_false] at hkv
      rcases hkv with rfl | rfl
      · exact arrayIndex_A
      · exact arrayIndex_B
  rw [tableData, hrows]
  simp [jsSort, tableCompare, Fixed3.toNumber, JSNum.sub, JSNum.neg, JSNum.add, JSNum.isPos]
  norm_num

/-- C14.  For every row of the regional summary table, `count` is the number
of cleaned records with the row's region and `avg_probability` is
`toFixed(3)` of the sum of their probabilities divided by `count`; when the
probabilities are finite that quotient is their arithmetic mean.  Records
A:10, B:30, A:20 give B with count 1 and `30.000`, then A with count 2 and
`15.000`. -/
theorem table_row_count_and_mean :
    (∀ (data : List PredictionRecord) (row : TableRow), row ∈ tableData data →
      0 < row.count ∧
      row.count = (data.filter (fun r => decide (r.developing_region = row.region))).length ∧
      row.avg_probability
        = toFixed3 (JSNum.div
            (((data.filter (fun r => decide (r.developing_region = row.region))).map
              (fun r => r.crisis_probability)).foldl JSNum.add (JSNum.fin 0))
            (JSNum.fin (row.count : ℚ))) ∧
      ((∀ r ∈ data, r.developing_region = row.region → r.crisis_probability.isFinite = true) →
        row.avg_probability
          = toFixed3 (JSNum.fin
              (((data.filter (fun r => decide (r.developing_region = row.region))).map
                (fun r => r.crisis_probability.toRat)).sum / (row.count : ℚ))))) ∧
    tableData [sampleRecord "x" "A" (JSNum.fin 10), sampleRecord "y" "B" (JSNum.fin 30),
        sampleRecord "z" "A" (JSNum.fin 20)]
      = [{ region := "B", count := 1, avg_probability := Fixed3.decimal false 30000 },
         { region := "A", count := 2, avg_probability := Fixed3.decimal false 15000 }] ∧
    (Fixed3.decimal false 30000).text = some "30.000" ∧
    (Fixed3.decimal false 15000).text = some "15.000" := by
  refine ⟨?_, tableData_sample_AB, by decide, by decide⟩
  intro data row hrow
  obtain ⟨k, hk, -, rfl⟩ := (mem_tableData data row).1 hrow
  have hne : recordsOf (fun r : PredictionRecord => r.developing_region) data k ≠ [] := by
    obtain ⟨-, r, hr, hrk⟩ := (mem_specRegions data k).1 hk
    intro hnil
    have hmem : r ∈ recordsOf (fun r : PredictionRecord => r.developing_region) data k := by
      simp [recordsOf, List.mem_filter, hr, hrk]
    rw [hnil] at hmem
    exact List.not_mem_nil _ hmem
  refine ⟨List.length_pos.2 hne, rfl, ?_, ?_⟩
  · simp [avg, recordsOf]
  · intro hfin
    have := avg_probs_of_finite _ hne (fun r hr => by
      obtain ⟨hr1, hr2⟩ := List.mem_filter.1 hr
      exact hfin r hr1 (by simpa using hr2))
    simp only [this, specMean]
    rfl

/-- C14, on the row of region B of the records A:10, B:30, A:20. -/
theorem table_row_count_and_mean_witness :
    (1 : Nat) = ([sampleRecord "x" "A" (JSNum.fin 10), sampleRecord "y" "B" (JSNum.fin 30),
        sampleRecord "z" "A" (JSNum.fin 20)].filter
          (fun r => decide (r.developing_region = "B"))).length :=
  (table_row_count_and_mean.1
    [sampleRecord "x" "A" (JSNum.fin 10), sampleRecord "y" "B" (JSNum.fin 30),
      sampleRecord "z" "A" (JSNum.fin 20)]
    { region := "B", count := 1, avg_probability := Fixed3.decimal false 30000 }
    (by rw [tableData_sample_AB]; simp)).2.1


theorem tableRows_regions (data : List PredictionRecord) :
    ((tableRows data).map (fun row => row.region)).Perm
      ((specRegions data).filter (fun k => decide (k ≠ "Unknown"))) := by
  unfold tableRows
  have h1 : (((objectEntries (regionStats data)).map tableRow).filter
      (fun row => decide (row.region ≠ "Unknown"))).map (fun row => row.region)
      = ((objectEntries (regionStats data)).map Prod.fst).filter
          (fun k => decide (k ≠ "Unknown")) := by
    rw [List.filter_map, List.map_map, List.filter_map]
    rfl
  rw [h1]
  apply List.Perm.filter
  have h2 := (objectEntries_perm (regionStats data)).map Prod.fst
  have h3 : (regionStats data).map Prod.fst = specRegions data := by
    rw [regionStats_eq, List.map_map]
    exact List.map_id _
  rwa [h3] at h2

/-- C15, refuted as stated.  A cleaned record without `developing_region` has
the region key `Unknown`, and the table has no row for that key. -/
theorem table_has_no_unknown_row :
    (cleanedData isoChrono
        [[("date", "2020-01-15"), ("geography", "A"), ("crisis_probability", "0.5")],
         [("date", "2020-01-15"), ("geography", "B"), ("developing_region", "Africa"),
          ("crisis_probability", "0.5")]]).map (fun r => r.developing_region)
      = ["Unknown", "Africa"] ∧
    (tableData (cleanedData isoChrono
        [[("date", "2020-01-15"), ("geography", "A"), ("crisis_probability", "0.5")],
         [("date", "2020-01-15"), ("geography", "B"), ("developing_region", "Africa"),
          ("crisis_probability", "0.5")]])).map (fun row => row.region)
      = ["Africa"] := by
  have hint : parseInt none = JSNum.nan := rfl
  have hclean : cleanedData isoChrono
        [[("date", "2020-01-15"), ("geography", "A"), ("crisis_probability", "0.5")],
         [("date", "2020-01-15"), ("geography", "B"), ("developing_region", "Africa"),
          ("crisis_probability", "0.5")]]
      = [{ date := some (JSDate.valid 2020 0 15), geography := some "A", countries := none,
           development_status := "Unknown", developing_region := "Unknown",
           crisis_probability := JSNum.fin (1 / 2), crisis_predicted := JSNum.fin 0,
           crisis_type := "None" },
         { date := some (JSDate.valid 2020 0 15), geography := some "B", countries := none,
           development_status := "Unknown", developing_region := "Africa",
           crisis_probability := JSNum.fin (1 / 2), crisis_predicted := JSNum.fin 0,
           crisis_type := "None" }] := by
    simp [cleanedData, predictionRow, RawRow.field, List.lookup, isoChrono_jan15,
      parseFloat_str_half, hint, orZero, strOr, JSNum.truthy, JSNum.isNaN]
  have h1 : "Unknown" ∉ protoNames := by decide
  have h2 : "Africa" ∉ protoNames := by decide
  have h3 : arrayIndex "Unknown" = none := by decide
  have h4 : arrayIndex "Africa" = none := by decide
  rw [hclean]
  refine ⟨by simp, ?_⟩
  have hstats : regionStats
        [{ date := some (JSDate.valid 2020 0 15), geography := some "A", countries := none,
           development_status := "Unknown", developing_region := "Unknown",
           crisis_probability := JSNum.fin (1 / 2), crisis_predicted := JSNum.fin 0,
           crisis_type := "None" },
         { date := some (JSDate.valid 2020 0 15), geography := some "B", countries := none,
           development_status := "Unknown", developing_region := "Africa",
           crisis_probability := JSNum.fin (1 / 2), crisis_predicted := JSNum.fin 0,
           crisis_type := "None" }]
      = [("Unknown", { count := 1, total_prob := JSNum.fin (1 / 2) }),
         ("Africa", { count := 1, total_prob := JSNum.fin (1 / 2) })] := by
    simp [regionStats, regionStep, h1, h2, List.lookup, JSNum.add]
  rw [tableData, tableRows, hstats, objectEntries_of_no_index]
  · simp [tableRow, jsSort]
  · intro kv hkv
    simp only [List.mem_cons, List.mem_singleton, List.not_mem_nil, or_false] at hkv
    rcases hkv with rfl | rfl
    · exact h3
    · exact h4

/-- C15, amended.  The table has at most one row per region, and for every
key that does not name an inherited property it has a row exactly when the
key is not `Unknown` and is the `developing_region` of a cleaned record. -/
theorem table_one_row_per_known_region (data : List PredictionRecord) :
    ((tableData data).map (fun row => row.region)).Nodup ∧
    (∀ k, k ∉ protoNames →
      (k ∈ (tableData data).map (fun row => row.region) ↔
        k ≠ "Unknown" ∧ ∃ r ∈ data, r.developing_region = k)) := by
  have hperm : ((tableData data).map (fun row => row.region)).Perm
      ((specRegions data).filter (fun k => decide (k ≠ "Unknown"))) :=
    ((jsSort_perm tableCompare (tableRows data)).map _).trans (tableRows_regions data)
  refine ⟨hperm.nodup_iff.2 ((nodup_specRegions data).filter _), ?_⟩
  intro k hk
  rw [hperm.mem_iff, List.mem_filter, mem_specRegions]
  simp only [decide_eq_true_eq]
  tauto

/-- C15 as amended, on the key `Africa` of a two-record input. -/
theorem table_one_row_per_known_region_witness :
    "Africa" ∈ (tableData [sampleRecord "x" "Unknown" (JSNum.fin 10),
        sampleRecord "y" "Africa" (JSNum.fin 30)]).map (fun row => row.region) :=
  (((table_one_row_per_known_region [sampleRecord "x" "Unknown" (JSNum.fin 10),
      sampleRecord "y" "Africa" (JSNum.fin 30)]).2 "Africa" (by decide)).2
    ⟨by decide, sampleRecord "y" "Africa" (JSNum.fin 30), by simp, rfl⟩)


/-! ## Prediction: ranking -/

theorem geoSummary_spec (data : List PredictionRecord)
    (hfin : ∀ r ∈ data, r.crisis_probability.isFinite = true) (k : String)
    (hk : k ∈ firstSeen (data.map geoKey)) :
    geoSummary (k, specGeoGroup (recordsOf geoKey data k)) = specGeoSummary data k := by
  have hne := recordsOf_ne_nil geoKey data k hk
  have := avg_probs_of_finite (recordsOf geoKey data k) hne
    (fun r hr => hfin r (List.mem_filter.1 hr).1)
  simp [geoSummary, specGeoGroup, specGeoSummary, this]

/-- C16.  On cleaned data whose probabilities are finite and whose
geographies do not name an inherited property, `topCountriesData` is the
first `min(10, n)` elements of the ranked summaries: these are the
summaries of the `n` distinct geographies, each with the mean of all the
probabilities of its records, in non-increasing order of the mean; the
cutoff takes a prefix of that order. -/
theorem top_countries_ranked_then_cut (data : List PredictionRecord)
    (hkeys : ∀ r ∈ data, geoKey r ∉ protoNames)
    (hfin : ∀ r ∈ data, r.crisis_probability.isFinite = true) :
    ∃ ranked, topCountriesRanked data = some ranked ∧
      topCountriesData data = some (ranked.take 10) ∧
      (ranked.take 10).length = min 10 (firstSeen (data.map geoKey)).length ∧
      ranked.Perm ((firstSeen (data.map geoKey)).map (specGeoSummary data)) ∧
      ranked.Pairwise (fun a b => JSNum.le b.avg_probability a.avg_probability = true) := by
  have hobj := topCountries_eq data hkeys
  have hentries : ((objectEntries ((firstSeen (data.map geoKey)).map (fun k =>
        (k, specGeoGroup (recordsOf geoKey data k))))).map geoSummary).Perm
      ((firstSeen (data.map geoKey)).map (specGeoSummary data)) := by
    have h1 := (objectEntries_perm ((firstSeen (data.map geoKey)).map (fun k =>
        (k, specGeoGroup (recordsOf geoKey data k))))).map geoSummary
    rw [List.map_map] at h1
    have h2 : (firstSeen (data.map geoKey)).map
          (geoSummary ∘ fun k => (k, specGeoGroup (recordsOf geoKey data k)))
        = (firstSeen (data.map geoKey)).map (specGeoSummary data) := by
      apply List.map_congr_left
      intro k hk
      exact geoSummary_spec data hfin k hk
    rwa [h2] at h1
  refine ⟨jsSort geoCompare ((objectEntries ((firstSeen (data.map geoKey)).map (fun k =>
        (k, specGeoGroup (recordsOf geoKey data k))))).map geoSummary), ?_, ?_, ?_, ?_, ?_⟩
  · simp [topCountriesRanked, hobj]
  · simp [topCountriesData, topCountriesRanked, hobj]
  · rw [List.length_take, ((jsSort_perm _ _).trans hentries).length_eq, List.length_map]
  · exact (jsSort_perm _ _).trans hentries
  · have hnan : ∀ s ∈ (objectEntries ((firstSeen (data.map geoKey)).map (fun k =>
          (k, specGeoGroup (recordsOf geoKey data k))))).map geoSummary,
        s.avg_probability ≠ JSNum.nan := by
      intro s hs
      rw [hentries.mem_iff, List.mem_map] at hs
      obtain ⟨k, -, rfl⟩ := hs
      simp [specGeoSummary]
    exact jsSort_sorted_desc (fun s : GeoSummary => s.avg_probability) _ hnan

theorem sample_a_not_proto : "a" ∉ protoNames := by decide

theorem sample_b_not_proto : "b" ∉ protoNames := by decide

theorem topCountriesRanked_sample_ab :
    topCountriesRanked [sampleRecord "a" "X" (JSNum.fin (1 / 4)),
        sampleRecord "b" "X" (JSNum.fin (3 / 4)), sampleRecord "a" "X" (JSNum.fin (3 / 4))]
      = some [{ geography := "b", countries := none, avg_probability := JSNum.fin (3 / 4) },
              { geography := "a", countries := none, avg_probability := JSNum.fin (1 / 2) }] := by
  have ha : arrayIndex "a" = none := by decide
  have hb : arrayIndex "b" = none := by decide
  have hobj : topCountries [sampleRecord "a" "X" (JSNum.fin (1 / 4)),
        sampleRecord "b" "X" (JSNum.fin (3 / 4)), sampleRecord "a" "X" (JSNum.fin (3 / 4))]
      = some [("a", { countries := none, probs := [JSNum.fin (1 / 4), JSNum.fin (3 / 4)] }),
              ("b", { countries := none, probs := [JSNum.fin (3 / 4)] })] := by
    simp [topCountries, topCountriesStep, sampleRecord, geoKey, sample_a_not_proto,
      sample_b_not_proto, List.lookup]
  rw [topCountriesRanked, hobj, Option.map_some', objectEntries_of_no_index]
  · simp [geoSummary, avg, JSNum.add, JSNum.div, jsSort, geoCompare, JSNum.sub, JSNum.neg,
      JSNum.isPos]
    norm_num
  · intro kv hkv
    simp only [List.mem_cons, List.mem_singleton, List.not_mem_nil, or_false] at hkv
    rcases hkv with rfl | rfl
    · exact ha
    · exact hb

/-- C16, on three records of two geographies: the geography with the mean
3/4 comes before the one with the mean 1/2. -/
theorem top_countries_ranked_then_cut_witness :
    topCountriesData [sampleRecord "a" "X" (JSNum.fin (1 / 4)),
        sampleRecord "b" "X" (JSNum.fin (3 / 4)), sampleRecord "a" "X" (JSNum.fin (3 / 4))]
      = some [{ geography := "b", countries := none, avg_probability := JSNum.fin (3 / 4) },
              { geography := "a", countries := none, avg_probability := JSNum.fin (1 / 2) }] := by
  obtain ⟨ranked, h1, h2, -, -, -⟩ := top_countries_ranked_then_cut
    [sampleRecord "a" "X" (JSNum.fin (1 / 4)), sampleRecord "b" "X" (JSNum.fin (3 / 4)),
      sampleRecord "a" "X" (JSNum.fin (3 / 4))]
    (by
      intro r hr
      simp only [List.mem_cons, List.mem_singleton, List.not_mem_nil, or_false] at hr
      rcases hr with rfl | rfl | rfl
      · exact sample_a_not_proto
      · exact sample_b_not_proto
      · exact sample_a_not_proto)
    (by
      intro r hr
      simp only [List.mem_cons, List.mem_singleton, List.not_mem_nil, or_false] at hr
      rcases hr with rfl | rfl | rfl <;> rfl)
  rw [topCountriesRanked_sample_ab] at h1
  cases h1
  simpa using h2

theorem toFixed3_of_lt (q : ℚ) (n : Nat) (h0 : 0 ≤ q) (hbig : q < 10 ^ 21)
    (h1 : (n : ℚ) ≤ q * 1000 + 1 / 2) (h2 : q * 1000 + 1 / 2 < n + 1) :
    toFixed3 (JSNum.fin q) = Fixed3.decimal false n := by
  have habs : |q| = q := abs_of_nonneg h0
  have hr : roundHalfUp (|q| * 1000) = n := by
    rw [habs]; exact roundHalfUp_eq _ _ h1 h2
  have hlt : |q| < 10 ^ 21 := by rw [habs]; exact hbig
  have hneg : ¬ q < 0 := not_lt.2 h0
  simp [toFixed3, hlt, hr, hneg]

theorem tableData_sample_XY :
    tableData [sampleRecord "x" "X" (JSNum.fin (1231 / 10000)),
        sampleRecord "y" "Y" (JSNum.fin (617 / 5000))]
      = [{ region := "X", count := 1, avg_probability := Fixed3.decimal false 123 },
         { region := "Y", count := 1, avg_probability := Fixed3.decimal false 123 }] := by
  have h1 : "X" ∉ protoNames := by decide
  have h2 : "Y" ∉ protoNames := by decide
  have h3 : arrayIndex "X" = none := by decide
  have h4 : arrayIndex "Y" = none := by decide
  have hstats : regionStats [sampleRecord "x" "X" (JSNum.fin (1231 / 10000)),
        sampleRecord "y" "Y" (JSNum.fin (617 / 5000))]
      = [("X", { count := 1, total_prob := JSNum.fin (1231 / 10000) }),
         ("Y", { count := 1, total_prob := JSNum.fin (617 / 5000) })] := by
    simp [regionStats, regionStep, sampleRecord, h1, h2, List.lookup, JSNum.add]
  have hx : toFixed3 (JSNum.fin (1231 / 10000)) = Fixed3.decimal false 123 :=
    toFixed3_of_lt _ _ (by norm_num) (by norm_num) (by norm_num) (by norm_num)
  have hy : toFixed3 (JSNum.fin (617 / 5000)) = Fixed3.decimal false 123 :=
    toFixed3_of_lt _ _ (by norm_num) (by norm_num) (by norm_num) (by norm_num)
  rw [tableData, tableRows, hstats, objectEntries_of_no_index]
  · simp [tableRow, JSNum.div, hx, hy, jsSort, tableCompare, Fixed3.toNumber, JSNum.sub,
      JSNum.neg, JSNum.add, JSNum.isPos]
  · intro kv hkv
    simp only [List.mem_cons, List.mem_singleton, List.not_mem_nil, or_false] at hkv
    rcases hkv with rfl | rfl
    · exact h3
    · exact h4

/-- C17, refuted as stated.  Region X has the mean 0.1231 and region Y the
mean 0.1234; both render as `0.123`, the comparator sees a tie, and the table
lists X before Y: the exact means increase down the table. -/
theorem table_not_sorted_by_exact_mean :
    regionStats [sampleRecord "x" "X" (JSNum.fin (1231 / 10000)),
        sampleRecord "y" "Y" (JSNum.fin (617 / 5000))]
      = [("X", { count := 1, total_prob := JSNum.fin (1231 / 10000) }),
         ("Y", { count := 1, total_prob := JSNum.fin (617 / 5000) })] ∧
    tableData [sampleRecord "x" "X" (JSNum.fin (1231 / 10000)),
        sampleRecord "y" "Y" (JSNum.fin (617 / 5000))]
      = [{ region := "X", count := 1, avg_probability := Fixed3.decimal false 123 },
         { region := "Y", count := 1, avg_probability := Fixed3.decimal false 123 }] ∧
    JSNum.le (JSNum.div (JSNum.fin (617 / 5000)) (JSNum.fin 1))
      (JSNum.div (JSNum.fin (1231 / 10000)) (JSNum.fin 1)) = false := by
  have h1 : "X" ∉ protoNames := by decide
  have h2 : "Y" ∉ protoNames := by decide
  refine ⟨?_, tableData_sample_XY, ?_⟩
  · simp [regionStats, regionStep, sampleRecord, h1, h2, List.lookup, JSNum.add]
  · simp [JSNum.div, JSNum.le]
    norm_num

/-- C17, amended.  When no rendered mean is `NaN`, the rows of the table are
in non-increasing order of the number their `avg_probability` string denotes,
that is of the region's mean rounded to three decimals. -/
theorem table_sorted_by_rendered_mean (data : List PredictionRecord)
    (hnan : ∀ row ∈ tableData data, row.avg_probability.toNumber ≠ JSNum.nan) :
    (tableData data).Pairwise
        (fun a b => JSNum.le b.avg_probability.toNumber a.avg_probability.toNumber = true) ∧
    (∀ row ∈ tableData data,
      row.avg_probability
        = toFixed3 (avg ((data.filter (fun r => decide (r.developing_region = row.region))).map
            (fun r => r.crisis_probability)))) := by
  constructor
  · have h : ∀ row ∈ tableRows data, row.avg_probability.toNumber ≠ JSNum.nan :=
      fun row hrow => hnan row ((mem_jsSort _ _ _).2 hrow)
    exact jsSort_sorted_desc (fun row : TableRow => row.avg_probability.toNumber) _ h
  · intro row hrow
    obtain ⟨k, -, -, rfl⟩ := (mem_tableData data row).1 hrow
    rfl

/-- C17 as amended, on the regions X and Y that both render as `0.123`. -/
theorem table_sorted_by_rendered_mean_witness :
    (tableData [sampleRecord "x" "X" (JSNum.fin (1231 / 10000)),
        sampleRecord "y" "Y" (JSNum.fin (617 / 5000))]).Pairwise
      (fun a b => JSNum.le b.avg_probability.toNumber a.avg_probability.toNumber = true) :=
  (table_sorted_by_rendered_mean _ (by
    rw [tableData_sample_XY]
    intro row hrow
    simp only [List.mem_cons, List.mem_singleton, List.not_mem_nil, or_false] at hrow
    rcases hrow with rfl | rfl <;> simp [Fixed3.toNumber])).1


theorem filter_map_key {α : Type} (ks : List String) (f : String → α) (key : α → String)
    (hkey : ∀ k, key (f k) = k) (p : α → Bool) :
    ((ks.map f).filter p).map key = ks.filter (fun k => p (f k)) := by
  rw [List.filter_map, List.map_map]
  have : key ∘ f = id := by funext k; exact hkey k
  rw [this, List.map_id]
  rfl

/-- C18, refuted as stated.  The geographies (and regions) `10` and `2`, seen
in this order with equal means, are listed by `Object.entries` as `2`, `10`,
and the stable sort keeps that order: the ranked outputs have `2` before
`10`. -/
theorem ties_follow_entries_order :
    firstSeen ([sampleRecord "10" "10" (JSNum.fin (1 / 2)),
        sampleRecord "2" "2" (JSNum.fin (1 / 2))].map geoKey) = ["10", "2"] ∧
    topCountriesRanked [sampleRecord "10" "10" (JSNum.fin (1 / 2)),
        sampleRecord "2" "2" (JSNum.fin (1 / 2))]
      = some [{ geography := "2", countries := none, avg_probability := JSNum.fin (1 / 2) },
              { geography := "10", countries := none, avg_probability := JSNum.fin (1 / 2) }] ∧
    tableData [sampleRecord "10" "10" (JSNum.fin (1 / 2)),
        sampleRecord "2" "2" (JSNum.fin (1 / 2))]
      = [{ region := "2", count := 1, avg_probability := Fixed3.decimal false 500 },
         { region := "10", count := 1, avg_probability := Fixed3.decimal false 500 }] := by
  have h1 : "10" ∉ protoNames := by decide
  have h2 : "2" ∉ protoNames := by decide
  have h3 : arrayIndex "10" = some 10 := by decide
  have h4 : arrayIndex "2" = some 2 := by decide
  have hhalf : toFixed3 (JSNum.fin (1 / 2)) = Fixed3.decimal false 500 :=
    toFixed3_of_lt _ _ (by norm_num) (by norm_num) (by norm_num) (by norm_num)
  have hhalf2 : toFixed3 (JSNum.fin (2⁻¹ : ℚ)) = Fixed3.decimal false 500 := by
    rw [← one_div]; exact hhalf
  refine ⟨?_, ?_, ?_⟩
  · simp [firstSeen, sampleRecord, geoKey]
  · have hobj : topCountries [sampleRecord "10" "10" (JSNum.fin (1 / 2)),
          sampleRecord "2" "2" (JSNum.fin (1 / 2))]
        = some [("10", { countries := none, probs := [JSNum.fin (1 / 2)] }),
                ("2", { countries := none, probs := [JSNum.fin (1 / 2)] })] := by
      simp [topCountries, topCountriesStep, sampleRecord, geoKey, h1, h2, List.lookup]
    rw [topCountriesRanked, hobj]
    simp [objectEntries, h3, h4, geoSummary, avg, JSNum.add, JSNum.div, jsSort, geoCompare,
      JSNum.sub, JSNum.neg, JSNum.isPos]
  · have hstats : regionStats [sampleRecord "10" "10" (JSNum.fin (1 / 2)),
          sampleRecord "2" "2" (JSNum.fin (1 / 2))]
        = [("10", { count := 1, total_prob := JSNum.fin (1 / 2) }),
           ("2", { count := 1, total_prob := JSNum.fin (1 / 2) })] := by
      simp [regionStats, regionStep, sampleRecord, h1, h2, List.lookup, JSNum.add]
    rw [tableData, tableRows, hstats]
    simp [objectEntries, h3, h4, tableRow, JSNum.div, hhalf2, jsSort, tableCompare,
      Fixed3.toNumber, JSNum.sub, JSNum.neg, JSNum.add, JSNum.isPos]

/-- C18, amended.  When no key is an array index, the groups of a ranked
output whose means are equal appear in the order in which their keys were
first seen in the cleaned data: the geographies of `topCountriesData` before
the cutoff (`topCountries` being built without a `TypeError`), and the regions
of `tableData`, where equal means are equal rendered means. -/
theorem ties_in_first_seen_order (data : List PredictionRecord) :
    ((∀ r ∈ data, geoKey r ∉ protoNames) → (∀ r ∈ data, arrayIndex (geoKey r) = none) →
      ∃ ranked, topCountriesRanked data = some ranked ∧
        ∀ v : JSNum,
          (ranked.filter (fun s => decide (s.avg_probability = v))).map (fun s => s.geography)
            = (firstSeen (data.map geoKey)).filter (fun k =>
                decide (avg ((data.filter (fun r => decide (geoKey r = k))).map
                  (fun r => r.crisis_probability)) = v))) ∧
    ((∀ r ∈ data, arrayIndex r.developing_region = none) →
      ∀ v : Fixed3,
        ((tableData data).filter (fun row => decide (row.avg_probability = v))).map
            (fun row => row.region)
          = (firstSeen ((data.filter
                (fun r => decide (r.developing_region ∉ protoNames))).map
                  (fun r => r.developing_region))).filter (fun k =>
              decide (k ≠ "Unknown") &&
                decide (toFixed3 (avg ((data.filter
                  (fun r => decide (r.developing_region = k))).map
                    (fun r => r.crisis_probability))) = v))) := by
  constructor
  · intro hkeys hidx
    have hobj := topCountries_eq data hkeys
    have hent : objectEntries ((firstSeen (data.map geoKey)).map (fun k =>
          (k, specGeoGroup (recordsOf geoKey data k))))
        = (firstSeen (data.map geoKey)).map (fun k =>
          (k, specGeoGroup (recordsOf geoKey data k))) := by
      apply objectEntries_of_no_index
      intro kv hkv
      obtain ⟨k, hk, rfl⟩ := List.mem_map.1 hkv
      rw [mem_firstSeen] at hk
      obtain ⟨r, hr, rfl⟩ := List.mem_map.1 hk
      exact hidx r hr
    refine ⟨jsSort geoCompare ((objectEntries ((firstSeen (data.map geoKey)).map (fun k =>
          (k, specGeoGroup (recordsOf geoKey data k))))).map geoSummary),
      by simp [topCountriesRanked, hobj], ?_⟩
    intro v
    rw [jsSort_filter_of_ties geoCompare (fun s => decide (s.avg_probability = v))
      (by
        intro a b ha hb
        simp only [decide_eq_true_eq] at ha hb
        simp [geoCompare, ha, hb, sub_self_not_pos]), hent, List.map_map]
    exact filter_map_key _ _ _ (fun k => rfl) _
  · intro hidx v
    have hent : objectEntries (regionStats data) = regionStats data := by
      apply objectEntries_of_no_index
      intro kv hkv
      rw [regionStats_eq] at hkv
      obtain ⟨k, hk, rfl⟩ := List.mem_map.1 hkv
      obtain ⟨-, r, hr, rfl⟩ := (mem_specRegions data k).1 hk
      exact hidx r hr
    rw [tableData, jsSort_filter_of_ties tableCompare
      (fun row => decide (row.avg_probability = v))
      (by
        intro a b ha hb
        simp only [decide_eq_true_eq] at ha hb
        simp [tableCompare, ha, hb, sub_self_not_pos]), tableRows, hent, regionStats_eq,
      List.map_map, List.filter_filter]
    have := filter_map_key (specRegions data)
      (tableRow ∘ fun k => (k, specRegionStat (recordsOf (fun r => r.developing_region) data k)))
      (fun row => row.region) (fun k => rfl)
      (fun row => decide (row.avg_probability = v) && decide (row.region ≠ "Unknown"))
    rw [this]
    apply List.filter_congr
    intro k _
    simp only [Function.comp, tableRow_spec, Bool.and_comm]
    rfl

/-- C18 as amended, on two geographies with equal means whose keys are not
array indices: they stay in first-seen order. -/
theorem ties_in_first_seen_order_witness :
    ∃ ranked,
      topCountriesRanked [sampleRecord "b" "X" (JSNum.fin (1 / 2)),
        sampleRecord "a" "X" (JSNum.fin (1 / 2))] = some ranked ∧
      (ranked.filter (fun s => decide (s.avg_probability = JSNum.fin (1 / 2)))).map
          (fun s => s.geography) = ["b", "a"] := by
  have ha : arrayIndex "a" = none := by decide
  have hb : arrayIndex "b" = none := by decide
  obtain ⟨ranked, h1, h2⟩ := (ties_in_first_seen_order
    [sampleRecord "b" "X" (JSNum.fin (1 / 2)), sampleRecord "a" "X" (JSNum.fin (1 / 2))]).1
    (by
      intro r hr
      simp only [List.mem_cons, List.mem_singleton, List.not_mem_nil, or_false] at hr
      rcases hr with rfl | rfl
      · exact sample_b_not_proto
      · exact sample_a_not_proto)
    (by
      intro r hr
      simp only [List.mem_cons, List.mem_singleton, List.not_mem_nil, or_false] at hr
      rcases hr with rfl | rfl
      · exact hb
      · exact ha)
  refine ⟨ranked, h1, ?_⟩
  rw [h2 (JSNum.fin (1 / 2))]
  simp [firstSeen, sampleRecord, geoKey, avg, JSNum.add, JSNum.div]

/-! ## The loaders: empty results and failed fetches -/

/-- C19 (the code at the failing input).  On a source with a header and no
data row (`results.data` is empty) only the first Energy loader ends in the
failed state.  The second Energy loader, the Prediction loader, the two
Finance loaders and the Food loader commit the empty dataset, with the
loading flag cleared and no error recorded; so do the second Energy loader
and the Prediction loader when the date of every row fails to parse. -/
theorem empty_result_is_committed :
    energyFetchData isoChrono (Fetched.response true []) EnergyState.initial
      = { oilData := none, oilData2 := none, loading := false,
          error := some "No valid data found after processing", loading2 := true,
          error2 := none } ∧
    energyFetchData2 isoChrono (Fetched.response true []) EnergyState.initial
      = { oilData := none, oilData2 := some [], loading := true, error := none,
          loading2 := false, error2 := none } ∧
    energyFetchData2 isoChrono
        (Fetched.response true [[("date", "soon"), ("asia", "61.5")]]) EnergyState.initial
      = { oilData := none, oilData2 := some [], loading := true, error := none,
          loading2 := false, error2 := none } ∧
    predictionFetchData isoChrono (Fetched.response true []) PredictionState.initial
      = { data := some [], loading := false, error := none } ∧
    predictionFetchData isoChrono
        (Fetched.response true [[("date", "soon"), ("crisis_probability", "0.5")]])
        PredictionState.initial
      = { data := some [], loading := false, error := none } ∧
    loadExchangeRateData (Fetched.response true []) FinanceState.initial
      = { exchangeRateIndexData := some [], reservesData := none,
          loadingExchangeRate := false, loadingReserves := true } ∧
    loadReservesData (Fetched.response true []) FinanceState.initial
      = { exchangeRateIndexData := none, reservesData := some [],
          loadingExchangeRate := true, loadingReserves := false } ∧
    (foodLoadData isoDay (Fetched.response true []) (Fetched.response true [])
        (Fetched.response true []) FoodState.initial).agriData
      = some { dates := [], index := [], corn := [], rice := [], wheat := [] } ∧
    (foodLoadData isoDay (Fetched.response true []) (Fetched.response true [])
        (Fetched.response true []) FoodState.initial).inflationData
      = some { dates := [], developingCountries := [], africa := [], asiaoceania := [],
               america := [] } ∧
    (foodLoadData isoDay (Fetched.response true []) (Fetched.response true [])
        (Fetched.response true []) FoodState.initial).foodPriceIndexData
      = some { dates := [], values := [] } ∧
    (foodLoadData isoDay (Fetched.response true []) (Fetched.response true [])
        (Fetched.response true []) FoodState.initial).error = none ∧
    (foodLoadData isoDay (Fetched.response true []) (Fetched.response true [])
        (Fetched.response true []) FoodState.initial).loading = false := by
  have hsoon : isoChrono (some "soon") = none := by decide
  refine ⟨?_, ?_, ?_, ?_, ?_, ?_, ?_, ?_, ?_, ?_, ?_, ?_⟩
  · simp [energyFetchData, energyTry, oilProcessed, EnergyState.initial, List.reduceOption]
  · simp [energyFetchData2, energyTry2, oil2Processed, EnergyState.initial, List.reduceOption]
  · simp [energyFetchData2, energyTry2, oil2Processed, oil2Row, RawRow.field, List.lookup,
      hsoon, EnergyState.initial, List.reduceOption]
  · simp [predictionFetchData, predictionTry, cleanedData, PredictionState.initial]
  · simp [predictionFetchData, predictionTry, cleanedData, predictionRow, RawRow.field,
      List.lookup, hsoon, PredictionState.initial]
  · simp [loadExchangeRateData, exchangeTry, exchangeProcessed, FinanceState.initial]
  · simp [loadReservesData, reservesTry, reservesProcessed, FinanceState.initial]
  · simp [foodLoadData, processAgriData, agriMonthly]
  · simp [foodLoadData, processInflationData]
  · simp [foodLoadData, processFoodPriceIndexData]
  · simp [foodLoadData, FoodState.initial]
  · simp [foodLoadData]

/-- C20.  In both Energy loaders and in the Prediction loader, a response
whose status is not successful ends with the dataset's error set to the
message thrown, which is not empty, its loading flag false, and every other
field of the state as before, the data slot among them: from the initial
state it is still `null`.  The outcome does not depend on the body. -/
theorem failed_response_sets_error (chrono : DateParser) (rows : List RawRow) :
    (∀ s : EnergyState,
      energyFetchData chrono (Fetched.response false rows) s
        = { s with error := some "Failed to load data", loading := false }) ∧
    (∀ s : EnergyState,
      energyFetchData2 chrono (Fetched.response false rows) s
        = { s with error2 := some "Failed to load plot_3b1.csv", loading2 := false }) ∧
    (∀ s : PredictionState,
      predictionFetchData chrono (Fetched.response false rows) s
        = { s with error := some "Failed to load data", loading := false }) ∧
    (energyFetchData chrono (Fetched.response false rows) EnergyState.initial).oilData = none ∧
    (energyFetchData2 chrono (Fetched.response false rows) EnergyState.initial).oilData2
      = none ∧
    (predictionFetchData chrono (Fetched.response false rows) PredictionState.initial).data
      = none ∧
    "Failed to load data" ≠ "" ∧ "Failed to load plot_3b1.csv" ≠ "" := by
  refine ⟨?_, ?_, ?_, ?_, ?_, ?_, by decide, by decide⟩
  · intro s; simp [energyFetchData, energyTry]
  · intro s; simp [energyFetchData2, energyTry2]
  · intro s; simp [predictionFetchData, predictionTry]
  · simp [energyFetchData, energyTry, EnergyState.initial]
  · simp [energyFetchData2, energyTry2, EnergyState.initial]
  · simp [predictionFetchData, predictionTry, PredictionState.initial]
/-! ## Failures and what is rendered -/

theorem oil2Row_sample :
    oil2Row isoChrono [("date", "2020-01-15"), ("asia", "1"), ("europe", "2"), ("us", "4")]
      = some { date := JSDate.valid 2020 0 15, asia := some (JSNum.fin 1),
               europe := some (JSNum.fin 2), us := some (JSNum.fin 4) } := by
  have h1 : orNull (JSNum.fin 1) = some (JSNum.fin 1) := orNull_fin_ne_zero 1 (by norm_num)
  have h2 : orNull (JSNum.fin 2) = some (JSNum.fin 2) := orNull_fin_ne_zero 2 (by norm_num)
  have h4 : orNull (JSNum.fin 4) = some (JSNum.fin 4) := orNull_fin_ne_zero 4 (by norm_num)
  simp [oil2Row, RawRow.field, List.lookup, isoChrono_jan15, parseFloat_str_one,
    parseFloat_str_two, parseFloat_str_four, h1, h2, h4]

theorem oilRow_sample :
    oilRow isoChrono [("date", "2020-01-15"), ("europe", "1")]
      = some { date := JSDate.valid 2020 0 15, europe := some (JSNum.fin 1),
               middleeast := none, russia := none } := by
  have h1 : orNull (JSNum.fin 1) = some (JSNum.fin 1) := orNull_fin_ne_zero 1 (by norm_num)
  have habs : parseFloat none = JSNum.nan := rfl
  simp [oilRow, RawRow.field, List.lookup, isoChrono_jan15, parseFloat_str_one, h1, habs,
    orNull_nan, unlessNA]

/-- C21 (the code at the failing input).  On a response whose status is not
successful the two Finance loaders do not parse the body, but they record no
failure: the data stay `null`, the loading flag is cleared, and the card
renders its chart on empty lists, as it does for a dataset that is ready and
empty; no state of the page holds a message.  The Food loader parses the
body of such a response as data: from the initial state the three datasets
are committed, `error` stays `null` and the page renders its charts. -/
theorem non_success_response_renders_as_ready (newDate : DateCtor)
    (rows rows1 rows2 rows3 : List RawRow) :
    loadExchangeRateData (Fetched.response false rows) FinanceState.initial
      = { exchangeRateIndexData := none, reservesData := none, loadingExchangeRate := false,
          loadingReserves := true } ∧
    exchangeCard (loadExchangeRateData (Fetched.response false rows) FinanceState.initial)
      = CardView.chart { labels := [], africa := [], asiaoceania := [], america := [] } ∧
    exchangeCard (loadExchangeRateData (Fetched.response false rows) FinanceState.initial)
      = exchangeCard (loadExchangeRateData (Fetched.response true []) FinanceState.initial) ∧
    loadReservesData (Fetched.response false rows) FinanceState.initial
      = { exchangeRateIndexData := none, reservesData := none, loadingExchangeRate := true,
          loadingReserves := false } ∧
    reservesCard (loadReservesData (Fetched.response false rows) FinanceState.initial)
      = CardView.chart
          [{ labels := [], developed := [], developing := [], region := [] },
           { labels := [], developed := [], developing := [], region := [] },
           { labels := [], developed := [], developing := [], region := [] }] ∧
    foodLoadData newDate (Fetched.response false rows1) (Fetched.response false rows2)
        (Fetched.response false rows3) FoodState.initial
      = { foodData := some foodSeries,
          agriData := some (processAgriData newDate rows1),
          inflationData := some (processInflationData newDate rows2),
          foodPriceIndexData := some (processFoodPriceIndexData newDate rows3),
          loading := false, error := none } ∧
    foodView (foodLoadData newDate (Fetched.response false rows1) (Fetched.response false rows2)
        (Fetched.response false rows3) FoodState.initial)
      = FoodView.dashboard (CardView.chart (foodCharts
          (foodLoadData newDate (Fetched.response false rows1) (Fetched.response false rows2)
            (Fetched.response false rows3) FoodState.initial))) := by
  refine ⟨?_, ?_, ?_, ?_, ?_, ?_, ?_⟩
  · simp [loadExchangeRateData, exchangeTry, FinanceState.initial]
  · simp [loadExchangeRateData, exchangeTry, FinanceState.initial, exchangeCard,
      exchangeRateIndexDataChart]
  · simp [loadExchangeRateData, exchangeTry, FinanceState.initial, exchangeCard,
      exchangeRateIndexDataChart, exchangeProcessed]
  · simp [loadReservesData, reservesTry, FinanceState.initial]
  · simp [loadReservesData, reservesTry, FinanceState.initial, reservesCard, reservesChartData]
  · simp [foodLoadData, FoodState.initial]
  · simp [foodLoadData, FoodState.initial, foodView, strTruthy]

/-- C22 (the code at the failing input).  Two states of the Energy page in
which the second dataset has loaded the same record, the first one reached
when the fetch of the first dataset failed, the second one when it
succeeded.  They agree on `oilData2`, `loading2` and `error2`, yet the three
series of `oilChart2Data` are empty in the first state and hold the record
in the second: the series read `oilData`.  The chart of the first dataset
reads only its own data. -/
theorem second_chart_reads_first_dataset :
    (energyFetchData2 isoChrono
        (Fetched.response true
          [[("date", "2020-01-15"), ("asia", "1"), ("europe", "2"), ("us", "4")]])
        (energyFetchData isoChrono (Fetched.response false []) EnergyState.initial))
      = { oilData := none,
          oilData2 := some [{ date := JSDate.valid 2020 0 15, asia := some (JSNum.fin 1),
                              europe := some (JSNum.fin 2), us := some (JSNum.fin 4) }],
          loading := false, error := some "Failed to load data", loading2 := false,
          error2 := none } ∧
    (energyFetchData2 isoChrono
        (Fetched.response true
          [[("date", "2020-01-15"), ("asia", "1"), ("europe", "2"), ("us", "4")]])
        (energyFetchData isoChrono
          (Fetched.response true [[("date", "2020-01-15"), ("europe", "1")]])
          EnergyState.initial))
      = { oilData := some [{ date := JSDate.valid 2020 0 15, europe := some (JSNum.fin 1),
                             middleeast := none, russia := none }],
          oilData2 := some [{ date := JSDate.valid 2020 0 15, asia := some (JSNum.fin 1),
                              europe := some (JSNum.fin 2), us := some (JSNum.fin 4) }],
          loading := false, error := none, loading2 := false, error2 := none } ∧
    energyCard2 (energyFetchData2 isoChrono
        (Fetched.response true
          [[("date", "2020-01-15"), ("asia", "1"), ("europe", "2"), ("us", "4")]])
        (energyFetchData isoChrono (Fetched.response false []) EnergyState.initial))
      = CardView.chart { asia := some [], europe := some [], us := some [] } ∧
    energyCard2 (energyFetchData2 isoChrono
        (Fetched.response true
          [[("date", "2020-01-15"), ("asia", "1"), ("europe", "2"), ("us", "4")]])
        (energyFetchData isoChrono
          (Fetched.response true [[("date", "2020-01-15"), ("europe", "1")]])
          EnergyState.initial))
      = CardView.chart
          { asia := some [{ x := JSDate.valid 2020 0 15, y := some (JSNum.fin 1) }],
            europe := some [{ x := JSDate.valid 2020 0 15, y := some (JSNum.fin 2) }],
            us := some [{ x := JSDate.valid 2020 0 15, y := some (JSNum.fin 4) }] } ∧
    (∀ s t : EnergyState, s.oilData = t.oilData → oilChartData s = oilChartData t) := by
  have e1 : energyFetchData isoChrono (Fetched.response false []) EnergyState.initial
      = { oilData := none, oilData2 := none, loading := false,
          error := some "Failed to load data", loading2 := true, error2 := none } := by
    simp [energyFetchData, energyTry, EnergyState.initial]
  have e2 : energyFetchData isoChrono
      (Fetched.response true [[("date", "2020-01-15"), ("europe", "1")]]) EnergyState.initial
      = { oilData := some [{ date := JSDate.valid 2020 0 15, europe := some (JSNum.fin 1),
                             middleeast := none, russia := none }],
          oilData2 := none, loading := false, error := none, loading2 := true,
          error2 := none } := by
    simp [energyFetchData, energyTry, EnergyState.initial, oilProcessed_single, oilRow_sample]
  have p2 : oil2Processed isoChrono
      [[("date", "2020-01-15"), ("asia", "1"), ("europe", "2"), ("us", "4")]]
      = [{ date := JSDate.valid 2020 0 15, asia := some (JSNum.fin 1),
           europe := some (JSNum.fin 2), us := some (JSNum.fin 4) }] := by
    simp [oil2Processed_single, oil2Row_sample]
  refine ⟨?_, ?_, ?_, ?_, ?_⟩
  · rw [e1]; simp [energyFetchData2, energyTry2, p2]
  · rw [e2]; simp [energyFetchData2, energyTry2, p2]
  · rw [e1]; simp [energyFetchData2, energyTry2, p2, energyCard2, oilChart2Data, strTruthy]
  · rw [e2]; simp [energyFetchData2, energyTry2, p2, energyCard2, oilChart2Data, strTruthy]
  · intro s t h; simp [oilChartData, h]

/-- C23, refuted as stated.  The fetch of the inflation file is rejected
while the other two files arrive with a row each: the commodities are
committed, but the food price index, whose file would have given one value,
is never loaded and stays `null`, and the page renders the error page in
place of every chart. -/
theorem food_failure_is_not_confined :
    processFoodPriceIndexData isoDay [[("date", "2020-01-15"), ("value", "1")]]
      = { dates := [JSDate.valid 2020 0 15], values := [JSNum.fin 1] } ∧
    (foodLoadData isoDay (Fetched.response true [[("date", "2020-01-15"), ("corn", "2")]])
        (Fetched.rejected "Failed to fetch")
        (Fetched.response true [[("date", "2020-01-15"), ("value", "1")]])
        FoodState.initial).foodPriceIndexData = none ∧
    foodView (foodLoadData isoDay
        (Fetched.response true [[("date", "2020-01-15"), ("corn", "2")]])
        (Fetched.rejected "Failed to fetch")
        (Fetched.response true [[("date", "2020-01-15"), ("value", "1")]])
        FoodState.initial)
      = FoodView.errorPage "Failed to load data. Please try again later." := by
  refine ⟨?_, ?_, ?_⟩
  · simp [processFoodPriceIndexData_eq, RawRow.field, List.lookup, strTruthy, isoDay_jan15,
      parseFloat_str_one]
  · simp [foodLoadData, foodCatch, FoodState.initial]
  · simp [foodLoadData, foodCatch, FoodState.initial, foodView, strTruthy]

/-- C23 as amended.  A rejected fetch of one of the three CSV files ends
`loadData`: the datasets before it are committed, it and the datasets after
it are not loaded and keep their previous value, the one `error` of the page
is set to its fixed message and `loading` is cleared; the page then renders
the error page with that message and no chart. -/
theorem food_failure_ends_load (newDate : DateCtor) (s : FoodState) (message : String)
    (ok1 ok2 : Bool) (rows1 rows2 : List RawRow) (f2 f3 : Fetched) :
    foodLoadData newDate (Fetched.rejected message) f2 f3 s
      = { s with foodData := some foodSeries,
                 error := some "Failed to load data. Please try again later.",
                 loading := false } ∧
    foodLoadData newDate (Fetched.response ok1 rows1) (Fetched.rejected message) f3 s
      = { s with foodData := some foodSeries,
                 agriData := some (processAgriData newDate rows1),
                 error := some "Failed to load data. Please try again later.",
                 loading := false } ∧
    foodLoadData newDate (Fetched.response ok1 rows1) (Fetched.response ok2 rows2)
        (Fetched.rejected message) s
      = { s with foodData := some foodSeries,
                 agriData := some (processAgriData newDate rows1),
                 inflationData := some (processInflationData newDate rows2),
                 error := some "Failed to load data. Please try again later.",
                 loading := false } ∧
    foodView (foodLoadData newDate (Fetched.rejected message) f2 f3 s)
      = FoodView.errorPage "Failed to load data. Please try again later." ∧
    foodView (foodLoadData newDate (Fetched.response ok1 rows1) (Fetched.rejected message) f3 s)
      = FoodView.errorPage "Failed to load data. Please try again later." ∧
    foodView (foodLoadData newDate (Fetched.response ok1 rows1) (Fetched.response ok2 rows2)
        (Fetched.rejected message) s)
      = FoodView.errorPage "Failed to load data. Please try again later." := by
  refine ⟨?_, ?_, ?_, ?_, ?_, ?_⟩ <;> simp [foodLoadData, foodCatch, foodView, strTruthy]

/-- C24.  The exchange rate index load leaves `reservesData` and
`loadingReserves` as they were, and the reserves load leaves
`exchangeRateIndexData` and `loadingExchangeRate` as they were, whatever the
two fetches gave (a rejection, a failed response, rows); so the card of one
dataset renders the same before and after the other load, and the two loads
reach the same state in either order of completion. -/
theorem finance_loads_write_own_slots (f g : Fetched) (s : FinanceState) :
    (loadExchangeRateData f s).reservesData = s.reservesData ∧
    (loadExchangeRateData f s).loadingReserves = s.loadingReserves ∧
    (loadReservesData g s).exchangeRateIndexData = s.exchangeRateIndexData ∧
    (loadReservesData g s).loadingExchangeRate = s.loadingExchangeRate ∧
    reservesCard (loadExchangeRateData f s) = reservesCard s ∧
    exchangeCard (loadReservesData g s) = exchangeCard s ∧
    loadReservesData g (loadExchangeRateData f s)
      = loadExchangeRateData f (loadReservesData g s) := by
  have hx : (loadExchangeRateData f s).reservesData = s.reservesData ∧
      (loadExchangeRateData f s).loadingReserves = s.loadingReserves := by
    rcases f with m | ⟨ok, rows⟩
    · simp [loadExchangeRateData, exchangeTry]
    · cases ok <;> simp [loadExchangeRateData, exchangeTry]
  have hr : (loadReservesData g s).exchangeRateIndexData = s.exchangeRateIndexData ∧
      (loadReservesData g s).loadingExchangeRate = s.loadingExchangeRate := by
    rcases g with m | ⟨ok, rows⟩
    · simp [loadReservesData, reservesTry]
    · cases ok <;> simp [loadReservesData, reservesTry]
  refine ⟨hx.1, hx.2, hr.1, hr.2, ?_, ?_, ?_⟩
  · simp [reservesCard, reservesChartData, hx.1, hx.2]
  · simp [exchangeCard, exchangeRateIndexDataChart, hr.1, hr.2]
  · rcases f with m | ⟨ok, rows⟩ <;> rcases g with m2 | ⟨ok2, rows2⟩
    · simp [loadExchangeRateData, exchangeTry, loadReservesData, reservesTry]
    · cases ok2 <;> simp [loadExchangeRateData, exchangeTry, loadReservesData, reservesTry]
    · cases ok <;> simp [loadExchangeRateData, exchangeTry, loadReservesData, reservesTry]
    · cases ok <;> cases ok2 <;>
        simp [loadExchangeRateData, exchangeTry, loadReservesData, reservesTry]

/-- C28.  When no row of `plot_3a1.csv` has both a date that parses and a
non-null numeric field, the processed list is empty and the first Energy
loader ends with `error` set to `No valid data found after processing` and
`loading` false; every other field of the state, `oilData` among them, is as
before, so from the initial state `oilData` is still `null`. -/
theorem energy_empty_result_sets_error (chrono : DateParser) (rows : List RawRow)
    (s : EnergyState)
    (h : ∀ row ∈ rows, ∀ r, oilRow chrono row = some r →
      r.europe = none ∧ r.middleeast = none ∧ r.russia = none) :
    oilProcessed chrono rows = [] ∧
    energyFetchData chrono (Fetched.response true rows) s
      = { s with error := some "No valid data found after processing", loading := false } ∧
    (energyFetchData chrono (Fetched.response true rows) s).oilData = s.oilData ∧
    (energyFetchData chrono (Fetched.response true rows) EnergyState.initial).oilData
      = none := by
  have hp : oilProcessed chrono rows = [] := by
    rw [List.eq_nil_iff_forall_not_mem]
    intro r hr
    rw [mem_oilProcessed] at hr
    obtain ⟨⟨row, hrow, hrr⟩, hsome⟩ := hr
    obtain ⟨h1, h2, h3⟩ := h row hrow r hrr
    simp [h1, h2, h3] at hsome
  refine ⟨hp, ?_, ?_, ?_⟩ <;> simp [energyFetchData, energyTry, hp, EnergyState.initial]

/-- C28, on a row whose date does not parse and a dated row whose
three cells are `NA`, which coerce to `null`. -/
theorem energy_empty_result_sets_error_witness :
    energyFetchData isoChrono
        (Fetched.response true
          [[("date", "soon"), ("europe", "1")],
           [("date", "2020-01-15"), ("europe", "NA"), ("middleeast", "NA"), ("russia", "NA")]])
        EnergyState.initial
      = { oilData := none, oilData2 := none, loading := false,
          error := some "No valid data found after processing", loading2 := true,
          error2 := none } := by
  have hsoon : isoChrono (some "soon") = none := by decide
  have habs : parseFloat none = JSNum.nan := rfl
  exact (energy_empty_result_sets_error isoChrono _ EnergyState.initial (by
    intro row hrow r hr
    simp only [List.mem_cons, List.mem_singleton, List.not_mem_nil, or_false] at hrow
    rcases hrow with rfl | rfl
    · simp [oilRow, RawRow.field, List.lookup, hsoon] at hr
    · simp [oilRow, RawRow.field, List.lookup, isoChrono_jan15, parseFloat_str_NA, orNull_nan,
        unlessNA] at hr
      subst hr
      exact ⟨rfl, rfl, rfl⟩)).2.1

/-! ## Inflation -/

/-- C26.  The four series of `processInflationData` hold, for the rows with
a date in input order, `null` where the raw cell is exactly `NA` and the
parsed cell times `100` otherwise (a finite `q` gives `q * 100`; a cell that
does not parse gives `NaN`); the rows without a date add nothing, to the
series as to the dates. -/
theorem inflation_scaled_or_null (newDate : DateCtor) (rows : List RawRow) :
    (processInflationData newDate rows).developingCountries
      = (rows.filter (fun row => strTruthy (row.field "date"))).map (fun row =>
          if row.field "developing" = some "NA" then none
          else some (JSNum.mul (parseFloat (row.field "developing")) (JSNum.fin 100))) ∧
    (processInflationData newDate rows).africa
      = (rows.filter (fun row => strTruthy (row.field "date"))).map (fun row =>
          if row.field "africa" = some "NA" then none
          else some (JSNum.mul (parseFloat (row.field "africa")) (JSNum.fin 100))) ∧
    (processInflationData newDate rows).asiaoceania
      = (rows.filter (fun row => strTruthy (row.field "date"))).map (fun row =>
          if row.field "asiaoceania" = some "NA" then none
          else some (JSNum.mul (parseFloat (row.field "asiaoceania")) (JSNum.fin 100))) ∧
    (processInflationData newDate rows).america
      = (rows.filter (fun row => strTruthy (row.field "date"))).map (fun row =>
          if row.field "america" = some "NA" then none
          else some (JSNum.mul (parseFloat (row.field "america")) (JSNum.fin 100))) ∧
    (processInflationData newDate rows).dates
      = (rows.filter (fun row => strTruthy (row.field "date"))).map (fun row =>
          newDate ((row.field "date").getD "")) ∧
    processInflationData newDate rows
      = processInflationData newDate
          (rows.filter (fun row => strTruthy (row.field "date"))) ∧
    (∀ q : ℚ, JSNum.mul (JSNum.fin q) (JSNum.fin 100) = JSNum.fin (q * 100)) ∧
    JSNum.mul JSNum.nan (JSNum.fin 100) = JSNum.nan := by
  refine ⟨?_, ?_, ?_, ?_, ?_, ?_, ?_, ?_⟩
  · rw [processInflationData_eq]; rfl
  · rw [processInflationData_eq]; rfl
  · rw [processInflationData_eq]; rfl
  · rw [processInflationData_eq]; rfl
  · rw [processInflationData_eq]
  · rw [processInflationData_eq, processInflationData_eq, List.filter_filter]
    simp
  · intro q; rfl
  · rfl

/-! ## Session -/

theorem mem_splitsAt (sep : Char) (cs : List Char) (p : List Char × List Char) :
    p ∈ splitsAt sep cs ↔ cs = p.1 ++ sep :: p.2 := by
  induction cs generalizing p with
  | nil => simp [splitsAt]
  | cons c cs ih =>
    obtain ⟨a, b⟩ := p
    simp only [splitsAt, List.mem_append, List.mem_map]
    constructor
    · rintro (h | ⟨q, hq, hqe⟩)
      · by_cases hc : c = sep
        · simp only [hc, if_true, List.mem_singleton, Prod.mk.injEq] at h
          obtain ⟨rfl, rfl⟩ := h
          simp [hc]
        · simp [hc] at h
      · rw [ih] at hq
        simp only [Prod.mk.injEq] at hqe
        obtain ⟨rfl, rfl⟩ := hqe
        simp [hq]
    · intro h
      cases a with
      | nil =>
        simp only [List.nil_append, List.cons.injEq] at h
        left
        simp [h.1, h.2]
      | cons d t =>
        simp only [List.cons_append, List.cons.injEq] at h
        right
        exact ⟨(t, b), (ih (t, b)).2 h.2, by simp [h.1]⟩

theorem classRun_iff (cs : List Char) :
    classRun cs = true ↔ cs ≠ [] ∧ ∀ c ∈ cs, isStrWhiteSpace c = false ∧ c ≠ '@' := by
  cases cs <;> simp [classRun]

/-- The test matches exactly the texts that are three runs of `[^\s@]`, the
first two joined by `@`, the last two by a dot. -/
theorem emailTest_iff (email : String) :
    emailTest email = true ↔
      ∃ a b c : List Char, email.toList = a ++ '@' :: (b ++ '.' :: c) ∧
        classRun a = true ∧ classRun b = true ∧ classRun c = true := by
  unfold emailTest
  simp only [List.any_eq_true, Bool.and_eq_true, mem_splitsAt]
  constructor
  · rintro ⟨p, hp, ha, q, hq, hb, hc⟩
    exact ⟨p.1, q.1, q.2, by rw [hp, hq], ha, hb, hc⟩
  · rintro ⟨a, b, c, h, ha, hb, hc⟩
    exact ⟨(a, b ++ '.' :: c), h, ha, (b, c), rfl, hb, hc⟩

/-- The test in the words of the form `local@domain.tld`: the text is cut
into three non-empty parts by an `@` and a dot after it, it has no white
space, and it has one `@`. -/
theorem emailTest_iff_form (email : String) :
    emailTest email = true ↔
      (∃ a b c : List Char, a ≠ [] ∧ b ≠ [] ∧ c ≠ [] ∧
        email.toList = a ++ '@' :: (b ++ '.' :: c)) ∧
      (∀ ch ∈ email.toList, isStrWhiteSpace ch = false) ∧
      email.toList.count '@' = 1 := by
  rw [emailTest_iff]
  have hat : isStrWhiteSpace '@' = false := by decide
  have hdot : isStrWhiteSpace '.' = false := by decide
  have hne : ('.' : Char) ≠ '@' := by decide
  constructor
  · rintro ⟨a, b, c, h, ha, hb, hc⟩
    rw [classRun_iff] at ha hb hc
    refine ⟨⟨a, b, c, ha.1, hb.1, hc.1, h⟩, ?_, ?_⟩
    · intro ch hch
      rw [h] at hch
      simp only [List.mem_append, List.mem_cons] at hch
      rcases hch with hch | rfl | hch | rfl | hch
      · exact (ha.2 ch hch).1
      · exact hat
      · exact (hb.2 ch hch).1
      · exact hdot
      · exact (hc.2 ch hch).1
    · have ca : a.count '@' = 0 := List.count_eq_zero.2 (fun hm => (ha.2 _ hm).2 rfl)
      have cb : b.count '@' = 0 := List.count_eq_zero.2 (fun hm => (hb.2 _ hm).2 rfl)
      have cc : c.count '@' = 0 := List.count_eq_zero.2 (fun hm => (hc.2 _ hm).2 rfl)
      rw [h]
      simp [List.count_append, List.count_cons, ca, cb, cc, hne]
  · rintro ⟨⟨a, b, c, ha, hb, hc, h⟩, hws, hcount⟩
    rw [h] at hcount hws
    simp only [List.count_append, List.count_cons, beq_self_eq_true, if_true] at hcount
    have ca : a.count '@' = 0 := by omega
    have cb : b.count '@' = 0 := by omega
    have cc : c.count '@' = 0 := by omega
    refine ⟨a, b, c, h, ?_, ?_, ?_⟩
    · rw [classRun_iff]
      refine ⟨ha, fun ch hch => ⟨hws ch (by simp [hch]), ?_⟩⟩
      rintro rfl
      exact List.count_eq_zero.1 ca hch
    · rw [classRun_iff]
      refine ⟨hb, fun ch hch => ⟨hws ch (by simp [hch]), ?_⟩⟩
      rintro rfl
      exact List.count_eq_zero.1 cb hch
    · rw [classRun_iff]
      refine ⟨hc, fun ch hch => ⟨hws ch (by simp [hch]), ?_⟩⟩
      rintro rfl
      exact List.count_eq_zero.1 cc hch

theorem signupTry_ok_iff (name email password : String) (u : User) :
    signupTry name email password = Except.ok u ↔
      (name ≠ "" ∧ email ≠ "" ∧ password ≠ "" ∧ emailTest email = true ∧
        8 ≤ jsLength password) ∧ u = { name := name, email := email } := by
  unfold signupTry
  by_cases h1 : name = "" ∨ email = "" ∨ password = ""
  · rw [if_pos h1]
    constructor
    · intro h; cases h
    · rintro ⟨⟨hn, he, hp, _⟩, _⟩
      rcases h1 with h | h | h
      · exact absurd h hn
      · exact absurd h he
      · exact absurd h hp
  · rw [if_neg h1]
    push_neg at h1
    by_cases h2 : emailTest email = true
    · by_cases h3 : jsLength password < 8
      · simp [h2, h3]
      · simp only [h2, h3, Bool.not_true, Bool.false_eq_true, if_false, Except.ok.injEq]
        constructor
        · intro h
          exact ⟨⟨h1.1, h1.2.1, h1.2.2, trivial, by omega⟩, h.symm⟩
        · intro h
          exact h.2.symm
    · simp [h2]

theorem loginTry_ok_iff (email password : String) (u : User) :
    loginTry email password = Except.ok u ↔
      (email ≠ "" ∧ password ≠ "") ∧ u = { name := "User", email := email } := by
  unfold loginTry
  by_cases h1 : email = "" ∨ password = ""
  · rw [if_pos h1]
    constructor
    · intro h; cases h
    · rintro ⟨⟨he, hp⟩, _⟩
      rcases h1 with h | h
      · exact absurd h he
      · exact absurd h hp
  · rw [if_neg h1]
    push_neg at h1
    simp only [Except.ok.injEq]
    constructor
    · intro h; exact ⟨h1, h.symm⟩
    · intro h; exact h.2.symm

/-- C27.  The object given to `setUser` has the two fields `name` and
`email` and is computed without the password: a Login submit with a
non-empty email and a non-empty password stores the name `User` and the
entered email, and two successful submits of Login, or of Signup, that
differ only in the password end in the same state, with the same stored
user. -/
theorem session_user_independent_of_password (name email p1 p2 : String) (s : AuthState) :
    (email ≠ "" → p1 ≠ "" →
      loginSubmit email p1 s
        = { user := some { name := "User", email := email }, isLoading := false,
            error := "" }) ∧
    ((∃ u, loginTry email p1 = Except.ok u) → (∃ u, loginTry email p2 = Except.ok u) →
      loginSubmit email p1 s = loginSubmit email p2 s) ∧
    ((∃ u, signupTry name email p1 = Except.ok u) →
      (∃ u, signupTry name email p2 = Except.ok u) →
      signupSubmit name email p1 s = signupSubmit name email p2 s ∧
      (signupSubmit name email p1 s).user = some { name := name, email := email }) := by
  refine ⟨?_, ?_, ?_⟩
  · intro he hp
    have h : loginTry email p1 = Except.ok { name := "User", email := email } :=
      (loginTry_ok_iff email p1 _).2 ⟨⟨he, hp⟩, rfl⟩
    simp [loginSubmit, h]
  · rintro ⟨u1, h1⟩ ⟨u2, h2⟩
    have e1 := ((loginTry_ok_iff email p1 u1).1 h1).2
    have e2 := ((loginTry_ok_iff email p2 u2).1 h2).2
    simp [loginSubmit, h1, h2, e1, e2]
  · rintro ⟨u1, h1⟩ ⟨u2, h2⟩
    have e1 := ((signupTry_ok_iff name email p1 u1).1 h1).2
    have e2 := ((signupTry_ok_iff name email p2 u2).1 h2).2
    simp [signupSubmit, h1, h2, e1, e2]

/-- C27, on the email `a@b.co` with the passwords `password1` and
`12345678`. -/
theorem session_user_independent_of_password_witness :
    loginSubmit "a@b.co" "password1" { user := none, isLoading := true, error := "" }
      = { user := some { name := "User", email := "a@b.co" }, isLoading := false,
          error := "" } ∧
    loginSubmit "a@b.co" "password1" { user := none, isLoading := true, error := "" }
      = loginSubmit "a@b.co" "12345678" { user := none, isLoading := true, error := "" } ∧
    signupSubmit "Ann" "a@b.co" "password1" { user := none, isLoading := true, error := "" }
      = signupSubmit "Ann" "a@b.co" "12345678"
          { user := none, isLoading := true, error := "" } ∧
    (signupSubmit "Ann" "a@b.co" "password1"
        { user := none, isLoading := true, error := "" }).user
      = some { name := "Ann", email := "a@b.co" } :=
  have h := session_user_independent_of_password "Ann" "a@b.co" "password1" "12345678"
    { user := none, isLoading := true, error := "" }
  ⟨h.1 (by decide) (by decide),
   h.2.1
     ⟨_, (loginTry_ok_iff "a@b.co" "password1" _).2 ⟨⟨by decide, by decide⟩, rfl⟩⟩
     ⟨_, (loginTry_ok_iff "a@b.co" "12345678" _).2 ⟨⟨by decide, by decide⟩, rfl⟩⟩,
   h.2.2
     ⟨_, (signupTry_ok_iff "Ann" "a@b.co" "password1" _).2
       ⟨⟨by decide, by decide, by decide, by decide, by decide⟩, rfl⟩⟩
     ⟨_, (signupTry_ok_iff "Ann" "a@b.co" "12345678" _).2
       ⟨⟨by decide, by decide, by decide, by decide, by decide⟩, rfl⟩⟩⟩

/-- C29.  The `try` block of the Signup submit gives a user exactly when
the three fields are non-empty, the email passes the test, that is has the
form `local@domain.tld` with no white space and one `@`, and the password
has at least 8 characters as `length` counts them; the user is then
`{ name, email }`, stored with the error left empty.  Otherwise the stored
user is unchanged and the error is one message: that of the missing field
if a field is empty, else that of the email if the test fails, else that of
the password. -/
theorem signup_stores_user_iff_valid (name email password : String) (s : AuthState) :
    ((∃ u, signupTry name email password = Except.ok u) ↔
      (name ≠ "" ∧ email ≠ "" ∧ password ≠ "" ∧ emailTest email = true ∧
        8 ≤ jsLength password)) ∧
    ((name ≠ "" ∧ email ≠ "" ∧ password ≠ "" ∧ emailTest email = true ∧
        8 ≤ jsLength password) →
      signupSubmit name email password s
        = { user := some { name := name, email := email }, isLoading := false,
            error := "" }) ∧
    ((name = "" ∨ email = "" ∨ password = "") →
      signupSubmit name email password s
        = { user := s.user, isLoading := false, error := "Please fill in all fields" }) ∧
    (name ≠ "" → email ≠ "" → password ≠ "" → emailTest email = false →
      signupSubmit name email password s
        = { user := s.user, isLoading := false,
            error := "Please enter a valid email address" }) ∧
    (name ≠ "" → email ≠ "" → password ≠ "" → emailTest email = true →
      jsLength password < 8 →
      signupSubmit name email password s
        = { user := s.user, isLoading := false,
            error := "Password must be at least 8 characters" }) ∧
    (emailTest email = true ↔
      (∃ a b c : List Char, a ≠ [] ∧ b ≠ [] ∧ c ≠ [] ∧
        email.toList = a ++ '@' :: (b ++ '.' :: c)) ∧
      (∀ ch ∈ email.toList, isStrWhiteSpace ch = false) ∧
      email.toList.count '@' = 1) := by
  refine ⟨?_, ?_, ?_, ?_, ?_, emailTest_iff_form email⟩
  · constructor
    · rintro ⟨u, hu⟩
      exact ((signupTry_ok_iff name email password u).1 hu).1
    · intro h
      exact ⟨_, (signupTry_ok_iff name email password _).2 ⟨h, rfl⟩⟩
  · intro h
    have h1 := (signupTry_ok_iff name email password _).2 ⟨h, rfl⟩
    simp [signupSubmit, h1]
  · intro h
    simp [signupSubmit, signupTry, h]
  · intro hn he hp ht
    simp [signupSubmit, signupTry, hn, he, hp, ht]
  · intro hn he hp ht hl
    simp [signupSubmit, signupTry, hn, he, hp, ht, hl]

/-- C29, on a valid form, a form without a name, the email `a@b`
without a dot after the `@`, and the password `1234567` of 7 characters. -/
theorem signup_stores_user_iff_valid_witness :
    signupSubmit "Ann" "a@b.co" "12345678"
        { user := none, isLoading := true, error := "" }
      = { user := some { name := "Ann", email := "a@b.co" }, isLoading := false,
          error := "" } ∧
    signupSubmit "" "a@b" "1234567"
        { user := some { name := "Bob", email := "b@c.de" }, isLoading := true, error := "" }
      = { user := some { name := "Bob", email := "b@c.de" }, isLoading := false,
          error := "Please fill in all fields" } ∧
    signupSubmit "Ann" "a@b" "1234567"
        { user := some { name := "Bob", email := "b@c.de" }, isLoading := true, error := "" }
      = { user := some { name := "Bob", email := "b@c.de" }, isLoading := false,
          error := "Please enter a valid email address" } ∧
    signupSubmit "Ann" "a@b.co" "1234567"
        { user := some { name := "Bob", email := "b@c.de" }, isLoading := true, error := "" }
      = { user := some { name := "Bob", email := "b@c.de" }, isLoading := false,
          error := "Password must be at least 8 characters" } :=
  ⟨(signup_stores_user_iff_valid "Ann" "a@b.co" "12345678"
      { user := none, isLoading := true, error := "" }).2.1
      ⟨by decide, by decide, by decide, by decide, by decide⟩,
   (signup_stores_user_iff_valid "" "a@b" "1234567"
      { user := some { name := "Bob", email := "b@c.de" }, isLoading := true,
        error := "" }).2.2.1 (Or.inl rfl),
   (signup_stores_user_iff_valid "Ann" "a@b" "1234567"
      { user := some { name := "Bob", email := "b@c.de" }, isLoading := true,
        error := "" }).2.2.2.1 (by decide) (by decide) (by decide) (by decide),
   (signup_stores_user_iff_valid "Ann" "a@b.co" "1234567"
      { user := some { name := "Bob", email := "b@c.de" }, isLoading := true,
        error := "" }).2.2.2.2.1 (by decide) (by decide) (by decide) (by decide) (by decide)⟩

/-! ## Development status distribution -/

theorem devStatusData_eq (data : List PredictionRecord)
    (h : ∀ r ∈ data, r.development_status ∉ protoNames) :
    devStatusData data
      = (firstSeen (data.map (fun r => r.development_status))).map (fun k =>
          (k, PieValue.count
            (recordsOf (fun r : PredictionRecord => r.development_status) data k).length)) := by
  have hstep : ∀ (l : List PredictionRecord) (acc : JSObject PieValue),
      (∀ r ∈ l, r.development_status ∉ protoNames) →
      l.foldl devStatusStep acc
        = l.foldl (groupStep (fun r : PredictionRecord => r.development_status)
            (fun _ => PieValue.count 0) (fun v _ => v.plusOne)) acc := by
    intro l
    induction l with
    | nil => intro acc _; rfl
    | cons r rs ih =>
      intro acc hl
      have hr : r.development_status ∉ protoNames := hl r (List.mem_cons_self _ _)
      have hp : r.development_status ≠ "__proto__" := by
        intro he
        apply hr
        rw [he]
        decide
      have hs : devStatusStep acc r
          = groupStep (fun r : PredictionRecord => r.development_status)
              (fun _ => PieValue.count 0) (fun v _ => v.plusOne) acc r := by
        simp [devStatusStep, groupStep, hr, hp]
      rw [List.foldl_cons, List.foldl_cons, hs]
      exact ih _ (fun x hx => hl x (List.mem_cons_of_mem _ hx))
  unfold devStatusData
  rw [hstep data [] h]
  exact foldl_groupStep (fun r : PredictionRecord => r.development_status)
    (fun _ => PieValue.count 0) (fun v _ => v.plusOne)
    (fun rs => PieValue.count rs.length) (fun r => rfl)
    (fun rs r _ => by simp [PieValue.plusOne]) data

theorem sum_recordsOf_length {ρ : Type} (key : ρ → String) (rows : List ρ) :
    ((firstSeen (rows.map key)).map (fun k => (recordsOf key rows k).length)).sum
      = rows.length := by
  induction rows using List.reverseRecOn with
  | nil => simp [firstSeen]
  | append_singleton rs r ih =>
    rw [List.map_append, List.map_cons, List.map_nil, firstSeen_snoc]
    have hsum : ∀ (ks : List String), ks.Nodup →
        (ks.map (fun k => (recordsOf key (rs ++ [r]) k).length)).sum
          = (ks.map (fun k => (recordsOf key rs k).length)).sum
            + (if key r ∈ ks then 1 else 0) := by
      intro ks
      induction ks with
      | nil => intro _; simp
      | cons a l ihl =>
        intro hnd
        rw [List.nodup_cons] at hnd
        rw [List.map_cons, List.sum_cons, List.map_cons, List.sum_cons, ihl hnd.2,
          recordsOf_snoc, List.length_append]
        by_cases ha : key r = a
        · subst ha
          simp [hnd.1]
          omega
        · have hne : ¬ a = key r := fun e => ha e.symm
          by_cases hl : key r ∈ l
          · simp [ha, hl]
            omega
          · simp [ha, hl, hne]
    by_cases hmem : key r ∈ firstSeen (rs.map key)
    · rw [if_pos hmem, hsum _ (nodup_firstSeen _), ih, if_pos hmem, List.length_append]
      rfl
    · rw [if_neg hmem, List.map_append, List.sum_append, hsum _ (nodup_firstSeen _), ih,
        if_neg hmem, List.length_append]
      have h0 : recordsOf key rs (key r) = [] := recordsOf_eq_nil key rs (key r) hmem
      simp [recordsOf_snoc, h0]

/-- C30.  For cleaned records none of whose development status names a
property that a plain object inherits, `pieData` has one entry for each
status that occurs and no other, the value of an entry is the number of
records with its status, and the values add up to the number of records.  A
row without a status is a record of the status `Unknown`. -/
theorem pie_counts_each_status (data : List PredictionRecord)
    (h : ∀ r ∈ data, r.development_status ∉ protoNames) :
    ((pieData data).map (fun e => e.1)).Nodup ∧
    (∀ k, k ∈ (pieData data).map (fun e => e.1) ↔ ∃ r ∈ data, r.development_status = k) ∧
    (∀ e ∈ pieData data,
      e.2 = PieValue.count
        (recordsOf (fun r : PredictionRecord => r.development_status) data e.1).length) ∧
    (pieData data).map (fun e => e.2)
      = ((pieData data).map (fun e =>
          (recordsOf (fun r : PredictionRecord => r.development_status) data e.1).length)).map
          PieValue.count ∧
    ((pieData data).map (fun e =>
        (recordsOf (fun r : PredictionRecord => r.development_status) data e.1).length)).sum
      = data.length ∧
    (∀ chrono : DateParser, (predictionRow chrono []).development_status = "Unknown") ∧
    (∀ chrono : DateParser,
      (predictionRow chrono [("development_status", "")]).development_status = "Unknown") := by
  have hperm : (pieData data).Perm
      ((firstSeen (data.map (fun r => r.development_status))).map (fun k =>
        (k, PieValue.count
          (recordsOf (fun r : PredictionRecord => r.development_status) data k).length))) := by
    show ((objectEntries (devStatusData data)).map id).Perm _
    rw [List.map_id, ← devStatusData_eq data h]
    exact objectEntries_perm _
  have hval : ∀ e ∈ pieData data,
      e.2 = PieValue.count
        (recordsOf (fun r : PredictionRecord => r.development_status) data e.1).length := by
    intro e he
    have he2 := hperm.mem_iff.1 he
    obtain ⟨k, _, hk⟩ := List.mem_map.1 he2
    rw [← hk]
  refine ⟨?_, ?_, hval, ?_, ?_, ?_, ?_⟩
  · have h1 := (hperm.map (fun e => e.1)).nodup_iff
    rw [h1, List.map_map]
    have hid : ((fun e : String × PieValue => e.1) ∘ fun k =>
        (k, PieValue.count
          (recordsOf (fun r : PredictionRecord => r.development_status) data k).length))
        = id := rfl
    rw [hid, List.map_id]
    exact nodup_firstSeen _
  · intro k
    rw [(hperm.map (fun e => e.1)).mem_iff, List.map_map]
    have hid : ((fun e : String × PieValue => e.1) ∘ fun k =>
        (k, PieValue.count
          (recordsOf (fun r : PredictionRecord => r.development_status) data k).length))
        = id := rfl
    rw [hid, List.map_id, mem_firstSeen, List.mem_map]
  · rw [List.map_map]
    apply List.map_congr_left
    intro e he
    exact hval e he
  · have h2 := (hperm.map (fun e =>
        (recordsOf (fun r : PredictionRecord => r.development_status) data e.1).length)).sum_eq
    rw [h2, List.map_map]
    exact sum_recordsOf_length (fun r : PredictionRecord => r.development_status) data
  · intro chrono; rfl
  · intro chrono
    simp [predictionRow, RawRow.field, List.lookup, strOr]

/-- C30, on three records, two of the status `Developing` and one of
the status `Unknown`. -/
theorem pie_counts_each_status_witness :
    (pieData
        [{ sampleRecord "a" "A" (JSNum.fin 0) with development_status := "Developing" },
         sampleRecord "b" "B" (JSNum.fin 0),
         { sampleRecord "c" "C" (JSNum.fin 0) with development_status := "Developing" }]).map
        (fun e => e.2)
      = ((pieData
          [{ sampleRecord "a" "A" (JSNum.fin 0) with development_status := "Developing" },
           sampleRecord "b" "B" (JSNum.fin 0),
           { sampleRecord "c" "C" (JSNum.fin 0) with development_status := "Developing" }]).map
          (fun e =>
            (recordsOf (fun r : PredictionRecord => r.development_status)
              [{ sampleRecord "a" "A" (JSNum.fin 0) with development_status := "Developing" },
               sampleRecord "b" "B" (JSNum.fin 0),
               { sampleRecord "c" "C" (JSNum.fin 0) with
                   development_status := "Developing" }] e.1).length)).map
          PieValue.count :=
  (pie_counts_each_status
    [{ sampleRecord "a" "A" (JSNum.fin 0) with development_status := "Developing" },
     sampleRecord "b" "B" (JSNum.fin 0),
     { sampleRecord "c" "C" (JSNum.fin 0) with development_status := "Developing" }]
    (by
      intro r hr
      simp only [List.mem_cons, List.mem_singleton, List.not_mem_nil, or_false] at hr
      rcases hr with rfl | rfl | rfl <;> decide)).2.2.2.1

end GSECD
